import Mathlib

/-!
Shallow embedding of the tic-tac-toe program in `src/src/main.rs`.

The Rust board is `[[Square; 3]; 3]`, embedded as a record with one field
per cell; `getCell`/`setCell` implement `board[i][j]` reads and writes by
case analysis on the two indices.  The mutable `Game` struct becomes an
immutable record; `make_move` returns the success flag together with the
updated state, and `minimax`, which takes `&mut Game` and restores the
board before returning, is embedded as a function that returns the final
state as the third component of its result, so that the restoration
property is a theorem rather than being baked in.  The recursion of
`minimax` is expressed with an explicit fuel parameter; fuel `10` is
enough for any board (at most 9 empty cells), which the fuel-stability
theorem below makes precise.
-/

set_option maxHeartbeats 4000000

/-- `enum Square { X, O, Empty }`. -/
inductive Square where
  | X : Square
  | O : Square
  | Empty : Square
deriving DecidableEq, Repr

/-- `Square::flip`: swap `X` and `O`, keep `Empty`. -/
def Square.flip : Square → Square
  | .X => .O
  | .O => .X
  | .Empty => .Empty

/-- `type Board = [[Square; SIZE]; SIZE]` with `SIZE = 3`: one field per
cell, `cRC` being the cell at row `R`, column `C`. -/
structure Board where
  c00 : Square
  c01 : Square
  c02 : Square
  c10 : Square
  c11 : Square
  c12 : Square
  c20 : Square
  c21 : Square
  c22 : Square
deriving DecidableEq, Repr

/-- `board[r][c]`. -/
def getCell (b : Board) (r c : Fin 3) : Square :=
  if r.val = 0 then
    if c.val = 0 then b.c00 else if c.val = 1 then b.c01 else b.c02
  else if r.val = 1 then
    if c.val = 0 then b.c10 else if c.val = 1 then b.c11 else b.c12
  else
    if c.val = 0 then b.c20 else if c.val = 1 then b.c21 else b.c22

/-- `board[r][c] = s`. -/
def setCell (b : Board) (r c : Fin 3) (s : Square) : Board :=
  if r.val = 0 then
    if c.val = 0 then { b with c00 := s }
    else if c.val = 1 then { b with c01 := s }
    else { b with c02 := s }
  else if r.val = 1 then
    if c.val = 0 then { b with c10 := s }
    else if c.val = 1 then { b with c11 := s }
    else { b with c12 := s }
  else
    if c.val = 0 then { b with c20 := s }
    else if c.val = 1 then { b with c21 := s }
    else { b with c22 := s }

/-- `[[Square::Empty; SIZE]; SIZE]`. -/
def emptyBoard : Board :=
  ⟨Square.Empty, Square.Empty, Square.Empty, Square.Empty, Square.Empty,
   Square.Empty, Square.Empty, Square.Empty, Square.Empty⟩

/-- `struct Game { board, player, human, agent }`. -/
structure Game where
  board : Board
  player : Square
  human : Square
  agent : Square
deriving DecidableEq, Repr

/-- `Game::new()`: empty board, `player = X`, `human = X`, `agent = O`. -/
def Game.new : Game :=
  { board := emptyBoard
    player := Square.X
    human := Square.X
    agent := Square.O }

/-- The index list `0..SIZE` for `SIZE = 3`. -/
def range3 : List (Fin 3) := [0, 1, 2]

/-- `SIZE - i - 1`, the anti-diagonal column index. -/
def revIdx (i : Fin 3) : Fin 3 := ⟨2 - i.val, by omega⟩

/-- `Game::is_winner(player)`: some row, column, or diagonal is entirely
`player`'s mark. -/
def is_winner (g : Game) (player : Square) : Bool :=
  let win_horizontal :=
    range3.any fun i => range3.all fun j => getCell g.board i j == player
  let win_vertical :=
    range3.any fun col => range3.all fun row => getCell g.board row col == player
  let win_diagonal_down := range3.all fun i => getCell g.board i i == player
  let win_diagonal_up := range3.all fun i => getCell g.board i (revIdx i) == player
  win_horizontal || win_vertical || win_diagonal_down || win_diagonal_up

/-- `Game::is_draw()`: every cell is non-`Empty`. -/
def is_draw (g : Game) : Bool :=
  range3.all fun i => range3.all fun j => getCell g.board i j != Square.Empty

/-- `Game::make_move(row, col)`: on an `Empty` cell, place the current
player's mark and flip the player, returning `true`; otherwise return
`false` and leave the state unchanged.  The updated state is returned as
the second component (the Rust method mutates `self`). -/
def make_move (g : Game) (row col : Fin 3) : Bool × Game :=
  match getCell g.board row col with
  | Square.Empty =>
      (true, { g with board := setCell g.board row col g.player
                      player := g.player.flip })
  | _ => (false, g)

/-- The cells `(i, j)` for `i in 0..SIZE`, `j in 0..SIZE`, in row-major
order: the iteration order of the two nested `for` loops in `minimax`. -/
def allCells : List (Fin 3 × Fin 3) :=
  [(0, 0), (0, 1), (0, 2), (1, 0), (1, 1), (1, 2), (2, 0), (2, 1), (2, 2)]

/-- The maximizing loop of `minimax`: for each empty cell place the agent's
mark, recurse (via `rec`, which returns the state it leaves behind), reset
the cell to `Empty`, and keep the first strictly-improving score's cell as
`best_move`.  The threaded `Game` models the `&mut Game` argument. -/
def maxLoop (rec : Game → Int × (Nat × Nat) × Game) :
    Game → List (Fin 3 × Fin 3) → Int → Nat × Nat → Int × (Nat × Nat) × Game
  | g, [], best_score, best_move => (best_score, best_move, g)
  | g, (i, j) :: rest, best_score, best_move =>
    if getCell g.board i j = Square.Empty then
      let r := rec { g with board := setCell g.board i j g.agent }
      let g' : Game := { r.2.2 with board := setCell r.2.2.board i j Square.Empty }
      if r.1 > best_score then
        maxLoop rec g' rest r.1 (i.val, j.val)
      else
        maxLoop rec g' rest best_score best_move
    else
      maxLoop rec g rest best_score best_move

/-- The minimizing loop of `minimax`: for each empty cell place the human's
mark, recurse, reset the cell, and track `best_score.min(score)`.  The Rust
code never assigns `best_move` in this branch, so the sentinel `(1, 1)` is
what this branch returns as the move. -/
def minLoop (rec : Game → Int × (Nat × Nat) × Game) :
    Game → List (Fin 3 × Fin 3) → Int → Int × (Nat × Nat) × Game
  | g, [], best_score => (best_score, (1, 1), g)
  | g, (i, j) :: rest, best_score =>
    if getCell g.board i j = Square.Empty then
      let r := rec { g with board := setCell g.board i j g.human }
      let g' : Game := { r.2.2 with board := setCell r.2.2.board i j Square.Empty }
      minLoop rec g' rest (min best_score r.1)
    else
      minLoop rec g rest best_score

/-- `minimax(game, depth, is_maximizing)`, with an explicit fuel parameter
bounding the recursion depth (the Rust recursion always terminates because
each recursive call fills one empty cell; fuel `≥ emptyCount + 1` is shown
sufficient below).  Returns `(score, best_move)` together with the final
state of the `&mut Game`. -/
def minimaxF : Nat → Game → Nat → Bool → Int × (Nat × Nat) × Game
  | 0, g, _, _ => (0, (1, 1), g)
  | fuel + 1, g, depth, is_maximizing =>
    if is_winner g g.agent then (1, (1, 1), g)
    else if is_winner g g.human then (-1, (1, 1), g)
    else if is_draw g then (0, (1, 1), g)
    else if is_maximizing then
      maxLoop (fun g' => minimaxF fuel g' (depth + 1) false) g allCells (-1000) (1, 1)
    else
      minLoop (fun g' => minimaxF fuel g' (depth + 1) true) g allCells 1000

/-- `minimax` at fuel 10, which the fuel-stability theorem shows is enough
for every state (a board has at most 9 empty cells). -/
def minimax (g : Game) (depth : Nat) (is_maximizing : Bool) : Int × (Nat × Nat) × Game :=
  minimaxF 10 g depth is_maximizing

/-- Number of `Empty` cells on a board. -/
def emptyCount (b : Board) : Nat :=
  (Finset.univ.filter fun p : Fin 3 × Fin 3 => getCell b p.1 p.2 = Square.Empty).card

/-- Agent (`O`) has completed the top row; used as a concrete terminal state. -/
def gAgentWin : Game :=
  { board := ⟨Square.O, Square.O, Square.O, Square.X, Square.X, Square.Empty,
              Square.Empty, Square.Empty, Square.Empty⟩
    player := Square.X, human := Square.X, agent := Square.O }

/-- Human (`X`) has completed the top row; used as a concrete terminal state. -/
def gHumanWin : Game :=
  { board := ⟨Square.X, Square.X, Square.X, Square.O, Square.O, Square.Empty,
              Square.Empty, Square.Empty, Square.Empty⟩
    player := Square.O, human := Square.X, agent := Square.O }

/-- A full board with no three-in-a-row; a drawn terminal state. -/
def gDraw : Game :=
  { board := ⟨Square.X, Square.O, Square.X, Square.X, Square.O, Square.X,
              Square.O, Square.X, Square.O⟩
    player := Square.X, human := Square.X, agent := Square.O }

/-- A board with exactly one empty cell (at `(2,2)`) and no winner. -/
def gOneEmpty : Game :=
  { board := ⟨Square.X, Square.O, Square.X, Square.X, Square.O, Square.X,
              Square.O, Square.X, Square.Empty⟩
    player := Square.X, human := Square.X, agent := Square.O }

/-- The states reachable from the fresh game by successful `make_move`
calls under legal play: the game stops as soon as either mark has a
winning line, so a move is only made while neither `X` nor `O` has won.
Alternation is enforced by `make_move` itself, which always places
`player`'s mark and then flips `player`. -/
inductive Reachable : Game → Prop where
  | init : Reachable Game.new
  | step {g : Game} (r c : Fin 3) :
      Reachable g →
      is_winner g Square.X = false →
      is_winner g Square.O = false →
      (make_move g r c).1 = true →
      Reachable (make_move g r c).2

/-- A certificate for a bound on the minimax score: at nodes where the
certified side is to move it picks one cell, at the opponent's nodes it
lists one sub-certificate per empty cell in row-major order. -/
inductive Cert where
  | pick : Fin 3 → Fin 3 → Cert → Cert
  | all : List Cert → Cert

/-- Walk the cells in order, checking `chk` on the position obtained by
placing `place` on each empty cell, consuming one sub-certificate per
empty cell. -/
def certAll (chk : Game → Cert → Bool) (place : Square) :
    Game → List (Fin 3 × Fin 3) → List Cert → Bool
  | _, [], _ => true
  | g, (i, j) :: rest, [] =>
    if getCell g.board i j = Square.Empty then false
    else certAll chk place g rest []
  | g, (i, j) :: rest, s :: srest =>
    if getCell g.board i j = Square.Empty then
      chk { g with board := setCell g.board i j place } s &&
      certAll chk place g rest srest
    else
      certAll chk place g rest (s :: srest)

/-- Check that `v` is a lower bound on the minimax score: mirrors the
terminal evaluation and fuel discipline of `minimaxF`; at maximizing
nodes one agent move with score at least `v` is exhibited, at minimizing
nodes every human reply is covered. -/
def lowerCheck : Nat → Game → Bool → Cert → Int → Bool
  | 0, _, _, _, v => decide (v ≤ 0)
  | fuel + 1, g, maximizing, Cert.pick i j sub, v =>
    if is_winner g g.agent then decide (v ≤ 1)
    else if is_winner g g.human then decide (v ≤ -1)
    else if is_draw g then decide (v ≤ 0)
    else if maximizing then
      decide (getCell g.board i j = Square.Empty) &&
      lowerCheck fuel { g with board := setCell g.board i j g.agent } false sub v
    else false
  | fuel + 1, g, maximizing, Cert.all subs, v =>
    if is_winner g g.agent then decide (v ≤ 1)
    else if is_winner g g.human then decide (v ≤ -1)
    else if is_draw g then decide (v ≤ 0)
    else if maximizing then false
    else certAll (fun g' s => lowerCheck fuel g' true s v) g.human g allCells subs

/-- Check that `v` is an upper bound on the minimax score: dual to
`lowerCheck` — at maximizing nodes every agent move is covered, at
minimizing nodes one human reply with score at most `v` is exhibited. -/
def upperCheck : Nat → Game → Bool → Cert → Int → Bool
  | 0, _, _, _, v => decide (0 ≤ v)
  | fuel + 1, g, maximizing, Cert.pick i j sub, v =>
    if is_winner g g.agent then decide (1 ≤ v)
    else if is_winner g g.human then decide (-1 ≤ v)
    else if is_draw g then decide (0 ≤ v)
    else if maximizing then false
    else
      decide (getCell g.board i j = Square.Empty) &&
      upperCheck fuel { g with board := setCell g.board i j g.human } true sub v
  | fuel + 1, g, maximizing, Cert.all subs, v =>
    if is_winner g g.agent then decide (1 ≤ v)
    else if is_winner g g.human then decide (-1 ≤ v)
    else if is_draw g then decide (0 ≤ v)
    else if maximizing then
      certAll (fun g' s => upperCheck fuel g' false s v) g.agent g allCells subs
    else false


/-- Lower-bound certificate (score at least 0) for the position with the agent's mark at (0,0), human to move. -/
def certL00 : Cert :=
  Cert.all [Cert.pick 0 2 (Cert.all [Cert.pick 1 1 (Cert.all [Cert.pick 2 0 (Cert.all []), Cert.pick 1 2 (Cert.all [Cert.pick 2 2 (Cert.all []), Cert.pick 2 1 (Cert.all [])]), Cert.pick 1 2 (Cert.all [Cert.pick 2 2 (Cert.all []), Cert.pick 2 0 (Cert.all [])]), Cert.pick 1 2 (Cert.all [Cert.pick 2 1 (Cert.all []), Cert.pick 2 0 (Cert.all [])])]), Cert.pick 2 1 (Cert.all [Cert.pick 1 2 (Cert.all [Cert.pick 2 2 (Cert.all []), Cert.pick 2 0 (Cert.all [])]), Cert.pick 1 0 (Cert.all [Cert.pick 2 2 (Cert.all []), Cert.pick 2 0 (Cert.all [])]), Cert.pick 1 0 (Cert.all [Cert.pick 2 2 (Cert.all []), Cert.pick 1 2 (Cert.all [])]), Cert.pick 1 0 (Cert.all [Cert.pick 2 0 (Cert.all []), Cert.pick 1 2 (Cert.all [])])]), Cert.pick 1 0 (Cert.all [Cert.pick 2 0 (Cert.all []), Cert.pick 1 1 (Cert.all [Cert.pick 2 2 (Cert.all []), Cert.pick 2 1 (Cert.all [])]), Cert.pick 1 1 (Cert.all [Cert.pick 2 2 (Cert.all []), Cert.pick 2 0 (Cert.all [])]), Cert.pick 1 1 (Cert.all [Cert.pick 2 1 (Cert.all []), Cert.pick 2 0 (Cert.all [])])]), Cert.pick 1 1 (Cert.all [Cert.pick 1 2 (Cert.all [Cert.pick 2 2 (Cert.all []), Cert.pick 2 1 (Cert.all [])]), Cert.pick 1 0 (Cert.all [Cert.pick 2 2 (Cert.all []), Cert.pick 2 1 (Cert.all [])]), Cert.pick 2 2 (Cert.all []), Cert.pick 2 1 (Cert.all [Cert.pick 1 2 (Cert.all []), Cert.pick 1 0 (Cert.all [])])]), Cert.pick 1 1 (Cert.all [Cert.pick 1 2 (Cert.all [Cert.pick 2 2 (Cert.all []), Cert.pick 2 0 (Cert.all [])]), Cert.pick 1 0 (Cert.all [Cert.pick 2 2 (Cert.all []), Cert.pick 2 0 (Cert.all [])]), Cert.pick 2 2 (Cert.all []), Cert.pick 2 0 (Cert.all [])]), Cert.pick 1 0 (Cert.all [Cert.pick 2 0 (Cert.all []), Cert.pick 1 1 (Cert.all [Cert.pick 2 1 (Cert.all []), Cert.pick 2 0 (Cert.all [])]), Cert.pick 2 1 (Cert.all [Cert.pick 1 2 (Cert.all []), Cert.pick 1 1 (Cert.all [])]), Cert.pick 2 0 (Cert.all [])])]), Cert.pick 1 0 (Cert.all [Cert.pick 1 1 (Cert.all [Cert.pick 2 0 (Cert.all []), Cert.pick 1 2 (Cert.all []), Cert.pick 1 2 (Cert.all []), Cert.pick 1 2 (Cert.all [])]), Cert.pick 2 0 (Cert.all []), Cert.pick 2 0 (Cert.all []), Cert.pick 1 1 (Cert.all [Cert.pick 1 2 (Cert.all []), Cert.pick 2 2 (Cert.all []), Cert.pick 1 2 (Cert.all []), Cert.pick 1 2 (Cert.all [])]), Cert.pick 1 1 (Cert.all [Cert.pick 1 2 (Cert.all []), Cert.pick 2 0 (Cert.all []), Cert.pick 1 2 (Cert.all []), Cert.pick 1 2 (Cert.all [])]), Cert.pick 1 2 (Cert.all [Cert.pick 1 1 (Cert.all []), Cert.pick 2 0 (Cert.all []), Cert.pick 1 1 (Cert.all []), Cert.pick 1 1 (Cert.all [])])]), Cert.pick 0 1 (Cert.all [Cert.pick 1 1 (Cert.all [Cert.pick 2 1 (Cert.all []), Cert.pick 1 2 (Cert.all [Cert.pick 2 2 (Cert.all []), Cert.pick 2 1 (Cert.all [])]), Cert.pick 1 2 (Cert.all [Cert.pick 2 2 (Cert.all []), Cert.pick 2 0 (Cert.all [])]), Cert.pick 1 2 (Cert.all [Cert.pick 2 1 (Cert.all []), Cert.pick 2 0 (Cert.all [])])]), Cert.pick 0 2 (Cert.all []), Cert.pick 0 2 (Cert.all []), Cert.pick 0 2 (Cert.all []), Cert.pick 0 2 (Cert.all []), Cert.pick 0 2 (Cert.all [])]), Cert.pick 0 1 (Cert.all [Cert.pick 2 0 (Cert.all [Cert.pick 1 2 (Cert.all [Cert.pick 2 2 (Cert.all []), Cert.pick 2 1 (Cert.all [])]), Cert.pick 1 0 (Cert.all []), Cert.pick 1 0 (Cert.all []), Cert.pick 1 0 (Cert.all [])]), Cert.pick 0 2 (Cert.all []), Cert.pick 0 2 (Cert.all []), Cert.pick 0 2 (Cert.all []), Cert.pick 0 2 (Cert.all []), Cert.pick 0 2 (Cert.all [])]), Cert.pick 0 2 (Cert.all [Cert.pick 1 0 (Cert.all [Cert.pick 2 0 (Cert.all []), Cert.pick 1 1 (Cert.all [Cert.pick 2 2 (Cert.all []), Cert.pick 2 1 (Cert.all [])]), Cert.pick 1 1 (Cert.all [Cert.pick 2 2 (Cert.all []), Cert.pick 2 0 (Cert.all [])]), Cert.pick 1 1 (Cert.all [Cert.pick 2 1 (Cert.all []), Cert.pick 2 0 (Cert.all [])])]), Cert.pick 0 1 (Cert.all []), Cert.pick 0 1 (Cert.all []), Cert.pick 0 1 (Cert.all []), Cert.pick 0 1 (Cert.all []), Cert.pick 0 1 (Cert.all [])]), Cert.pick 0 1 (Cert.all [Cert.pick 1 1 (Cert.all [Cert.pick 1 2 (Cert.all [Cert.pick 2 2 (Cert.all []), Cert.pick 2 1 (Cert.all [])]), Cert.pick 2 1 (Cert.all []), Cert.pick 2 2 (Cert.all []), Cert.pick 2 1 (Cert.all [])]), Cert.pick 0 2 (Cert.all []), Cert.pick 0 2 (Cert.all []), Cert.pick 0 2 (Cert.all []), Cert.pick 0 2 (Cert.all []), Cert.pick 0 2 (Cert.all [])]), Cert.pick 0 1 (Cert.all [Cert.pick 2 0 (Cert.all [Cert.pick 1 1 (Cert.all [Cert.pick 2 2 (Cert.all []), Cert.pick 1 2 (Cert.all [])]), Cert.pick 1 0 (Cert.all []), Cert.pick 1 0 (Cert.all []), Cert.pick 1 0 (Cert.all [])]), Cert.pick 0 2 (Cert.all []), Cert.pick 0 2 (Cert.all []), Cert.pick 0 2 (Cert.all []), Cert.pick 0 2 (Cert.all []), Cert.pick 0 2 (Cert.all [])]), Cert.pick 0 2 (Cert.all [Cert.pick 1 0 (Cert.all [Cert.pick 2 0 (Cert.all []), Cert.pick 1 1 (Cert.all [Cert.pick 2 1 (Cert.all []), Cert.pick 2 0 (Cert.all [])]), Cert.pick 2 1 (Cert.all [Cert.pick 1 2 (Cert.all []), Cert.pick 1 1 (Cert.all [])]), Cert.pick 2 0 (Cert.all [])]), Cert.pick 0 1 (Cert.all []), Cert.pick 0 1 (Cert.all []), Cert.pick 0 1 (Cert.all []), Cert.pick 0 1 (Cert.all []), Cert.pick 0 1 (Cert.all [])])]

/-- Upper-bound certificate (score at most 0) for the position with the agent's mark at (0,0), human to move. -/
def certU00 : Cert :=
  Cert.pick 1 1 (Cert.all [Cert.pick 0 2 (Cert.all [Cert.pick 2 0 (Cert.all []), Cert.pick 1 0 (Cert.all [Cert.pick 2 1 (Cert.all [Cert.all []]), Cert.pick 2 0 (Cert.all []), Cert.pick 2 0 (Cert.all [])]), Cert.pick 1 0 (Cert.all [Cert.pick 2 1 (Cert.all [Cert.all []]), Cert.pick 1 2 (Cert.all []), Cert.pick 1 2 (Cert.all [])]), Cert.pick 1 0 (Cert.all [Cert.pick 2 0 (Cert.all []), Cert.pick 1 2 (Cert.all []), Cert.pick 1 2 (Cert.all [])]), Cert.pick 1 0 (Cert.all [Cert.pick 2 0 (Cert.all []), Cert.pick 1 2 (Cert.all []), Cert.pick 1 2 (Cert.all [])])]), Cert.pick 0 1 (Cert.all [Cert.pick 2 0 (Cert.all [Cert.pick 2 1 (Cert.all []), Cert.pick 1 2 (Cert.all [Cert.all []]), Cert.pick 1 2 (Cert.all [Cert.all []])]), Cert.pick 2 1 (Cert.all []), Cert.pick 1 0 (Cert.all [Cert.pick 2 1 (Cert.all []), Cert.pick 1 2 (Cert.all []), Cert.pick 1 2 (Cert.all [])]), Cert.pick 1 0 (Cert.all [Cert.pick 2 2 (Cert.all [Cert.all []]), Cert.pick 1 2 (Cert.all []), Cert.pick 1 2 (Cert.all [])]), Cert.pick 1 2 (Cert.all [Cert.pick 2 0 (Cert.all [Cert.all []]), Cert.pick 1 0 (Cert.all []), Cert.pick 1 0 (Cert.all [])])]), Cert.pick 2 0 (Cert.all [Cert.pick 0 2 (Cert.all []), Cert.pick 0 1 (Cert.all [Cert.pick 2 1 (Cert.all []), Cert.pick 1 2 (Cert.all [Cert.all []]), Cert.pick 1 2 (Cert.all [Cert.all []])]), Cert.pick 0 1 (Cert.all [Cert.pick 2 1 (Cert.all []), Cert.pick 0 2 (Cert.all []), Cert.pick 0 2 (Cert.all [])]), Cert.pick 0 1 (Cert.all [Cert.pick 1 2 (Cert.all [Cert.all []]), Cert.pick 0 2 (Cert.all []), Cert.pick 0 2 (Cert.all [])]), Cert.pick 0 1 (Cert.all [Cert.pick 1 2 (Cert.all [Cert.all []]), Cert.pick 0 2 (Cert.all []), Cert.pick 0 2 (Cert.all [])])]), Cert.pick 0 1 (Cert.all [Cert.pick 2 1 (Cert.all []), Cert.pick 2 0 (Cert.all [Cert.pick 2 1 (Cert.all []), Cert.pick 0 2 (Cert.all []), Cert.pick 0 2 (Cert.all [])]), Cert.pick 1 0 (Cert.all [Cert.pick 2 1 (Cert.all []), Cert.pick 2 2 (Cert.all [Cert.all []]), Cert.pick 2 1 (Cert.all [])]), Cert.pick 2 0 (Cert.all [Cert.pick 2 2 (Cert.all [Cert.all []]), Cert.pick 0 2 (Cert.all []), Cert.pick 0 2 (Cert.all [])]), Cert.pick 0 2 (Cert.all [Cert.pick 2 0 (Cert.all []), Cert.pick 2 1 (Cert.all []), Cert.pick 2 0 (Cert.all [])])]), Cert.pick 1 0 (Cert.all [Cert.pick 0 2 (Cert.all [Cert.pick 2 1 (Cert.all [Cert.all []]), Cert.pick 1 2 (Cert.all []), Cert.pick 1 2 (Cert.all [])]), Cert.pick 0 1 (Cert.all [Cert.pick 2 1 (Cert.all []), Cert.pick 1 2 (Cert.all []), Cert.pick 1 2 (Cert.all [])]), Cert.pick 0 1 (Cert.all [Cert.pick 2 1 (Cert.all []), Cert.pick 2 2 (Cert.all [Cert.all []]), Cert.pick 2 1 (Cert.all [])]), Cert.pick 1 2 (Cert.all []), Cert.pick 1 2 (Cert.all [])]), Cert.pick 1 0 (Cert.all [Cert.pick 0 2 (Cert.all [Cert.pick 2 0 (Cert.all []), Cert.pick 1 2 (Cert.all []), Cert.pick 1 2 (Cert.all [])]), Cert.pick 0 1 (Cert.all [Cert.pick 2 2 (Cert.all [Cert.all []]), Cert.pick 1 2 (Cert.all []), Cert.pick 1 2 (Cert.all [])]), Cert.pick 0 2 (Cert.all [Cert.pick 2 0 (Cert.all []), Cert.pick 2 2 (Cert.all [Cert.all []]), Cert.pick 2 0 (Cert.all [])]), Cert.pick 1 2 (Cert.all []), Cert.pick 1 2 (Cert.all [])]), Cert.pick 0 1 (Cert.all [Cert.pick 1 2 (Cert.all [Cert.pick 2 0 (Cert.all [Cert.all []]), Cert.pick 1 0 (Cert.all []), Cert.pick 1 0 (Cert.all [])]), Cert.pick 2 0 (Cert.all [Cert.pick 1 2 (Cert.all [Cert.all []]), Cert.pick 0 2 (Cert.all []), Cert.pick 0 2 (Cert.all [])]), Cert.pick 0 2 (Cert.all [Cert.pick 2 0 (Cert.all []), Cert.pick 2 1 (Cert.all []), Cert.pick 2 0 (Cert.all [])]), Cert.pick 2 1 (Cert.all []), Cert.pick 2 0 (Cert.all [Cert.pick 1 2 (Cert.all [Cert.all []]), Cert.pick 0 2 (Cert.all []), Cert.pick 0 2 (Cert.all [])])])])

/-- Lower-bound certificate (score at least 0) for the position with the agent's mark at (0,1), human to move. -/
def certL01 : Cert :=
  Cert.all [Cert.pick 1 0 (Cert.all [Cert.pick 1 1 (Cert.all [Cert.pick 2 1 (Cert.all []), Cert.pick 1 2 (Cert.all []), Cert.pick 1 2 (Cert.all []), Cert.pick 1 2 (Cert.all [])]), Cert.pick 2 2 (Cert.all [Cert.pick 2 0 (Cert.all [Cert.pick 2 1 (Cert.all []), Cert.pick 1 2 (Cert.all [])]), Cert.pick 0 2 (Cert.all [Cert.pick 2 1 (Cert.all []), Cert.pick 2 0 (Cert.all [])]), Cert.pick 0 2 (Cert.all [Cert.pick 2 1 (Cert.all []), Cert.pick 1 2 (Cert.all [])]), Cert.pick 0 2 (Cert.all [Cert.pick 2 0 (Cert.all []), Cert.pick 1 2 (Cert.all [])])]), Cert.pick 0 2 (Cert.all [Cert.pick 2 2 (Cert.all [Cert.pick 2 1 (Cert.all []), Cert.pick 2 0 (Cert.all [])]), Cert.pick 1 1 (Cert.all [Cert.pick 2 2 (Cert.all []), Cert.pick 2 1 (Cert.all [])]), Cert.pick 1 1 (Cert.all [Cert.pick 2 2 (Cert.all []), Cert.pick 2 0 (Cert.all [])]), Cert.pick 1 1 (Cert.all [Cert.pick 2 1 (Cert.all []), Cert.pick 2 0 (Cert.all [])])]), Cert.pick 1 1 (Cert.all [Cert.pick 1 2 (Cert.all []), Cert.pick 0 2 (Cert.all [Cert.pick 2 2 (Cert.all []), Cert.pick 2 1 (Cert.all [])]), Cert.pick 1 2 (Cert.all []), Cert.pick 1 2 (Cert.all [])]), Cert.pick 1 1 (Cert.all [Cert.pick 1 2 (Cert.all []), Cert.pick 0 2 (Cert.all [Cert.pick 2 2 (Cert.all []), Cert.pick 2 0 (Cert.all [])]), Cert.pick 1 2 (Cert.all []), Cert.pick 1 2 (Cert.all [])]), Cert.pick 1 1 (Cert.all [Cert.pick 1 2 (Cert.all []), Cert.pick 0 2 (Cert.all [Cert.pick 2 1 (Cert.all []), Cert.pick 2 0 (Cert.all [])]), Cert.pick 1 2 (Cert.all []), Cert.pick 1 2 (Cert.all [])])]), Cert.pick 1 1 (Cert.all [Cert.pick 1 0 (Cert.all [Cert.pick 2 1 (Cert.all []), Cert.pick 1 2 (Cert.all []), Cert.pick 1 2 (Cert.all []), Cert.pick 1 2 (Cert.all [])]), Cert.pick 0 0 (Cert.all [Cert.pick 2 1 (Cert.all []), Cert.pick 1 2 (Cert.all [Cert.pick 2 2 (Cert.all []), Cert.pick 2 1 (Cert.all [])]), Cert.pick 1 2 (Cert.all [Cert.pick 2 2 (Cert.all []), Cert.pick 2 0 (Cert.all [])]), Cert.pick 1 2 (Cert.all [Cert.pick 2 1 (Cert.all []), Cert.pick 2 0 (Cert.all [])])]), Cert.pick 2 1 (Cert.all []), Cert.pick 0 0 (Cert.all [Cert.pick 1 2 (Cert.all [Cert.pick 2 2 (Cert.all []), Cert.pick 2 1 (Cert.all [])]), Cert.pick 2 1 (Cert.all []), Cert.pick 2 2 (Cert.all []), Cert.pick 2 1 (Cert.all [])]), Cert.pick 1 0 (Cert.all [Cert.pick 1 2 (Cert.all []), Cert.pick 2 2 (Cert.all [Cert.pick 2 0 (Cert.all []), Cert.pick 0 0 (Cert.all [])]), Cert.pick 1 2 (Cert.all []), Cert.pick 1 2 (Cert.all [])]), Cert.pick 1 2 (Cert.all [Cert.pick 1 0 (Cert.all []), Cert.pick 0 0 (Cert.all [Cert.pick 2 1 (Cert.all []), Cert.pick 2 0 (Cert.all [])]), Cert.pick 1 0 (Cert.all []), Cert.pick 1 0 (Cert.all [])])]), Cert.pick 0 0 (Cert.all [Cert.pick 1 1 (Cert.all [Cert.pick 2 1 (Cert.all []), Cert.pick 1 2 (Cert.all [Cert.pick 2 2 (Cert.all []), Cert.pick 2 1 (Cert.all [])]), Cert.pick 1 2 (Cert.all [Cert.pick 2 2 (Cert.all []), Cert.pick 2 0 (Cert.all [])]), Cert.pick 1 2 (Cert.all [Cert.pick 2 1 (Cert.all []), Cert.pick 2 0 (Cert.all [])])]), Cert.pick 0 2 (Cert.all []), Cert.pick 0 2 (Cert.all []), Cert.pick 0 2 (Cert.all []), Cert.pick 0 2 (Cert.all []), Cert.pick 0 2 (Cert.all [])]), Cert.pick 0 0 (Cert.all [Cert.pick 2 0 (Cert.all [Cert.pick 1 2 (Cert.all [Cert.pick 2 2 (Cert.all []), Cert.pick 2 1 (Cert.all [])]), Cert.pick 1 0 (Cert.all []), Cert.pick 1 0 (Cert.all []), Cert.pick 1 0 (Cert.all [])]), Cert.pick 0 2 (Cert.all []), Cert.pick 0 2 (Cert.all []), Cert.pick 0 2 (Cert.all []), Cert.pick 0 2 (Cert.all []), Cert.pick 0 2 (Cert.all [])]), Cert.pick 0 2 (Cert.all [Cert.pick 1 0 (Cert.all [Cert.pick 2 2 (Cert.all [Cert.pick 2 1 (Cert.all []), Cert.pick 2 0 (Cert.all [])]), Cert.pick 1 1 (Cert.all [Cert.pick 2 2 (Cert.all []), Cert.pick 2 1 (Cert.all [])]), Cert.pick 1 1 (Cert.all [Cert.pick 2 2 (Cert.all []), Cert.pick 2 0 (Cert.all [])]), Cert.pick 1 1 (Cert.all [Cert.pick 2 1 (Cert.all []), Cert.pick 2 0 (Cert.all [])])]), Cert.pick 0 0 (Cert.all []), Cert.pick 0 0 (Cert.all []), Cert.pick 0 0 (Cert.all []), Cert.pick 0 0 (Cert.all []), Cert.pick 0 0 (Cert.all [])]), Cert.pick 0 0 (Cert.all [Cert.pick 1 1 (Cert.all [Cert.pick 1 2 (Cert.all [Cert.pick 2 2 (Cert.all []), Cert.pick 2 1 (Cert.all [])]), Cert.pick 2 1 (Cert.all []), Cert.pick 2 2 (Cert.all []), Cert.pick 2 1 (Cert.all [])]), Cert.pick 0 2 (Cert.all []), Cert.pick 0 2 (Cert.all []), Cert.pick 0 2 (Cert.all []), Cert.pick 0 2 (Cert.all []), Cert.pick 0 2 (Cert.all [])]), Cert.pick 0 0 (Cert.all [Cert.pick 2 0 (Cert.all [Cert.pick 1 1 (Cert.all [Cert.pick 2 2 (Cert.all []), Cert.pick 1 2 (Cert.all [])]), Cert.pick 1 0 (Cert.all []), Cert.pick 1 0 (Cert.all []), Cert.pick 1 0 (Cert.all [])]), Cert.pick 0 2 (Cert.all []), Cert.pick 0 2 (Cert.all []), Cert.pick 0 2 (Cert.all []), Cert.pick 0 2 (Cert.all []), Cert.pick 0 2 (Cert.all [])]), Cert.pick 0 2 (Cert.all [Cert.pick 1 1 (Cert.all [Cert.pick 2 0 (Cert.all []), Cert.pick 1 0 (Cert.all [Cert.pick 2 1 (Cert.all []), Cert.pick 2 0 (Cert.all [])]), Cert.pick 2 1 (Cert.all []), Cert.pick 2 0 (Cert.all [])]), Cert.pick 0 0 (Cert.all []), Cert.pick 0 0 (Cert.all []), Cert.pick 0 0 (Cert.all []), Cert.pick 0 0 (Cert.all []), Cert.pick 0 0 (Cert.all [])])]

/-- Upper-bound certificate (score at most 0) for the position with the agent's mark at (0,1), human to move. -/
def certU01 : Cert :=
  Cert.pick 0 0 (Cert.all [Cert.pick 1 0 (Cert.all [Cert.pick 2 0 (Cert.all []), Cert.pick 2 0 (Cert.all []), Cert.pick 1 1 (Cert.all [Cert.pick 2 2 (Cert.all []), Cert.pick 1 2 (Cert.all []), Cert.pick 1 2 (Cert.all [])]), Cert.pick 1 1 (Cert.all [Cert.pick 2 0 (Cert.all []), Cert.pick 1 2 (Cert.all []), Cert.pick 1 2 (Cert.all [])]), Cert.pick 1 2 (Cert.all [Cert.pick 2 0 (Cert.all []), Cert.pick 1 1 (Cert.all []), Cert.pick 1 1 (Cert.all [])])]), Cert.pick 1 1 (Cert.all [Cert.pick 1 2 (Cert.all [Cert.pick 2 1 (Cert.all [Cert.all []]), Cert.pick 2 0 (Cert.all [Cert.all []]), Cert.pick 2 0 (Cert.all [Cert.all []])]), Cert.pick 0 2 (Cert.all [Cert.pick 2 1 (Cert.all [Cert.all []]), Cert.pick 2 0 (Cert.all []), Cert.pick 2 0 (Cert.all [])]), Cert.pick 0 2 (Cert.all [Cert.pick 2 1 (Cert.all [Cert.all []]), Cert.pick 2 2 (Cert.all []), Cert.pick 2 1 (Cert.all [Cert.all []])]), Cert.pick 0 2 (Cert.all [Cert.pick 2 0 (Cert.all []), Cert.pick 2 2 (Cert.all []), Cert.pick 2 0 (Cert.all [])]), Cert.pick 0 2 (Cert.all [Cert.pick 2 0 (Cert.all []), Cert.pick 2 1 (Cert.all [Cert.all []]), Cert.pick 2 0 (Cert.all [])])]), Cert.pick 2 1 (Cert.all [Cert.pick 2 0 (Cert.all [Cert.pick 1 2 (Cert.all [Cert.all []]), Cert.pick 1 0 (Cert.all []), Cert.pick 1 0 (Cert.all [])]), Cert.pick 1 2 (Cert.all [Cert.pick 2 0 (Cert.all [Cert.all []]), Cert.pick 0 2 (Cert.all [Cert.all []]), Cert.pick 0 2 (Cert.all [Cert.all []])]), Cert.pick 1 0 (Cert.all [Cert.pick 2 0 (Cert.all []), Cert.pick 0 2 (Cert.all [Cert.all []]), Cert.pick 0 2 (Cert.all [Cert.all []])]), Cert.pick 0 2 (Cert.all [Cert.pick 1 2 (Cert.all [Cert.all []]), Cert.pick 1 0 (Cert.all [Cert.all []]), Cert.pick 1 0 (Cert.all [Cert.all []])]), Cert.pick 0 2 (Cert.all [Cert.pick 1 2 (Cert.all [Cert.all []]), Cert.pick 1 0 (Cert.all [Cert.all []]), Cert.pick 1 0 (Cert.all [Cert.all []])])]), Cert.pick 1 1 (Cert.all [Cert.pick 2 2 (Cert.all []), Cert.pick 0 2 (Cert.all [Cert.pick 2 1 (Cert.all [Cert.all []]), Cert.pick 2 0 (Cert.all []), Cert.pick 2 0 (Cert.all [])]), Cert.pick 0 2 (Cert.all [Cert.pick 2 1 (Cert.all [Cert.all []]), Cert.pick 2 2 (Cert.all []), Cert.pick 2 1 (Cert.all [Cert.all []])]), Cert.pick 0 2 (Cert.all [Cert.pick 2 0 (Cert.all []), Cert.pick 2 2 (Cert.all []), Cert.pick 2 0 (Cert.all [])]), Cert.pick 0 2 (Cert.all [Cert.pick 2 0 (Cert.all []), Cert.pick 2 1 (Cert.all [Cert.all []]), Cert.pick 2 0 (Cert.all [])])]), Cert.pick 1 1 (Cert.all [Cert.pick 1 0 (Cert.all [Cert.pick 2 2 (Cert.all []), Cert.pick 1 2 (Cert.all []), Cert.pick 1 2 (Cert.all [])]), Cert.pick 0 2 (Cert.all [Cert.pick 2 1 (Cert.all [Cert.all []]), Cert.pick 2 2 (Cert.all []), Cert.pick 2 1 (Cert.all [Cert.all []])]), Cert.pick 0 2 (Cert.all [Cert.pick 2 1 (Cert.all [Cert.all []]), Cert.pick 2 2 (Cert.all []), Cert.pick 2 1 (Cert.all [Cert.all []])]), Cert.pick 2 2 (Cert.all []), Cert.pick 2 1 (Cert.all [Cert.pick 1 2 (Cert.all [Cert.all []]), Cert.pick 0 2 (Cert.all [Cert.all []]), Cert.pick 0 2 (Cert.all [Cert.all []])])]), Cert.pick 1 1 (Cert.all [Cert.pick 1 0 (Cert.all [Cert.pick 2 0 (Cert.all []), Cert.pick 1 2 (Cert.all []), Cert.pick 1 2 (Cert.all [])]), Cert.pick 0 2 (Cert.all [Cert.pick 2 0 (Cert.all []), Cert.pick 2 2 (Cert.all []), Cert.pick 2 0 (Cert.all [])]), Cert.pick 0 2 (Cert.all [Cert.pick 2 0 (Cert.all []), Cert.pick 2 2 (Cert.all []), Cert.pick 2 0 (Cert.all [])]), Cert.pick 2 2 (Cert.all []), Cert.pick 2 0 (Cert.all [Cert.pick 1 0 (Cert.all []), Cert.pick 0 2 (Cert.all []), Cert.pick 0 2 (Cert.all [])])]), Cert.pick 1 1 (Cert.all [Cert.pick 1 2 (Cert.all [Cert.pick 2 0 (Cert.all [Cert.all []]), Cert.pick 1 0 (Cert.all []), Cert.pick 1 0 (Cert.all [])]), Cert.pick 0 2 (Cert.all [Cert.pick 2 0 (Cert.all []), Cert.pick 2 1 (Cert.all [Cert.all []]), Cert.pick 2 0 (Cert.all [])]), Cert.pick 0 2 (Cert.all [Cert.pick 2 0 (Cert.all []), Cert.pick 2 1 (Cert.all [Cert.all []]), Cert.pick 2 0 (Cert.all [])]), Cert.pick 2 1 (Cert.all [Cert.pick 1 2 (Cert.all [Cert.all []]), Cert.pick 0 2 (Cert.all [Cert.all []]), Cert.pick 0 2 (Cert.all [Cert.all []])]), Cert.pick 2 0 (Cert.all [Cert.pick 1 0 (Cert.all []), Cert.pick 0 2 (Cert.all []), Cert.pick 0 2 (Cert.all [])])])])

/-- Lower-bound certificate (score at least 0) for the position with the agent's mark at (0,2), human to move. -/
def certL02 : Cert :=
  Cert.all [Cert.pick 1 0 (Cert.all [Cert.pick 1 1 (Cert.all [Cert.pick 2 0 (Cert.all []), Cert.pick 1 2 (Cert.all []), Cert.pick 1 2 (Cert.all []), Cert.pick 1 2 (Cert.all [])]), Cert.pick 2 2 (Cert.all [Cert.pick 1 2 (Cert.all []), Cert.pick 0 1 (Cert.all [Cert.pick 2 1 (Cert.all []), Cert.pick 2 0 (Cert.all [])]), Cert.pick 0 1 (Cert.all [Cert.pick 2 1 (Cert.all []), Cert.pick 1 2 (Cert.all [])]), Cert.pick 0 1 (Cert.all [Cert.pick 2 0 (Cert.all []), Cert.pick 1 2 (Cert.all [])])]), Cert.pick 0 1 (Cert.all [Cert.pick 2 2 (Cert.all [Cert.pick 2 1 (Cert.all []), Cert.pick 2 0 (Cert.all [])]), Cert.pick 1 1 (Cert.all [Cert.pick 2 2 (Cert.all []), Cert.pick 2 1 (Cert.all [])]), Cert.pick 1 1 (Cert.all [Cert.pick 2 2 (Cert.all []), Cert.pick 2 0 (Cert.all [])]), Cert.pick 1 1 (Cert.all [Cert.pick 2 1 (Cert.all []), Cert.pick 2 0 (Cert.all [])])]), Cert.pick 1 1 (Cert.all [Cert.pick 1 2 (Cert.all []), Cert.pick 0 1 (Cert.all [Cert.pick 2 2 (Cert.all []), Cert.pick 2 1 (Cert.all [])]), Cert.pick 1 2 (Cert.all []), Cert.pick 1 2 (Cert.all [])]), Cert.pick 1 1 (Cert.all [Cert.pick 1 2 (Cert.all []), Cert.pick 0 1 (Cert.all [Cert.pick 2 2 (Cert.all []), Cert.pick 2 0 (Cert.all [])]), Cert.pick 1 2 (Cert.all []), Cert.pick 1 2 (Cert.all [])]), Cert.pick 1 1 (Cert.all [Cert.pick 1 2 (Cert.all []), Cert.pick 0 1 (Cert.all [Cert.pick 2 1 (Cert.all []), Cert.pick 2 0 (Cert.all [])]), Cert.pick 1 2 (Cert.all []), Cert.pick 1 2 (Cert.all [])])]), Cert.pick 0 0 (Cert.all [Cert.pick 1 1 (Cert.all [Cert.pick 2 0 (Cert.all []), Cert.pick 1 2 (Cert.all [Cert.pick 2 2 (Cert.all []), Cert.pick 2 1 (Cert.all [])]), Cert.pick 1 2 (Cert.all [Cert.pick 2 2 (Cert.all []), Cert.pick 2 0 (Cert.all [])]), Cert.pick 1 2 (Cert.all [Cert.pick 2 1 (Cert.all []), Cert.pick 2 0 (Cert.all [])])]), Cert.pick 2 1 (Cert.all [Cert.pick 1 2 (Cert.all [Cert.pick 2 2 (Cert.all []), Cert.pick 2 0 (Cert.all [])]), Cert.pick 1 0 (Cert.all [Cert.pick 2 2 (Cert.all []), Cert.pick 2 0 (Cert.all [])]), Cert.pick 1 0 (Cert.all [Cert.pick 2 2 (Cert.all []), Cert.pick 1 2 (Cert.all [])]), Cert.pick 1 0 (Cert.all [Cert.pick 2 0 (Cert.all []), Cert.pick 1 2 (Cert.all [])])]), Cert.pick 1 0 (Cert.all [Cert.pick 2 0 (Cert.all []), Cert.pick 1 1 (Cert.all [Cert.pick 2 2 (Cert.all []), Cert.pick 2 1 (Cert.all [])]), Cert.pick 1 1 (Cert.all [Cert.pick 2 2 (Cert.all []), Cert.pick 2 0 (Cert.all [])]), Cert.pick 1 1 (Cert.all [Cert.pick 2 1 (Cert.all []), Cert.pick 2 0 (Cert.all [])])]), Cert.pick 1 1 (Cert.all [Cert.pick 1 2 (Cert.all [Cert.pick 2 2 (Cert.all []), Cert.pick 2 1 (Cert.all [])]), Cert.pick 1 0 (Cert.all [Cert.pick 2 2 (Cert.all []), Cert.pick 2 1 (Cert.all [])]), Cert.pick 2 2 (Cert.all []), Cert.pick 2 1 (Cert.all [Cert.pick 1 2 (Cert.all []), Cert.pick 1 0 (Cert.all [])])]), Cert.pick 1 1 (Cert.all [Cert.pick 1 2 (Cert.all [Cert.pick 2 2 (Cert.all []), Cert.pick 2 0 (Cert.all [])]), Cert.pick 1 0 (Cert.all [Cert.pick 2 2 (Cert.all []), Cert.pick 2 0 (Cert.all [])]), Cert.pick 2 2 (Cert.all []), Cert.pick 2 0 (Cert.all [])]), Cert.pick 1 0 (Cert.all [Cert.pick 2 0 (Cert.all []), Cert.pick 1 1 (Cert.all [Cert.pick 2 1 (Cert.all []), Cert.pick 2 0 (Cert.all [])]), Cert.pick 2 1 (Cert.all [Cert.pick 1 2 (Cert.all []), Cert.pick 1 1 (Cert.all [])]), Cert.pick 2 0 (Cert.all [])])]), Cert.pick 0 0 (Cert.all [Cert.pick 1 1 (Cert.all [Cert.pick 2 0 (Cert.all []), Cert.pick 1 2 (Cert.all [Cert.pick 2 2 (Cert.all []), Cert.pick 2 1 (Cert.all [])]), Cert.pick 1 2 (Cert.all [Cert.pick 2 2 (Cert.all []), Cert.pick 2 0 (Cert.all [])]), Cert.pick 1 2 (Cert.all [Cert.pick 2 1 (Cert.all []), Cert.pick 2 0 (Cert.all [])])]), Cert.pick 0 1 (Cert.all []), Cert.pick 0 1 (Cert.all []), Cert.pick 0 1 (Cert.all []), Cert.pick 0 1 (Cert.all []), Cert.pick 0 1 (Cert.all [])]), Cert.pick 0 0 (Cert.all [Cert.pick 2 1 (Cert.all [Cert.pick 1 2 (Cert.all [Cert.pick 2 2 (Cert.all []), Cert.pick 2 0 (Cert.all [])]), Cert.pick 1 0 (Cert.all [Cert.pick 2 2 (Cert.all []), Cert.pick 2 0 (Cert.all [])]), Cert.pick 1 0 (Cert.all [Cert.pick 2 2 (Cert.all []), Cert.pick 1 2 (Cert.all [])]), Cert.pick 1 0 (Cert.all [Cert.pick 2 0 (Cert.all []), Cert.pick 1 2 (Cert.all [])])]), Cert.pick 0 1 (Cert.all []), Cert.pick 0 1 (Cert.all []), Cert.pick 0 1 (Cert.all []), Cert.pick 0 1 (Cert.all []), Cert.pick 0 1 (Cert.all [])]), Cert.pick 0 0 (Cert.all [Cert.pick 1 0 (Cert.all [Cert.pick 2 0 (Cert.all []), Cert.pick 1 1 (Cert.all [Cert.pick 2 2 (Cert.all []), Cert.pick 2 1 (Cert.all [])]), Cert.pick 1 1 (Cert.all [Cert.pick 2 2 (Cert.all []), Cert.pick 2 0 (Cert.all [])]), Cert.pick 1 1 (Cert.all [Cert.pick 2 1 (Cert.all []), Cert.pick 2 0 (Cert.all [])])]), Cert.pick 0 1 (Cert.all []), Cert.pick 0 1 (Cert.all []), Cert.pick 0 1 (Cert.all []), Cert.pick 0 1 (Cert.all []), Cert.pick 0 1 (Cert.all [])]), Cert.pick 0 0 (Cert.all [Cert.pick 1 1 (Cert.all [Cert.pick 1 2 (Cert.all [Cert.pick 2 2 (Cert.all []), Cert.pick 2 1 (Cert.all [])]), Cert.pick 1 0 (Cert.all [Cert.pick 2 2 (Cert.all []), Cert.pick 2 1 (Cert.all [])]), Cert.pick 2 2 (Cert.all []), Cert.pick 2 1 (Cert.all [Cert.pick 1 2 (Cert.all []), Cert.pick 1 0 (Cert.all [])])]), Cert.pick 0 1 (Cert.all []), Cert.pick 0 1 (Cert.all []), Cert.pick 0 1 (Cert.all []), Cert.pick 0 1 (Cert.all []), Cert.pick 0 1 (Cert.all [])]), Cert.pick 0 0 (Cert.all [Cert.pick 1 1 (Cert.all [Cert.pick 1 2 (Cert.all [Cert.pick 2 2 (Cert.all []), Cert.pick 2 0 (Cert.all [])]), Cert.pick 1 0 (Cert.all [Cert.pick 2 2 (Cert.all []), Cert.pick 2 0 (Cert.all [])]), Cert.pick 2 2 (Cert.all []), Cert.pick 2 0 (Cert.all [])]), Cert.pick 0 1 (Cert.all []), Cert.pick 0 1 (Cert.all []), Cert.pick 0 1 (Cert.all []), Cert.pick 0 1 (Cert.all []), Cert.pick 0 1 (Cert.all [])]), Cert.pick 0 0 (Cert.all [Cert.pick 1 0 (Cert.all [Cert.pick 2 0 (Cert.all []), Cert.pick 1 1 (Cert.all [Cert.pick 2 1 (Cert.all []), Cert.pick 2 0 (Cert.all [])]), Cert.pick 2 1 (Cert.all [Cert.pick 1 2 (Cert.all []), Cert.pick 1 1 (Cert.all [])]), Cert.pick 2 0 (Cert.all [])]), Cert.pick 0 1 (Cert.all []), Cert.pick 0 1 (Cert.all []), Cert.pick 0 1 (Cert.all []), Cert.pick 0 1 (Cert.all []), Cert.pick 0 1 (Cert.all [])])]

/-- Upper-bound certificate (score at most 0) for the position with the agent's mark at (0,2), human to move. -/
def certU02 : Cert :=
  Cert.pick 1 1 (Cert.all [Cert.pick 0 1 (Cert.all [Cert.pick 2 0 (Cert.all [Cert.pick 2 1 (Cert.all []), Cert.pick 1 2 (Cert.all [Cert.all []]), Cert.pick 1 2 (Cert.all [Cert.all []])]), Cert.pick 2 1 (Cert.all []), Cert.pick 1 0 (Cert.all [Cert.pick 2 1 (Cert.all []), Cert.pick 1 2 (Cert.all []), Cert.pick 1 2 (Cert.all [])]), Cert.pick 1 0 (Cert.all [Cert.pick 2 2 (Cert.all [Cert.all []]), Cert.pick 1 2 (Cert.all []), Cert.pick 1 2 (Cert.all [])]), Cert.pick 1 2 (Cert.all [Cert.pick 2 0 (Cert.all [Cert.all []]), Cert.pick 1 0 (Cert.all []), Cert.pick 1 0 (Cert.all [])])]), Cert.pick 0 0 (Cert.all [Cert.pick 1 2 (Cert.all [Cert.pick 2 1 (Cert.all [Cert.all []]), Cert.pick 2 0 (Cert.all [Cert.all []]), Cert.pick 2 0 (Cert.all [Cert.all []])]), Cert.pick 2 2 (Cert.all []), Cert.pick 1 0 (Cert.all [Cert.pick 2 2 (Cert.all []), Cert.pick 1 2 (Cert.all []), Cert.pick 1 2 (Cert.all [])]), Cert.pick 1 0 (Cert.all [Cert.pick 2 0 (Cert.all []), Cert.pick 1 2 (Cert.all []), Cert.pick 1 2 (Cert.all [])]), Cert.pick 1 2 (Cert.all [Cert.pick 2 0 (Cert.all [Cert.all []]), Cert.pick 1 0 (Cert.all []), Cert.pick 1 0 (Cert.all [])])]), Cert.pick 0 0 (Cert.all [Cert.pick 1 2 (Cert.all [Cert.pick 2 1 (Cert.all [Cert.all []]), Cert.pick 2 0 (Cert.all [Cert.all []]), Cert.pick 2 0 (Cert.all [Cert.all []])]), Cert.pick 2 2 (Cert.all []), Cert.pick 0 1 (Cert.all [Cert.pick 2 1 (Cert.all []), Cert.pick 2 2 (Cert.all []), Cert.pick 2 1 (Cert.all [])]), Cert.pick 1 2 (Cert.all [Cert.pick 2 0 (Cert.all [Cert.all []]), Cert.pick 2 2 (Cert.all []), Cert.pick 2 0 (Cert.all [Cert.all []])]), Cert.pick 1 2 (Cert.all [Cert.pick 2 0 (Cert.all [Cert.all []]), Cert.pick 2 1 (Cert.all [Cert.all []]), Cert.pick 2 0 (Cert.all [Cert.all []])])]), Cert.pick 2 2 (Cert.all [Cert.pick 0 1 (Cert.all [Cert.pick 2 0 (Cert.all [Cert.all []]), Cert.pick 1 0 (Cert.all [Cert.all []]), Cert.pick 1 0 (Cert.all [Cert.all []])]), Cert.pick 0 0 (Cert.all []), Cert.pick 0 0 (Cert.all []), Cert.pick 0 0 (Cert.all []), Cert.pick 0 0 (Cert.all [])]), Cert.pick 0 1 (Cert.all [Cert.pick 1 0 (Cert.all [Cert.pick 2 1 (Cert.all []), Cert.pick 1 2 (Cert.all []), Cert.pick 1 2 (Cert.all [])]), Cert.pick 0 0 (Cert.all [Cert.pick 2 1 (Cert.all []), Cert.pick 2 2 (Cert.all []), Cert.pick 2 1 (Cert.all [])]), Cert.pick 2 1 (Cert.all []), Cert.pick 2 2 (Cert.all [Cert.pick 1 0 (Cert.all [Cert.all []]), Cert.pick 0 0 (Cert.all []), Cert.pick 0 0 (Cert.all [])]), Cert.pick 2 1 (Cert.all [])]), Cert.pick 1 0 (Cert.all [Cert.pick 0 1 (Cert.all [Cert.pick 2 2 (Cert.all [Cert.all []]), Cert.pick 1 2 (Cert.all []), Cert.pick 1 2 (Cert.all [])]), Cert.pick 0 0 (Cert.all [Cert.pick 2 0 (Cert.all []), Cert.pick 1 2 (Cert.all []), Cert.pick 1 2 (Cert.all [])]), Cert.pick 2 2 (Cert.all [Cert.pick 0 1 (Cert.all [Cert.all []]), Cert.pick 0 0 (Cert.all []), Cert.pick 0 0 (Cert.all [])]), Cert.pick 1 2 (Cert.all []), Cert.pick 1 2 (Cert.all [])]), Cert.pick 1 2 (Cert.all [Cert.pick 0 1 (Cert.all [Cert.pick 2 0 (Cert.all [Cert.all []]), Cert.pick 1 0 (Cert.all []), Cert.pick 1 0 (Cert.all [])]), Cert.pick 0 0 (Cert.all [Cert.pick 2 0 (Cert.all [Cert.all []]), Cert.pick 1 0 (Cert.all []), Cert.pick 1 0 (Cert.all [])]), Cert.pick 0 0 (Cert.all [Cert.pick 2 0 (Cert.all [Cert.all []]), Cert.pick 2 1 (Cert.all [Cert.all []]), Cert.pick 2 0 (Cert.all [Cert.all []])]), Cert.pick 1 0 (Cert.all []), Cert.pick 1 0 (Cert.all [])])])

/-- Lower-bound certificate (score at least 0) for the position with the agent's mark at (1,0), human to move. -/
def certL10 : Cert :=
  Cert.all [Cert.pick 0 1 (Cert.all [Cert.pick 1 1 (Cert.all [Cert.pick 2 1 (Cert.all []), Cert.pick 1 2 (Cert.all []), Cert.pick 1 2 (Cert.all []), Cert.pick 1 2 (Cert.all [])]), Cert.pick 2 2 (Cert.all [Cert.pick 2 0 (Cert.all [Cert.pick 2 1 (Cert.all []), Cert.pick 1 2 (Cert.all [])]), Cert.pick 0 2 (Cert.all [Cert.pick 2 1 (Cert.all []), Cert.pick 2 0 (Cert.all [])]), Cert.pick 0 2 (Cert.all [Cert.pick 2 1 (Cert.all []), Cert.pick 1 2 (Cert.all [])]), Cert.pick 0 2 (Cert.all [Cert.pick 2 0 (Cert.all []), Cert.pick 1 2 (Cert.all [])])]), Cert.pick 0 2 (Cert.all [Cert.pick 2 2 (Cert.all [Cert.pick 2 1 (Cert.all []), Cert.pick 2 0 (Cert.all [])]), Cert.pick 1 1 (Cert.all [Cert.pick 2 2 (Cert.all []), Cert.pick 2 1 (Cert.all [])]), Cert.pick 1 1 (Cert.all [Cert.pick 2 2 (Cert.all []), Cert.pick 2 0 (Cert.all [])]), Cert.pick 1 1 (Cert.all [Cert.pick 2 1 (Cert.all []), Cert.pick 2 0 (Cert.all [])])]), Cert.pick 1 1 (Cert.all [Cert.pick 1 2 (Cert.all []), Cert.pick 0 2 (Cert.all [Cert.pick 2 2 (Cert.all []), Cert.pick 2 1 (Cert.all [])]), Cert.pick 1 2 (Cert.all []), Cert.pick 1 2 (Cert.all [])]), Cert.pick 1 1 (Cert.all [Cert.pick 1 2 (Cert.all []), Cert.pick 0 2 (Cert.all [Cert.pick 2 2 (Cert.all []), Cert.pick 2 0 (Cert.all [])]), Cert.pick 1 2 (Cert.all []), Cert.pick 1 2 (Cert.all [])]), Cert.pick 1 1 (Cert.all [Cert.pick 1 2 (Cert.all []), Cert.pick 0 2 (Cert.all [Cert.pick 2 1 (Cert.all []), Cert.pick 2 0 (Cert.all [])]), Cert.pick 1 2 (Cert.all []), Cert.pick 1 2 (Cert.all [])])]), Cert.pick 0 0 (Cert.all [Cert.pick 1 1 (Cert.all [Cert.pick 2 0 (Cert.all []), Cert.pick 1 2 (Cert.all []), Cert.pick 1 2 (Cert.all []), Cert.pick 1 2 (Cert.all [])]), Cert.pick 2 0 (Cert.all []), Cert.pick 0 2 (Cert.all [Cert.pick 2 0 (Cert.all []), Cert.pick 1 1 (Cert.all [Cert.pick 2 2 (Cert.all []), Cert.pick 2 1 (Cert.all [])]), Cert.pick 1 1 (Cert.all [Cert.pick 2 2 (Cert.all []), Cert.pick 2 0 (Cert.all [])]), Cert.pick 1 1 (Cert.all [Cert.pick 2 1 (Cert.all []), Cert.pick 2 0 (Cert.all [])])]), Cert.pick 1 1 (Cert.all [Cert.pick 1 2 (Cert.all []), Cert.pick 0 2 (Cert.all [Cert.pick 2 2 (Cert.all []), Cert.pick 2 1 (Cert.all [])]), Cert.pick 1 2 (Cert.all []), Cert.pick 1 2 (Cert.all [])]), Cert.pick 1 1 (Cert.all [Cert.pick 1 2 (Cert.all []), Cert.pick 0 2 (Cert.all [Cert.pick 2 2 (Cert.all []), Cert.pick 2 0 (Cert.all [])]), Cert.pick 1 2 (Cert.all []), Cert.pick 1 2 (Cert.all [])]), Cert.pick 0 2 (Cert.all [Cert.pick 2 0 (Cert.all []), Cert.pick 1 1 (Cert.all [Cert.pick 2 1 (Cert.all []), Cert.pick 2 0 (Cert.all [])]), Cert.pick 2 1 (Cert.all [Cert.pick 1 2 (Cert.all []), Cert.pick 1 1 (Cert.all [])]), Cert.pick 2 0 (Cert.all [])])]), Cert.pick 0 0 (Cert.all [Cert.pick 1 1 (Cert.all [Cert.pick 2 0 (Cert.all []), Cert.pick 1 2 (Cert.all []), Cert.pick 1 2 (Cert.all []), Cert.pick 1 2 (Cert.all [])]), Cert.pick 2 0 (Cert.all []), Cert.pick 2 0 (Cert.all []), Cert.pick 1 1 (Cert.all [Cert.pick 1 2 (Cert.all []), Cert.pick 2 2 (Cert.all []), Cert.pick 1 2 (Cert.all []), Cert.pick 1 2 (Cert.all [])]), Cert.pick 1 1 (Cert.all [Cert.pick 1 2 (Cert.all []), Cert.pick 2 0 (Cert.all []), Cert.pick 1 2 (Cert.all []), Cert.pick 1 2 (Cert.all [])]), Cert.pick 1 2 (Cert.all [Cert.pick 1 1 (Cert.all []), Cert.pick 2 0 (Cert.all []), Cert.pick 1 1 (Cert.all []), Cert.pick 1 1 (Cert.all [])])]), Cert.pick 0 0 (Cert.all [Cert.pick 2 0 (Cert.all []), Cert.pick 2 0 (Cert.all []), Cert.pick 0 1 (Cert.all [Cert.pick 2 0 (Cert.all []), Cert.pick 0 2 (Cert.all []), Cert.pick 0 2 (Cert.all []), Cert.pick 0 2 (Cert.all [])]), Cert.pick 0 2 (Cert.all [Cert.pick 2 1 (Cert.all [Cert.pick 2 2 (Cert.all []), Cert.pick 1 2 (Cert.all [])]), Cert.pick 0 1 (Cert.all []), Cert.pick 0 1 (Cert.all []), Cert.pick 0 1 (Cert.all [])]), Cert.pick 0 1 (Cert.all [Cert.pick 2 0 (Cert.all []), Cert.pick 0 2 (Cert.all []), Cert.pick 0 2 (Cert.all []), Cert.pick 0 2 (Cert.all [])]), Cert.pick 0 1 (Cert.all [Cert.pick 2 0 (Cert.all []), Cert.pick 0 2 (Cert.all []), Cert.pick 0 2 (Cert.all []), Cert.pick 0 2 (Cert.all [])])]), Cert.pick 0 0 (Cert.all [Cert.pick 0 2 (Cert.all [Cert.pick 2 0 (Cert.all []), Cert.pick 1 1 (Cert.all [Cert.pick 2 2 (Cert.all []), Cert.pick 2 1 (Cert.all [])]), Cert.pick 1 1 (Cert.all [Cert.pick 2 2 (Cert.all []), Cert.pick 2 0 (Cert.all [])]), Cert.pick 1 1 (Cert.all [Cert.pick 2 1 (Cert.all []), Cert.pick 2 0 (Cert.all [])])]), Cert.pick 2 0 (Cert.all []), Cert.pick 0 1 (Cert.all [Cert.pick 2 0 (Cert.all []), Cert.pick 0 2 (Cert.all []), Cert.pick 0 2 (Cert.all []), Cert.pick 0 2 (Cert.all [])]), Cert.pick 0 2 (Cert.all [Cert.pick 1 1 (Cert.all [Cert.pick 2 2 (Cert.all []), Cert.pick 2 1 (Cert.all [])]), Cert.pick 0 1 (Cert.all []), Cert.pick 0 1 (Cert.all []), Cert.pick 0 1 (Cert.all [])]), Cert.pick 0 1 (Cert.all [Cert.pick 2 0 (Cert.all []), Cert.pick 0 2 (Cert.all []), Cert.pick 0 2 (Cert.all []), Cert.pick 0 2 (Cert.all [])]), Cert.pick 0 2 (Cert.all [Cert.pick 1 1 (Cert.all [Cert.pick 2 1 (Cert.all []), Cert.pick 2 0 (Cert.all [])]), Cert.pick 0 1 (Cert.all []), Cert.pick 0 1 (Cert.all []), Cert.pick 0 1 (Cert.all [])])]), Cert.pick 0 2 (Cert.all [Cert.pick 1 1 (Cert.all [Cert.pick 1 2 (Cert.all []), Cert.pick 0 1 (Cert.all [Cert.pick 2 2 (Cert.all []), Cert.pick 2 1 (Cert.all [])]), Cert.pick 1 2 (Cert.all []), Cert.pick 1 2 (Cert.all [])]), Cert.pick 1 1 (Cert.all [Cert.pick 1 2 (Cert.all []), Cert.pick 0 0 (Cert.all [Cert.pick 2 2 (Cert.all []), Cert.pick 2 1 (Cert.all [])]), Cert.pick 1 2 (Cert.all []), Cert.pick 1 2 (Cert.all [])]), Cert.pick 0 0 (Cert.all [Cert.pick 2 1 (Cert.all [Cert.pick 2 2 (Cert.all []), Cert.pick 1 2 (Cert.all [])]), Cert.pick 0 1 (Cert.all []), Cert.pick 0 1 (Cert.all []), Cert.pick 0 1 (Cert.all [])]), Cert.pick 0 0 (Cert.all [Cert.pick 1 1 (Cert.all [Cert.pick 2 2 (Cert.all []), Cert.pick 2 1 (Cert.all [])]), Cert.pick 0 1 (Cert.all []), Cert.pick 0 1 (Cert.all []), Cert.pick 0 1 (Cert.all [])]), Cert.pick 2 2 (Cert.all [Cert.pick 0 1 (Cert.all [Cert.pick 1 2 (Cert.all []), Cert.pick 1 1 (Cert.all [])]), Cert.pick 1 1 (Cert.all [Cert.pick 1 2 (Cert.all []), Cert.pick 0 0 (Cert.all [])]), Cert.pick 0 1 (Cert.all [Cert.pick 1 2 (Cert.all []), Cert.pick 0 0 (Cert.all [])]), Cert.pick 0 0 (Cert.all [Cert.pick 1 1 (Cert.all []), Cert.pick 0 1 (Cert.all [])])]), Cert.pick 2 1 (Cert.all [Cert.pick 1 1 (Cert.all [Cert.pick 1 2 (Cert.all []), Cert.pick 0 1 (Cert.all [])]), Cert.pick 0 0 (Cert.all [Cert.pick 1 2 (Cert.all []), Cert.pick 1 1 (Cert.all [])]), Cert.pick 0 0 (Cert.all [Cert.pick 1 2 (Cert.all []), Cert.pick 0 1 (Cert.all [])]), Cert.pick 0 0 (Cert.all [Cert.pick 1 1 (Cert.all []), Cert.pick 0 1 (Cert.all [])])])]), Cert.pick 0 1 (Cert.all [Cert.pick 1 1 (Cert.all [Cert.pick 1 2 (Cert.all []), Cert.pick 0 2 (Cert.all [Cert.pick 2 2 (Cert.all []), Cert.pick 2 0 (Cert.all [])]), Cert.pick 1 2 (Cert.all []), Cert.pick 1 2 (Cert.all [])]), Cert.pick 1 1 (Cert.all [Cert.pick 1 2 (Cert.all []), Cert.pick 2 2 (Cert.all [Cert.pick 2 0 (Cert.all []), Cert.pick 0 0 (Cert.all [])]), Cert.pick 1 2 (Cert.all []), Cert.pick 1 2 (Cert.all [])]), Cert.pick 0 0 (Cert.all [Cert.pick 2 0 (Cert.all []), Cert.pick 0 2 (Cert.all []), Cert.pick 0 2 (Cert.all []), Cert.pick 0 2 (Cert.all [])]), Cert.pick 0 0 (Cert.all [Cert.pick 2 0 (Cert.all []), Cert.pick 0 2 (Cert.all []), Cert.pick 0 2 (Cert.all []), Cert.pick 0 2 (Cert.all [])]), Cert.pick 2 2 (Cert.all [Cert.pick 0 2 (Cert.all [Cert.pick 1 2 (Cert.all []), Cert.pick 1 1 (Cert.all [])]), Cert.pick 1 1 (Cert.all [Cert.pick 1 2 (Cert.all []), Cert.pick 0 0 (Cert.all [])]), Cert.pick 0 2 (Cert.all [Cert.pick 1 2 (Cert.all []), Cert.pick 0 0 (Cert.all [])]), Cert.pick 0 0 (Cert.all [Cert.pick 1 1 (Cert.all []), Cert.pick 0 2 (Cert.all [])])]), Cert.pick 2 0 (Cert.all [Cert.pick 1 1 (Cert.all [Cert.pick 1 2 (Cert.all []), Cert.pick 0 2 (Cert.all [])]), Cert.pick 0 0 (Cert.all []), Cert.pick 0 0 (Cert.all []), Cert.pick 0 0 (Cert.all [])])]), Cert.pick 0 2 (Cert.all [Cert.pick 1 1 (Cert.all [Cert.pick 1 2 (Cert.all []), Cert.pick 0 1 (Cert.all [Cert.pick 2 1 (Cert.all []), Cert.pick 2 0 (Cert.all [])]), Cert.pick 1 2 (Cert.all []), Cert.pick 1 2 (Cert.all [])]), Cert.pick 0 0 (Cert.all [Cert.pick 2 0 (Cert.all []), Cert.pick 1 1 (Cert.all [Cert.pick 2 1 (Cert.all []), Cert.pick 2 0 (Cert.all [])]), Cert.pick 2 1 (Cert.all [Cert.pick 1 2 (Cert.all []), Cert.pick 1 1 (Cert.all [])]), Cert.pick 2 0 (Cert.all [])]), Cert.pick 0 0 (Cert.all [Cert.pick 2 0 (Cert.all []), Cert.pick 0 1 (Cert.all []), Cert.pick 0 1 (Cert.all []), Cert.pick 0 1 (Cert.all [])]), Cert.pick 0 0 (Cert.all [Cert.pick 1 1 (Cert.all [Cert.pick 2 1 (Cert.all []), Cert.pick 2 0 (Cert.all [])]), Cert.pick 0 1 (Cert.all []), Cert.pick 0 1 (Cert.all []), Cert.pick 0 1 (Cert.all [])]), Cert.pick 2 1 (Cert.all [Cert.pick 1 1 (Cert.all [Cert.pick 1 2 (Cert.all []), Cert.pick 0 1 (Cert.all [])]), Cert.pick 0 0 (Cert.all [Cert.pick 1 2 (Cert.all []), Cert.pick 1 1 (Cert.all [])]), Cert.pick 0 0 (Cert.all [Cert.pick 1 2 (Cert.all []), Cert.pick 0 1 (Cert.all [])]), Cert.pick 0 0 (Cert.all [Cert.pick 1 1 (Cert.all []), Cert.pick 0 1 (Cert.all [])])]), Cert.pick 2 0 (Cert.all [Cert.pick 1 1 (Cert.all []), Cert.pick 0 0 (Cert.all []), Cert.pick 0 0 (Cert.all []), Cert.pick 0 0 (Cert.all [])])])]

/-- Upper-bound certificate (score at most 0) for the position with the agent's mark at (1,0), human to move. -/
def certU10 : Cert :=
  Cert.pick 0 0 (Cert.all [Cert.pick 1 1 (Cert.all [Cert.pick 1 2 (Cert.all [Cert.pick 2 1 (Cert.all [Cert.all []]), Cert.pick 2 0 (Cert.all [Cert.all []]), Cert.pick 2 0 (Cert.all [Cert.all []])]), Cert.pick 0 2 (Cert.all [Cert.pick 2 1 (Cert.all [Cert.all []]), Cert.pick 2 0 (Cert.all []), Cert.pick 2 0 (Cert.all [])]), Cert.pick 0 2 (Cert.all [Cert.pick 2 1 (Cert.all [Cert.all []]), Cert.pick 2 2 (Cert.all []), Cert.pick 2 1 (Cert.all [Cert.all []])]), Cert.pick 0 2 (Cert.all [Cert.pick 2 0 (Cert.all []), Cert.pick 2 2 (Cert.all []), Cert.pick 2 0 (Cert.all [])]), Cert.pick 0 2 (Cert.all [Cert.pick 2 0 (Cert.all []), Cert.pick 2 1 (Cert.all [Cert.all []]), Cert.pick 2 0 (Cert.all [])])]), Cert.pick 1 1 (Cert.all [Cert.pick 1 2 (Cert.all [Cert.pick 2 1 (Cert.all [Cert.all []]), Cert.pick 2 0 (Cert.all [Cert.all []]), Cert.pick 2 0 (Cert.all [Cert.all []])]), Cert.pick 2 2 (Cert.all []), Cert.pick 0 1 (Cert.all [Cert.pick 2 1 (Cert.all []), Cert.pick 2 2 (Cert.all []), Cert.pick 2 1 (Cert.all [])]), Cert.pick 1 2 (Cert.all [Cert.pick 2 0 (Cert.all [Cert.all []]), Cert.pick 2 2 (Cert.all []), Cert.pick 2 0 (Cert.all [Cert.all []])]), Cert.pick 1 2 (Cert.all [Cert.pick 2 0 (Cert.all [Cert.all []]), Cert.pick 2 1 (Cert.all [Cert.all []]), Cert.pick 2 0 (Cert.all [Cert.all []])])]), Cert.pick 1 2 (Cert.all [Cert.pick 2 1 (Cert.all [Cert.pick 2 0 (Cert.all [Cert.all []]), Cert.pick 0 2 (Cert.all [Cert.all []]), Cert.pick 0 2 (Cert.all [Cert.all []])]), Cert.pick 2 0 (Cert.all [Cert.pick 2 1 (Cert.all [Cert.all []]), Cert.pick 0 1 (Cert.all [Cert.all []]), Cert.pick 0 1 (Cert.all [Cert.all []])]), Cert.pick 0 2 (Cert.all [Cert.pick 2 1 (Cert.all [Cert.all []]), Cert.pick 0 1 (Cert.all []), Cert.pick 0 1 (Cert.all [])]), Cert.pick 0 1 (Cert.all [Cert.pick 2 0 (Cert.all [Cert.all []]), Cert.pick 0 2 (Cert.all []), Cert.pick 0 2 (Cert.all [])]), Cert.pick 0 1 (Cert.all [Cert.pick 2 0 (Cert.all [Cert.all []]), Cert.pick 0 2 (Cert.all []), Cert.pick 0 2 (Cert.all [])])]), Cert.pick 1 1 (Cert.all [Cert.pick 0 2 (Cert.all [Cert.pick 2 1 (Cert.all [Cert.all []]), Cert.pick 2 0 (Cert.all []), Cert.pick 2 0 (Cert.all [])]), Cert.pick 2 2 (Cert.all []), Cert.pick 0 1 (Cert.all [Cert.pick 2 1 (Cert.all []), Cert.pick 0 2 (Cert.all []), Cert.pick 0 2 (Cert.all [])]), Cert.pick 0 1 (Cert.all [Cert.pick 2 2 (Cert.all []), Cert.pick 0 2 (Cert.all []), Cert.pick 0 2 (Cert.all [])]), Cert.pick 0 2 (Cert.all [Cert.pick 2 0 (Cert.all []), Cert.pick 0 1 (Cert.all []), Cert.pick 0 1 (Cert.all [])])]), Cert.pick 0 1 (Cert.all [Cert.pick 1 1 (Cert.all [Cert.pick 2 1 (Cert.all []), Cert.pick 2 2 (Cert.all []), Cert.pick 2 1 (Cert.all [])]), Cert.pick 0 2 (Cert.all []), Cert.pick 0 2 (Cert.all []), Cert.pick 0 2 (Cert.all []), Cert.pick 0 2 (Cert.all [])]), Cert.pick 0 2 (Cert.all [Cert.pick 1 1 (Cert.all [Cert.pick 2 0 (Cert.all []), Cert.pick 2 2 (Cert.all []), Cert.pick 2 0 (Cert.all [])]), Cert.pick 0 1 (Cert.all []), Cert.pick 0 1 (Cert.all []), Cert.pick 0 1 (Cert.all []), Cert.pick 0 1 (Cert.all [])]), Cert.pick 0 2 (Cert.all [Cert.pick 1 1 (Cert.all [Cert.pick 2 0 (Cert.all []), Cert.pick 2 1 (Cert.all [Cert.all []]), Cert.pick 2 0 (Cert.all [])]), Cert.pick 0 1 (Cert.all []), Cert.pick 0 1 (Cert.all []), Cert.pick 0 1 (Cert.all []), Cert.pick 0 1 (Cert.all [])])])

/-- Lower-bound certificate (score at least 0) for the position with the agent's mark at (1,1), human to move. -/
def certL11 : Cert :=
  Cert.all [Cert.pick 0 1 (Cert.all [Cert.pick 1 0 (Cert.all [Cert.pick 2 1 (Cert.all []), Cert.pick 1 2 (Cert.all []), Cert.pick 1 2 (Cert.all []), Cert.pick 1 2 (Cert.all [])]), Cert.pick 2 0 (Cert.all [Cert.pick 1 2 (Cert.all [Cert.pick 2 2 (Cert.all []), Cert.pick 2 1 (Cert.all [])]), Cert.pick 0 2 (Cert.all []), Cert.pick 0 2 (Cert.all []), Cert.pick 0 2 (Cert.all [])]), Cert.pick 0 2 (Cert.all [Cert.pick 2 0 (Cert.all []), Cert.pick 1 0 (Cert.all [Cert.pick 2 2 (Cert.all []), Cert.pick 2 1 (Cert.all [])]), Cert.pick 1 0 (Cert.all [Cert.pick 2 2 (Cert.all []), Cert.pick 2 0 (Cert.all [])]), Cert.pick 1 0 (Cert.all [Cert.pick 2 1 (Cert.all []), Cert.pick 2 0 (Cert.all [])])]), Cert.pick 1 0 (Cert.all [Cert.pick 1 2 (Cert.all []), Cert.pick 0 2 (Cert.all [Cert.pick 2 2 (Cert.all []), Cert.pick 2 1 (Cert.all [])]), Cert.pick 1 2 (Cert.all []), Cert.pick 1 2 (Cert.all [])]), Cert.pick 1 0 (Cert.all [Cert.pick 1 2 (Cert.all []), Cert.pick 0 2 (Cert.all [Cert.pick 2 2 (Cert.all []), Cert.pick 2 0 (Cert.all [])]), Cert.pick 1 2 (Cert.all []), Cert.pick 1 2 (Cert.all [])]), Cert.pick 0 2 (Cert.all [Cert.pick 2 0 (Cert.all []), Cert.pick 1 0 (Cert.all [Cert.pick 2 1 (Cert.all []), Cert.pick 2 0 (Cert.all [])]), Cert.pick 2 1 (Cert.all []), Cert.pick 2 0 (Cert.all [])])]), Cert.pick 0 0 (Cert.all [Cert.pick 1 0 (Cert.all [Cert.pick 2 0 (Cert.all []), Cert.pick 1 2 (Cert.all []), Cert.pick 1 2 (Cert.all []), Cert.pick 1 2 (Cert.all [])]), Cert.pick 0 2 (Cert.all [Cert.pick 2 0 (Cert.all []), Cert.pick 1 2 (Cert.all [Cert.pick 2 2 (Cert.all []), Cert.pick 2 1 (Cert.all [])]), Cert.pick 1 2 (Cert.all [Cert.pick 2 2 (Cert.all []), Cert.pick 2 0 (Cert.all [])]), Cert.pick 1 2 (Cert.all [Cert.pick 2 1 (Cert.all []), Cert.pick 2 0 (Cert.all [])])]), Cert.pick 0 2 (Cert.all [Cert.pick 2 0 (Cert.all []), Cert.pick 1 0 (Cert.all [Cert.pick 2 2 (Cert.all []), Cert.pick 2 1 (Cert.all [])]), Cert.pick 1 0 (Cert.all [Cert.pick 2 2 (Cert.all []), Cert.pick 2 0 (Cert.all [])]), Cert.pick 1 0 (Cert.all [Cert.pick 2 1 (Cert.all []), Cert.pick 2 0 (Cert.all [])])]), Cert.pick 0 2 (Cert.all [Cert.pick 1 2 (Cert.all [Cert.pick 2 2 (Cert.all []), Cert.pick 2 1 (Cert.all [])]), Cert.pick 1 0 (Cert.all [Cert.pick 2 2 (Cert.all []), Cert.pick 2 1 (Cert.all [])]), Cert.pick 2 2 (Cert.all []), Cert.pick 2 1 (Cert.all [Cert.pick 1 2 (Cert.all []), Cert.pick 1 0 (Cert.all [])])]), Cert.pick 0 2 (Cert.all [Cert.pick 1 2 (Cert.all [Cert.pick 2 2 (Cert.all []), Cert.pick 2 0 (Cert.all [])]), Cert.pick 1 0 (Cert.all [Cert.pick 2 2 (Cert.all []), Cert.pick 2 0 (Cert.all [])]), Cert.pick 2 2 (Cert.all []), Cert.pick 2 0 (Cert.all [])]), Cert.pick 0 2 (Cert.all [Cert.pick 1 2 (Cert.all [Cert.pick 2 1 (Cert.all []), Cert.pick 2 0 (Cert.all [])]), Cert.pick 1 0 (Cert.all [Cert.pick 2 1 (Cert.all []), Cert.pick 2 0 (Cert.all [])]), Cert.pick 2 1 (Cert.all [Cert.pick 1 2 (Cert.all []), Cert.pick 1 0 (Cert.all [])]), Cert.pick 2 0 (Cert.all [])])]), Cert.pick 0 0 (Cert.all [Cert.pick 1 0 (Cert.all [Cert.pick 2 0 (Cert.all []), Cert.pick 1 2 (Cert.all []), Cert.pick 1 2 (Cert.all []), Cert.pick 1 2 (Cert.all [])]), Cert.pick 0 1 (Cert.all [Cert.pick 2 1 (Cert.all []), Cert.pick 1 2 (Cert.all [Cert.pick 2 2 (Cert.all []), Cert.pick 2 1 (Cert.all [])]), Cert.pick 1 2 (Cert.all [Cert.pick 2 2 (Cert.all []), Cert.pick 2 0 (Cert.all [])]), Cert.pick 1 2 (Cert.all [Cert.pick 2 1 (Cert.all []), Cert.pick 2 0 (Cert.all [])])]), Cert.pick 2 2 (Cert.all []), Cert.pick 0 1 (Cert.all [Cert.pick 1 2 (Cert.all [Cert.pick 2 2 (Cert.all []), Cert.pick 2 1 (Cert.all [])]), Cert.pick 2 1 (Cert.all []), Cert.pick 2 2 (Cert.all []), Cert.pick 2 1 (Cert.all [])]), Cert.pick 1 0 (Cert.all [Cert.pick 1 2 (Cert.all []), Cert.pick 2 0 (Cert.all []), Cert.pick 1 2 (Cert.all []), Cert.pick 1 2 (Cert.all [])]), Cert.pick 1 2 (Cert.all [Cert.pick 1 0 (Cert.all []), Cert.pick 0 1 (Cert.all [Cert.pick 2 1 (Cert.all []), Cert.pick 2 0 (Cert.all [])]), Cert.pick 1 0 (Cert.all []), Cert.pick 1 0 (Cert.all [])])]), Cert.pick 0 0 (Cert.all [Cert.pick 0 2 (Cert.all [Cert.pick 2 0 (Cert.all []), Cert.pick 1 2 (Cert.all [Cert.pick 2 2 (Cert.all []), Cert.pick 2 1 (Cert.all [])]), Cert.pick 1 2 (Cert.all [Cert.pick 2 2 (Cert.all []), Cert.pick 2 0 (Cert.all [])]), Cert.pick 1 2 (Cert.all [Cert.pick 2 1 (Cert.all []), Cert.pick 2 0 (Cert.all [])])]), Cert.pick 0 1 (Cert.all [Cert.pick 2 1 (Cert.all []), Cert.pick 1 2 (Cert.all [Cert.pick 2 2 (Cert.all []), Cert.pick 2 1 (Cert.all [])]), Cert.pick 1 2 (Cert.all [Cert.pick 2 2 (Cert.all []), Cert.pick 2 0 (Cert.all [])]), Cert.pick 1 2 (Cert.all [Cert.pick 2 1 (Cert.all []), Cert.pick 2 0 (Cert.all [])])]), Cert.pick 0 1 (Cert.all [Cert.pick 2 1 (Cert.all []), Cert.pick 0 2 (Cert.all []), Cert.pick 0 2 (Cert.all []), Cert.pick 0 2 (Cert.all [])]), Cert.pick 0 1 (Cert.all [Cert.pick 1 2 (Cert.all [Cert.pick 2 2 (Cert.all []), Cert.pick 2 1 (Cert.all [])]), Cert.pick 0 2 (Cert.all []), Cert.pick 0 2 (Cert.all []), Cert.pick 0 2 (Cert.all [])]), Cert.pick 0 1 (Cert.all [Cert.pick 1 2 (Cert.all [Cert.pick 2 2 (Cert.all []), Cert.pick 2 0 (Cert.all [])]), Cert.pick 0 2 (Cert.all []), Cert.pick 0 2 (Cert.all []), Cert.pick 0 2 (Cert.all [])]), Cert.pick 0 1 (Cert.all [Cert.pick 1 2 (Cert.all [Cert.pick 2 1 (Cert.all []), Cert.pick 2 0 (Cert.all [])]), Cert.pick 0 2 (Cert.all []), Cert.pick 0 2 (Cert.all []), Cert.pick 0 2 (Cert.all [])])]), Cert.pick 0 0 (Cert.all [Cert.pick 0 2 (Cert.all [Cert.pick 2 0 (Cert.all []), Cert.pick 1 0 (Cert.all [Cert.pick 2 2 (Cert.all []), Cert.pick 2 1 (Cert.all [])]), Cert.pick 1 0 (Cert.all [Cert.pick 2 2 (Cert.all []), Cert.pick 2 0 (Cert.all [])]), Cert.pick 1 0 (Cert.all [Cert.pick 2 1 (Cert.all []), Cert.pick 2 0 (Cert.all [])])]), Cert.pick 2 2 (Cert.all []), Cert.pick 0 1 (Cert.all [Cert.pick 2 1 (Cert.all []), Cert.pick 0 2 (Cert.all []), Cert.pick 0 2 (Cert.all []), Cert.pick 0 2 (Cert.all [])]), Cert.pick 0 1 (Cert.all [Cert.pick 2 1 (Cert.all []), Cert.pick 0 2 (Cert.all []), Cert.pick 0 2 (Cert.all []), Cert.pick 0 2 (Cert.all [])]), Cert.pick 0 1 (Cert.all [Cert.pick 2 2 (Cert.all []), Cert.pick 0 2 (Cert.all []), Cert.pick 0 2 (Cert.all []), Cert.pick 0 2 (Cert.all [])]), Cert.pick 0 2 (Cert.all [Cert.pick 1 0 (Cert.all [Cert.pick 2 1 (Cert.all []), Cert.pick 2 0 (Cert.all [])]), Cert.pick 0 1 (Cert.all []), Cert.pick 0 1 (Cert.all []), Cert.pick 0 1 (Cert.all [])])]), Cert.pick 0 0 (Cert.all [Cert.pick 0 2 (Cert.all [Cert.pick 1 2 (Cert.all [Cert.pick 2 2 (Cert.all []), Cert.pick 2 1 (Cert.all [])]), Cert.pick 1 0 (Cert.all [Cert.pick 2 2 (Cert.all []), Cert.pick 2 1 (Cert.all [])]), Cert.pick 2 2 (Cert.all []), Cert.pick 2 1 (Cert.all [Cert.pick 1 2 (Cert.all []), Cert.pick 1 0 (Cert.all [])])]), Cert.pick 0 1 (Cert.all [Cert.pick 1 2 (Cert.all [Cert.pick 2 2 (Cert.all []), Cert.pick 2 1 (Cert.all [])]), Cert.pick 2 1 (Cert.all []), Cert.pick 2 2 (Cert.all []), Cert.pick 2 1 (Cert.all [])]), Cert.pick 0 1 (Cert.all [Cert.pick 1 2 (Cert.all [Cert.pick 2 2 (Cert.all []), Cert.pick 2 1 (Cert.all [])]), Cert.pick 0 2 (Cert.all []), Cert.pick 0 2 (Cert.all []), Cert.pick 0 2 (Cert.all [])]), Cert.pick 0 1 (Cert.all [Cert.pick 2 1 (Cert.all []), Cert.pick 0 2 (Cert.all []), Cert.pick 0 2 (Cert.all []), Cert.pick 0 2 (Cert.all [])]), Cert.pick 2 2 (Cert.all []), Cert.pick 2 1 (Cert.all [Cert.pick 0 2 (Cert.all [Cert.pick 1 2 (Cert.all []), Cert.pick 1 0 (Cert.all [])]), Cert.pick 0 1 (Cert.all []), Cert.pick 0 1 (Cert.all []), Cert.pick 0 1 (Cert.all [])])]), Cert.pick 0 0 (Cert.all [Cert.pick 0 2 (Cert.all [Cert.pick 1 2 (Cert.all [Cert.pick 2 2 (Cert.all []), Cert.pick 2 0 (Cert.all [])]), Cert.pick 1 0 (Cert.all [Cert.pick 2 2 (Cert.all []), Cert.pick 2 0 (Cert.all [])]), Cert.pick 2 2 (Cert.all []), Cert.pick 2 0 (Cert.all [])]), Cert.pick 1 0 (Cert.all [Cert.pick 1 2 (Cert.all []), Cert.pick 2 0 (Cert.all []), Cert.pick 1 2 (Cert.all []), Cert.pick 1 2 (Cert.all [])]), Cert.pick 0 1 (Cert.all [Cert.pick 1 2 (Cert.all [Cert.pick 2 2 (Cert.all []), Cert.pick 2 0 (Cert.all [])]), Cert.pick 0 2 (Cert.all []), Cert.pick 0 2 (Cert.all []), Cert.pick 0 2 (Cert.all [])]), Cert.pick 0 1 (Cert.all [Cert.pick 2 2 (Cert.all []), Cert.pick 0 2 (Cert.all []), Cert.pick 0 2 (Cert.all []), Cert.pick 0 2 (Cert.all [])]), Cert.pick 2 2 (Cert.all []), Cert.pick 2 0 (Cert.all [Cert.pick 0 2 (Cert.all []), Cert.pick 1 0 (Cert.all []), Cert.pick 0 1 (Cert.all [Cert.pick 1 2 (Cert.all []), Cert.pick 0 2 (Cert.all [])]), Cert.pick 0 2 (Cert.all [])])]), Cert.pick 0 0 (Cert.all [Cert.pick 0 2 (Cert.all [Cert.pick 1 2 (Cert.all [Cert.pick 2 1 (Cert.all []), Cert.pick 2 0 (Cert.all [])]), Cert.pick 1 0 (Cert.all [Cert.pick 2 1 (Cert.all []), Cert.pick 2 0 (Cert.all [])]), Cert.pick 2 1 (Cert.all [Cert.pick 1 2 (Cert.all []), Cert.pick 1 0 (Cert.all [])]), Cert.pick 2 0 (Cert.all [])]), Cert.pick 1 2 (Cert.all [Cert.pick 1 0 (Cert.all []), Cert.pick 0 1 (Cert.all [Cert.pick 2 1 (Cert.all []), Cert.pick 2 0 (Cert.all [])]), Cert.pick 1 0 (Cert.all []), Cert.pick 1 0 (Cert.all [])]), Cert.pick 0 1 (Cert.all [Cert.pick 1 2 (Cert.all [Cert.pick 2 1 (Cert.all []), Cert.pick 2 0 (Cert.all [])]), Cert.pick 0 2 (Cert.all []), Cert.pick 0 2 (Cert.all []), Cert.pick 0 2 (Cert.all [])]), Cert.pick 0 2 (Cert.all [Cert.pick 1 0 (Cert.all [Cert.pick 2 1 (Cert.all []), Cert.pick 2 0 (Cert.all [])]), Cert.pick 0 1 (Cert.all []), Cert.pick 0 1 (Cert.all []), Cert.pick 0 1 (Cert.all [])]), Cert.pick 2 1 (Cert.all [Cert.pick 0 2 (Cert.all [Cert.pick 1 2 (Cert.all []), Cert.pick 1 0 (Cert.all [])]), Cert.pick 0 1 (Cert.all []), Cert.pick 0 1 (Cert.all []), Cert.pick 0 1 (Cert.all [])]), Cert.pick 2 0 (Cert.all [Cert.pick 0 2 (Cert.all []), Cert.pick 1 0 (Cert.all []), Cert.pick 0 1 (Cert.all [Cert.pick 1 2 (Cert.all []), Cert.pick 0 2 (Cert.all [])]), Cert.pick 0 2 (Cert.all [])])])]

/-- Upper-bound certificate (score at most 0) for the position with the agent's mark at (1,1), human to move. -/
def certU11 : Cert :=
  Cert.pick 0 0 (Cert.all [Cert.pick 2 1 (Cert.all [Cert.pick 2 0 (Cert.all [Cert.pick 1 2 (Cert.all [Cert.all []]), Cert.pick 1 0 (Cert.all []), Cert.pick 1 0 (Cert.all [])]), Cert.pick 1 2 (Cert.all [Cert.pick 2 0 (Cert.all [Cert.all []]), Cert.pick 0 2 (Cert.all [Cert.all []]), Cert.pick 0 2 (Cert.all [Cert.all []])]), Cert.pick 1 0 (Cert.all [Cert.pick 2 0 (Cert.all []), Cert.pick 0 2 (Cert.all [Cert.all []]), Cert.pick 0 2 (Cert.all [Cert.all []])]), Cert.pick 0 2 (Cert.all [Cert.pick 1 2 (Cert.all [Cert.all []]), Cert.pick 1 0 (Cert.all [Cert.all []]), Cert.pick 1 0 (Cert.all [Cert.all []])]), Cert.pick 0 2 (Cert.all [Cert.pick 1 2 (Cert.all [Cert.all []]), Cert.pick 1 0 (Cert.all [Cert.all []]), Cert.pick 1 0 (Cert.all [Cert.all []])])]), Cert.pick 2 0 (Cert.all [Cert.pick 1 0 (Cert.all []), Cert.pick 1 2 (Cert.all [Cert.pick 2 1 (Cert.all [Cert.all []]), Cert.pick 0 1 (Cert.all [Cert.all []]), Cert.pick 0 1 (Cert.all [Cert.all []])]), Cert.pick 1 0 (Cert.all []), Cert.pick 0 1 (Cert.all [Cert.pick 1 2 (Cert.all [Cert.all []]), Cert.pick 1 0 (Cert.all []), Cert.pick 1 0 (Cert.all [])]), Cert.pick 1 0 (Cert.all [])]), Cert.pick 1 2 (Cert.all [Cert.pick 2 1 (Cert.all [Cert.pick 2 0 (Cert.all [Cert.all []]), Cert.pick 0 2 (Cert.all [Cert.all []]), Cert.pick 0 2 (Cert.all [Cert.all []])]), Cert.pick 2 0 (Cert.all [Cert.pick 2 1 (Cert.all [Cert.all []]), Cert.pick 0 1 (Cert.all [Cert.all []]), Cert.pick 0 1 (Cert.all [Cert.all []])]), Cert.pick 0 2 (Cert.all [Cert.pick 2 1 (Cert.all [Cert.all []]), Cert.pick 0 1 (Cert.all []), Cert.pick 0 1 (Cert.all [])]), Cert.pick 0 1 (Cert.all [Cert.pick 2 0 (Cert.all [Cert.all []]), Cert.pick 0 2 (Cert.all []), Cert.pick 0 2 (Cert.all [])]), Cert.pick 0 1 (Cert.all [Cert.pick 2 0 (Cert.all [Cert.all []]), Cert.pick 0 2 (Cert.all []), Cert.pick 0 2 (Cert.all [])])]), Cert.pick 1 0 (Cert.all [Cert.pick 2 0 (Cert.all []), Cert.pick 2 0 (Cert.all []), Cert.pick 0 2 (Cert.all [Cert.pick 2 1 (Cert.all [Cert.all []]), Cert.pick 0 1 (Cert.all []), Cert.pick 0 1 (Cert.all [])]), Cert.pick 0 1 (Cert.all [Cert.pick 2 0 (Cert.all []), Cert.pick 0 2 (Cert.all []), Cert.pick 0 2 (Cert.all [])]), Cert.pick 0 2 (Cert.all [Cert.pick 2 0 (Cert.all []), Cert.pick 0 1 (Cert.all []), Cert.pick 0 1 (Cert.all [])])]), Cert.pick 0 2 (Cert.all [Cert.pick 2 1 (Cert.all [Cert.pick 1 2 (Cert.all [Cert.all []]), Cert.pick 1 0 (Cert.all [Cert.all []]), Cert.pick 1 0 (Cert.all [Cert.all []])]), Cert.pick 0 1 (Cert.all []), Cert.pick 0 1 (Cert.all []), Cert.pick 0 1 (Cert.all []), Cert.pick 0 1 (Cert.all [])]), Cert.pick 0 1 (Cert.all [Cert.pick 2 0 (Cert.all [Cert.pick 1 2 (Cert.all [Cert.all []]), Cert.pick 1 0 (Cert.all []), Cert.pick 1 0 (Cert.all [])]), Cert.pick 0 2 (Cert.all []), Cert.pick 0 2 (Cert.all []), Cert.pick 0 2 (Cert.all []), Cert.pick 0 2 (Cert.all [])]), Cert.pick 0 2 (Cert.all [Cert.pick 2 1 (Cert.all [Cert.pick 1 2 (Cert.all [Cert.all []]), Cert.pick 1 0 (Cert.all [Cert.all []]), Cert.pick 1 0 (Cert.all [Cert.all []])]), Cert.pick 0 1 (Cert.all []), Cert.pick 0 1 (Cert.all []), Cert.pick 0 1 (Cert.all []), Cert.pick 0 1 (Cert.all [])])])

/-- Lower-bound certificate (score at least 0) for the position with the agent's mark at (1,2), human to move. -/
def certL12 : Cert :=
  Cert.all [Cert.pick 0 2 (Cert.all [Cert.pick 1 0 (Cert.all [Cert.pick 2 2 (Cert.all []), Cert.pick 1 1 (Cert.all []), Cert.pick 1 1 (Cert.all []), Cert.pick 1 1 (Cert.all [])]), Cert.pick 2 0 (Cert.all [Cert.pick 1 1 (Cert.all []), Cert.pick 2 2 (Cert.all []), Cert.pick 0 1 (Cert.all [Cert.pick 2 2 (Cert.all []), Cert.pick 1 1 (Cert.all [])]), Cert.pick 1 1 (Cert.all [])]), Cert.pick 2 2 (Cert.all []), Cert.pick 1 0 (Cert.all [Cert.pick 1 1 (Cert.all []), Cert.pick 2 2 (Cert.all []), Cert.pick 1 1 (Cert.all []), Cert.pick 1 1 (Cert.all [])]), Cert.pick 1 0 (Cert.all [Cert.pick 1 1 (Cert.all []), Cert.pick 2 2 (Cert.all []), Cert.pick 1 1 (Cert.all []), Cert.pick 1 1 (Cert.all [])]), Cert.pick 1 1 (Cert.all [Cert.pick 1 0 (Cert.all []), Cert.pick 2 0 (Cert.all []), Cert.pick 1 0 (Cert.all []), Cert.pick 1 0 (Cert.all [])])]), Cert.pick 0 0 (Cert.all [Cert.pick 1 0 (Cert.all [Cert.pick 2 0 (Cert.all []), Cert.pick 1 1 (Cert.all []), Cert.pick 1 1 (Cert.all []), Cert.pick 1 1 (Cert.all [])]), Cert.pick 0 2 (Cert.all [Cert.pick 2 1 (Cert.all [Cert.pick 2 2 (Cert.all []), Cert.pick 2 0 (Cert.all [])]), Cert.pick 1 1 (Cert.all [Cert.pick 2 2 (Cert.all []), Cert.pick 2 1 (Cert.all [])]), Cert.pick 1 1 (Cert.all [Cert.pick 2 2 (Cert.all []), Cert.pick 2 0 (Cert.all [])]), Cert.pick 1 1 (Cert.all [Cert.pick 2 1 (Cert.all []), Cert.pick 2 0 (Cert.all [])])]), Cert.pick 2 1 (Cert.all [Cert.pick 2 0 (Cert.all [Cert.pick 2 2 (Cert.all []), Cert.pick 1 0 (Cert.all [])]), Cert.pick 0 2 (Cert.all [Cert.pick 2 2 (Cert.all []), Cert.pick 2 0 (Cert.all [])]), Cert.pick 0 2 (Cert.all [Cert.pick 2 2 (Cert.all []), Cert.pick 1 0 (Cert.all [])]), Cert.pick 0 2 (Cert.all [Cert.pick 2 0 (Cert.all []), Cert.pick 1 0 (Cert.all [])])]), Cert.pick 0 2 (Cert.all [Cert.pick 1 1 (Cert.all [Cert.pick 2 2 (Cert.all []), Cert.pick 2 1 (Cert.all [])]), Cert.pick 2 1 (Cert.all [Cert.pick 2 2 (Cert.all []), Cert.pick 1 0 (Cert.all [])]), Cert.pick 2 2 (Cert.all []), Cert.pick 2 1 (Cert.all [Cert.pick 1 1 (Cert.all []), Cert.pick 1 0 (Cert.all [])])]), Cert.pick 1 1 (Cert.all [Cert.pick 1 0 (Cert.all []), Cert.pick 0 2 (Cert.all [Cert.pick 2 2 (Cert.all []), Cert.pick 2 0 (Cert.all [])]), Cert.pick 1 0 (Cert.all []), Cert.pick 1 0 (Cert.all [])]), Cert.pick 1 0 (Cert.all [Cert.pick 1 1 (Cert.all []), Cert.pick 2 0 (Cert.all []), Cert.pick 1 1 (Cert.all []), Cert.pick 1 1 (Cert.all [])])]), Cert.pick 0 0 (Cert.all [Cert.pick 1 0 (Cert.all [Cert.pick 2 0 (Cert.all []), Cert.pick 1 1 (Cert.all []), Cert.pick 1 1 (Cert.all []), Cert.pick 1 1 (Cert.all [])]), Cert.pick 0 1 (Cert.all [Cert.pick 2 0 (Cert.all [Cert.pick 2 2 (Cert.all []), Cert.pick 2 1 (Cert.all [])]), Cert.pick 1 1 (Cert.all [Cert.pick 2 2 (Cert.all []), Cert.pick 2 1 (Cert.all [])]), Cert.pick 1 1 (Cert.all [Cert.pick 2 2 (Cert.all []), Cert.pick 2 0 (Cert.all [])]), Cert.pick 1 1 (Cert.all [Cert.pick 2 1 (Cert.all []), Cert.pick 2 0 (Cert.all [])])]), Cert.pick 2 0 (Cert.all [Cert.pick 1 0 (Cert.all []), Cert.pick 0 1 (Cert.all [Cert.pick 2 2 (Cert.all []), Cert.pick 2 1 (Cert.all [])]), Cert.pick 0 1 (Cert.all [Cert.pick 2 2 (Cert.all []), Cert.pick 1 0 (Cert.all [])]), Cert.pick 0 1 (Cert.all [Cert.pick 2 1 (Cert.all []), Cert.pick 1 0 (Cert.all [])])]), Cert.pick 1 1 (Cert.all [Cert.pick 1 0 (Cert.all []), Cert.pick 0 1 (Cert.all [Cert.pick 2 2 (Cert.all []), Cert.pick 2 1 (Cert.all [])]), Cert.pick 1 0 (Cert.all []), Cert.pick 1 0 (Cert.all [])]), Cert.pick 1 0 (Cert.all [Cert.pick 1 1 (Cert.all []), Cert.pick 2 0 (Cert.all []), Cert.pick 1 1 (Cert.all []), Cert.pick 1 1 (Cert.all [])]), Cert.pick 1 0 (Cert.all [Cert.pick 1 1 (Cert.all []), Cert.pick 2 0 (Cert.all []), Cert.pick 1 1 (Cert.all []), Cert.pick 1 1 (Cert.all [])])]), Cert.pick 0 0 (Cert.all [Cert.pick 0 2 (Cert.all [Cert.pick 2 1 (Cert.all [Cert.pick 2 2 (Cert.all []), Cert.pick 2 0 (Cert.all [])]), Cert.pick 1 1 (Cert.all [Cert.pick 2 2 (Cert.all []), Cert.pick 2 1 (Cert.all [])]), Cert.pick 1 1 (Cert.all [Cert.pick 2 2 (Cert.all []), Cert.pick 2 0 (Cert.all [])]), Cert.pick 1 1 (Cert.all [Cert.pick 2 1 (Cert.all []), Cert.pick 2 0 (Cert.all [])])]), Cert.pick 0 1 (Cert.all [Cert.pick 2 0 (Cert.all [Cert.pick 2 2 (Cert.all []), Cert.pick 2 1 (Cert.all [])]), Cert.pick 1 1 (Cert.all [Cert.pick 2 2 (Cert.all []), Cert.pick 2 1 (Cert.all [])]), Cert.pick 1 1 (Cert.all [Cert.pick 2 2 (Cert.all []), Cert.pick 2 0 (Cert.all [])]), Cert.pick 1 1 (Cert.all [Cert.pick 2 1 (Cert.all []), Cert.pick 2 0 (Cert.all [])])]), Cert.pick 0 1 (Cert.all [Cert.pick 2 0 (Cert.all [Cert.pick 2 2 (Cert.all []), Cert.pick 2 1 (Cert.all [])]), Cert.pick 0 2 (Cert.all []), Cert.pick 0 2 (Cert.all []), Cert.pick 0 2 (Cert.all [])]), Cert.pick 0 1 (Cert.all [Cert.pick 1 1 (Cert.all [Cert.pick 2 2 (Cert.all []), Cert.pick 2 1 (Cert.all [])]), Cert.pick 0 2 (Cert.all []), Cert.pick 0 2 (Cert.all []), Cert.pick 0 2 (Cert.all [])]), Cert.pick 0 1 (Cert.all [Cert.pick 1 1 (Cert.all [Cert.pick 2 2 (Cert.all []), Cert.pick 2 0 (Cert.all [])]), Cert.pick 0 2 (Cert.all []), Cert.pick 0 2 (Cert.all []), Cert.pick 0 2 (Cert.all [])]), Cert.pick 0 1 (Cert.all [Cert.pick 1 1 (Cert.all [Cert.pick 2 1 (Cert.all []), Cert.pick 2 0 (Cert.all [])]), Cert.pick 0 2 (Cert.all []), Cert.pick 0 2 (Cert.all []), Cert.pick 0 2 (Cert.all [])])]), Cert.pick 0 0 (Cert.all [Cert.pick 2 1 (Cert.all [Cert.pick 2 0 (Cert.all [Cert.pick 2 2 (Cert.all []), Cert.pick 1 0 (Cert.all [])]), Cert.pick 0 2 (Cert.all [Cert.pick 2 2 (Cert.all []), Cert.pick 2 0 (Cert.all [])]), Cert.pick 0 2 (Cert.all [Cert.pick 2 2 (Cert.all []), Cert.pick 1 0 (Cert.all [])]), Cert.pick 0 2 (Cert.all [Cert.pick 2 0 (Cert.all []), Cert.pick 1 0 (Cert.all [])])]), Cert.pick 2 0 (Cert.all [Cert.pick 1 0 (Cert.all []), Cert.pick 0 1 (Cert.all [Cert.pick 2 2 (Cert.all []), Cert.pick 2 1 (Cert.all [])]), Cert.pick 0 1 (Cert.all [Cert.pick 2 2 (Cert.all []), Cert.pick 1 0 (Cert.all [])]), Cert.pick 0 1 (Cert.all [Cert.pick 2 1 (Cert.all []), Cert.pick 1 0 (Cert.all [])])]), Cert.pick 0 1 (Cert.all [Cert.pick 2 0 (Cert.all [Cert.pick 2 2 (Cert.all []), Cert.pick 2 1 (Cert.all [])]), Cert.pick 0 2 (Cert.all []), Cert.pick 0 2 (Cert.all []), Cert.pick 0 2 (Cert.all [])]), Cert.pick 0 2 (Cert.all [Cert.pick 2 1 (Cert.all [Cert.pick 2 2 (Cert.all []), Cert.pick 1 0 (Cert.all [])]), Cert.pick 0 1 (Cert.all []), Cert.pick 0 1 (Cert.all []), Cert.pick 0 1 (Cert.all [])]), Cert.pick 0 1 (Cert.all [Cert.pick 2 0 (Cert.all [Cert.pick 2 2 (Cert.all []), Cert.pick 1 0 (Cert.all [])]), Cert.pick 0 2 (Cert.all []), Cert.pick 0 2 (Cert.all []), Cert.pick 0 2 (Cert.all [])]), Cert.pick 0 1 (Cert.all [Cert.pick 2 0 (Cert.all [Cert.pick 2 1 (Cert.all []), Cert.pick 1 0 (Cert.all [])]), Cert.pick 0 2 (Cert.all []), Cert.pick 0 2 (Cert.all []), Cert.pick 0 2 (Cert.all [])])]), Cert.pick 0 0 (Cert.all [Cert.pick 0 2 (Cert.all [Cert.pick 1 1 (Cert.all [Cert.pick 2 2 (Cert.all []), Cert.pick 2 1 (Cert.all [])]), Cert.pick 2 1 (Cert.all [Cert.pick 2 2 (Cert.all []), Cert.pick 1 0 (Cert.all [])]), Cert.pick 2 2 (Cert.all []), Cert.pick 2 1 (Cert.all [Cert.pick 1 1 (Cert.all []), Cert.pick 1 0 (Cert.all [])])]), Cert.pick 1 1 (Cert.all [Cert.pick 1 0 (Cert.all []), Cert.pick 0 1 (Cert.all [Cert.pick 2 2 (Cert.all []), Cert.pick 2 1 (Cert.all [])]), Cert.pick 1 0 (Cert.all []), Cert.pick 1 0 (Cert.all [])]), Cert.pick 0 1 (Cert.all [Cert.pick 1 1 (Cert.all [Cert.pick 2 2 (Cert.all []), Cert.pick 2 1 (Cert.all [])]), Cert.pick 0 2 (Cert.all []), Cert.pick 0 2 (Cert.all []), Cert.pick 0 2 (Cert.all [])]), Cert.pick 0 2 (Cert.all [Cert.pick 2 1 (Cert.all [Cert.pick 2 2 (Cert.all []), Cert.pick 1 0 (Cert.all [])]), Cert.pick 0 1 (Cert.all []), Cert.pick 0 1 (Cert.all []), Cert.pick 0 1 (Cert.all [])]), Cert.pick 2 2 (Cert.all [Cert.pick 0 2 (Cert.all []), Cert.pick 1 1 (Cert.all []), Cert.pick 0 1 (Cert.all [Cert.pick 1 1 (Cert.all []), Cert.pick 0 2 (Cert.all [])]), Cert.pick 0 2 (Cert.all [])]), Cert.pick 2 1 (Cert.all [Cert.pick 0 2 (Cert.all [Cert.pick 1 1 (Cert.all []), Cert.pick 1 0 (Cert.all [])]), Cert.pick 1 1 (Cert.all [Cert.pick 1 0 (Cert.all []), Cert.pick 0 1 (Cert.all [])]), Cert.pick 0 1 (Cert.all [Cert.pick 1 1 (Cert.all []), Cert.pick 0 2 (Cert.all [])]), Cert.pick 0 2 (Cert.all [Cert.pick 1 0 (Cert.all []), Cert.pick 0 1 (Cert.all [])])])]), Cert.pick 0 0 (Cert.all [Cert.pick 1 1 (Cert.all [Cert.pick 1 0 (Cert.all []), Cert.pick 0 2 (Cert.all [Cert.pick 2 2 (Cert.all []), Cert.pick 2 0 (Cert.all [])]), Cert.pick 1 0 (Cert.all []), Cert.pick 1 0 (Cert.all [])]), Cert.pick 1 0 (Cert.all [Cert.pick 1 1 (Cert.all []), Cert.pick 2 0 (Cert.all []), Cert.pick 1 1 (Cert.all []), Cert.pick 1 1 (Cert.all [])]), Cert.pick 0 1 (Cert.all [Cert.pick 1 1 (Cert.all [Cert.pick 2 2 (Cert.all []), Cert.pick 2 0 (Cert.all [])]), Cert.pick 0 2 (Cert.all []), Cert.pick 0 2 (Cert.all []), Cert.pick 0 2 (Cert.all [])]), Cert.pick 0 1 (Cert.all [Cert.pick 2 0 (Cert.all [Cert.pick 2 2 (Cert.all []), Cert.pick 1 0 (Cert.all [])]), Cert.pick 0 2 (Cert.all []), Cert.pick 0 2 (Cert.all []), Cert.pick 0 2 (Cert.all [])]), Cert.pick 2 2 (Cert.all [Cert.pick 0 2 (Cert.all []), Cert.pick 1 1 (Cert.all []), Cert.pick 0 1 (Cert.all [Cert.pick 1 1 (Cert.all []), Cert.pick 0 2 (Cert.all [])]), Cert.pick 0 2 (Cert.all [])]), Cert.pick 2 0 (Cert.all [Cert.pick 1 0 (Cert.all []), Cert.pick 0 1 (Cert.all [Cert.pick 1 1 (Cert.all []), Cert.pick 1 0 (Cert.all [])]), Cert.pick 0 1 (Cert.all [Cert.pick 1 1 (Cert.all []), Cert.pick 0 2 (Cert.all [])]), Cert.pick 0 1 (Cert.all [Cert.pick 1 0 (Cert.all []), Cert.pick 0 2 (Cert.all [])])])]), Cert.pick 0 0 (Cert.all [Cert.pick 1 0 (Cert.all [Cert.pick 1 1 (Cert.all []), Cert.pick 2 0 (Cert.all []), Cert.pick 1 1 (Cert.all []), Cert.pick 1 1 (Cert.all [])]), Cert.pick 1 0 (Cert.all [Cert.pick 1 1 (Cert.all []), Cert.pick 2 0 (Cert.all []), Cert.pick 1 1 (Cert.all []), Cert.pick 1 1 (Cert.all [])]), Cert.pick 0 1 (Cert.all [Cert.pick 1 1 (Cert.all [Cert.pick 2 1 (Cert.all []), Cert.pick 2 0 (Cert.all [])]), Cert.pick 0 2 (Cert.all []), Cert.pick 0 2 (Cert.all []), Cert.pick 0 2 (Cert.all [])]), Cert.pick 0 1 (Cert.all [Cert.pick 2 0 (Cert.all [Cert.pick 2 1 (Cert.all []), Cert.pick 1 0 (Cert.all [])]), Cert.pick 0 2 (Cert.all []), Cert.pick 0 2 (Cert.all []), Cert.pick 0 2 (Cert.all [])]), Cert.pick 2 1 (Cert.all [Cert.pick 0 2 (Cert.all [Cert.pick 1 1 (Cert.all []), Cert.pick 1 0 (Cert.all [])]), Cert.pick 1 1 (Cert.all [Cert.pick 1 0 (Cert.all []), Cert.pick 0 1 (Cert.all [])]), Cert.pick 0 1 (Cert.all [Cert.pick 1 1 (Cert.all []), Cert.pick 0 2 (Cert.all [])]), Cert.pick 0 2 (Cert.all [Cert.pick 1 0 (Cert.all []), Cert.pick 0 1 (Cert.all [])])]), Cert.pick 2 0 (Cert.all [Cert.pick 1 0 (Cert.all []), Cert.pick 0 1 (Cert.all [Cert.pick 1 1 (Cert.all []), Cert.pick 1 0 (Cert.all [])]), Cert.pick 0 1 (Cert.all [Cert.pick 1 1 (Cert.all []), Cert.pick 0 2 (Cert.all [])]), Cert.pick 0 1 (Cert.all [Cert.pick 1 0 (Cert.all []), Cert.pick 0 2 (Cert.all [])])])])]

/-- Upper-bound certificate (score at most 0) for the position with the agent's mark at (1,2), human to move. -/
def certU12 : Cert :=
  Cert.pick 0 2 (Cert.all [Cert.pick 1 0 (Cert.all [Cert.pick 1 1 (Cert.all [Cert.pick 2 1 (Cert.all [Cert.all []]), Cert.pick 2 0 (Cert.all []), Cert.pick 2 0 (Cert.all [])]), Cert.pick 2 2 (Cert.all [Cert.pick 2 1 (Cert.all [Cert.all []]), Cert.pick 0 1 (Cert.all [Cert.all []]), Cert.pick 0 1 (Cert.all [Cert.all []])]), Cert.pick 1 1 (Cert.all [Cert.pick 2 1 (Cert.all [Cert.all []]), Cert.pick 2 2 (Cert.all [Cert.all []]), Cert.pick 2 1 (Cert.all [Cert.all []])]), Cert.pick 1 1 (Cert.all [Cert.pick 2 0 (Cert.all []), Cert.pick 2 2 (Cert.all [Cert.all []]), Cert.pick 2 0 (Cert.all [])]), Cert.pick 1 1 (Cert.all [Cert.pick 2 0 (Cert.all []), Cert.pick 2 1 (Cert.all [Cert.all []]), Cert.pick 2 0 (Cert.all [])])]), Cert.pick 1 0 (Cert.all [Cert.pick 1 1 (Cert.all [Cert.pick 2 1 (Cert.all [Cert.all []]), Cert.pick 2 0 (Cert.all []), Cert.pick 2 0 (Cert.all [])]), Cert.pick 2 1 (Cert.all [Cert.pick 2 2 (Cert.all [Cert.all []]), Cert.pick 0 0 (Cert.all [Cert.all []]), Cert.pick 0 0 (Cert.all [Cert.all []])]), Cert.pick 1 1 (Cert.all [Cert.pick 2 1 (Cert.all [Cert.all []]), Cert.pick 2 2 (Cert.all [Cert.all []]), Cert.pick 2 1 (Cert.all [Cert.all []])]), Cert.pick 1 1 (Cert.all [Cert.pick 2 0 (Cert.all []), Cert.pick 2 2 (Cert.all [Cert.all []]), Cert.pick 2 0 (Cert.all [])]), Cert.pick 0 0 (Cert.all [Cert.pick 2 0 (Cert.all []), Cert.pick 2 1 (Cert.all [Cert.all []]), Cert.pick 2 0 (Cert.all [])])]), Cert.pick 1 1 (Cert.all [Cert.pick 2 0 (Cert.all []), Cert.pick 0 0 (Cert.all [Cert.pick 2 1 (Cert.all [Cert.all []]), Cert.pick 2 0 (Cert.all []), Cert.pick 2 0 (Cert.all [])]), Cert.pick 0 0 (Cert.all [Cert.pick 2 1 (Cert.all [Cert.all []]), Cert.pick 0 1 (Cert.all []), Cert.pick 0 1 (Cert.all [])]), Cert.pick 0 0 (Cert.all [Cert.pick 2 0 (Cert.all []), Cert.pick 0 1 (Cert.all []), Cert.pick 0 1 (Cert.all [])]), Cert.pick 0 0 (Cert.all [Cert.pick 2 0 (Cert.all []), Cert.pick 0 1 (Cert.all []), Cert.pick 0 1 (Cert.all [])])]), Cert.pick 1 0 (Cert.all [Cert.pick 2 2 (Cert.all [Cert.pick 2 1 (Cert.all [Cert.all []]), Cert.pick 0 1 (Cert.all [Cert.all []]), Cert.pick 0 1 (Cert.all [Cert.all []])]), Cert.pick 2 1 (Cert.all [Cert.pick 2 2 (Cert.all [Cert.all []]), Cert.pick 0 0 (Cert.all [Cert.all []]), Cert.pick 0 0 (Cert.all [Cert.all []])]), Cert.pick 0 0 (Cert.all [Cert.pick 2 1 (Cert.all [Cert.all []]), Cert.pick 0 1 (Cert.all []), Cert.pick 0 1 (Cert.all [])]), Cert.pick 0 1 (Cert.all [Cert.pick 2 2 (Cert.all [Cert.all []]), Cert.pick 0 0 (Cert.all []), Cert.pick 0 0 (Cert.all [])]), Cert.pick 0 0 (Cert.all [Cert.pick 2 0 (Cert.all []), Cert.pick 0 1 (Cert.all []), Cert.pick 0 1 (Cert.all [])])]), Cert.pick 0 0 (Cert.all [Cert.pick 1 1 (Cert.all [Cert.pick 2 1 (Cert.all [Cert.all []]), Cert.pick 2 2 (Cert.all []), Cert.pick 2 1 (Cert.all [Cert.all []])]), Cert.pick 0 1 (Cert.all []), Cert.pick 0 1 (Cert.all []), Cert.pick 0 1 (Cert.all []), Cert.pick 0 1 (Cert.all [])]), Cert.pick 0 0 (Cert.all [Cert.pick 1 1 (Cert.all [Cert.pick 2 0 (Cert.all []), Cert.pick 2 2 (Cert.all []), Cert.pick 2 0 (Cert.all [])]), Cert.pick 0 1 (Cert.all []), Cert.pick 0 1 (Cert.all []), Cert.pick 0 1 (Cert.all []), Cert.pick 0 1 (Cert.all [])]), Cert.pick 0 0 (Cert.all [Cert.pick 1 0 (Cert.all [Cert.pick 2 0 (Cert.all []), Cert.pick 2 1 (Cert.all [Cert.all []]), Cert.pick 2 0 (Cert.all [])]), Cert.pick 0 1 (Cert.all []), Cert.pick 0 1 (Cert.all []), Cert.pick 0 1 (Cert.all []), Cert.pick 0 1 (Cert.all [])])])

/-- Lower-bound certificate (score at least 0) for the position with the agent's mark at (2,0), human to move. -/
def certL20 : Cert :=
  Cert.all [Cert.pick 0 1 (Cert.all [Cert.pick 1 1 (Cert.all [Cert.pick 1 2 (Cert.all [Cert.pick 2 2 (Cert.all []), Cert.pick 2 1 (Cert.all [])]), Cert.pick 2 1 (Cert.all []), Cert.pick 1 0 (Cert.all [Cert.pick 2 2 (Cert.all []), Cert.pick 1 2 (Cert.all [])]), Cert.pick 1 2 (Cert.all [Cert.pick 2 1 (Cert.all []), Cert.pick 1 0 (Cert.all [])])]), Cert.pick 1 1 (Cert.all [Cert.pick 1 2 (Cert.all [Cert.pick 2 2 (Cert.all []), Cert.pick 2 1 (Cert.all [])]), Cert.pick 0 2 (Cert.all []), Cert.pick 0 2 (Cert.all []), Cert.pick 0 2 (Cert.all [])]), Cert.pick 2 2 (Cert.all [Cert.pick 1 0 (Cert.all [Cert.pick 2 1 (Cert.all []), Cert.pick 1 2 (Cert.all [])]), Cert.pick 1 2 (Cert.all [Cert.pick 2 1 (Cert.all []), Cert.pick 0 2 (Cert.all [])]), Cert.pick 1 0 (Cert.all [Cert.pick 2 1 (Cert.all []), Cert.pick 0 2 (Cert.all [])]), Cert.pick 0 2 (Cert.all [Cert.pick 1 2 (Cert.all []), Cert.pick 1 0 (Cert.all [])])]), Cert.pick 1 1 (Cert.all [Cert.pick 2 1 (Cert.all []), Cert.pick 0 2 (Cert.all []), Cert.pick 0 2 (Cert.all []), Cert.pick 0 2 (Cert.all [])]), Cert.pick 0 2 (Cert.all [Cert.pick 1 1 (Cert.all []), Cert.pick 2 2 (Cert.all [Cert.pick 1 2 (Cert.all []), Cert.pick 1 0 (Cert.all [])]), Cert.pick 1 0 (Cert.all [Cert.pick 2 2 (Cert.all []), Cert.pick 1 1 (Cert.all [])]), Cert.pick 1 1 (Cert.all [])]), Cert.pick 1 1 (Cert.all [Cert.pick 1 2 (Cert.all [Cert.pick 2 1 (Cert.all []), Cert.pick 1 0 (Cert.all [])]), Cert.pick 0 2 (Cert.all []), Cert.pick 0 2 (Cert.all []), Cert.pick 0 2 (Cert.all [])])]), Cert.pick 0 0 (Cert.all [Cert.pick 1 0 (Cert.all []), Cert.pick 1 1 (Cert.all [Cert.pick 1 2 (Cert.all [Cert.pick 2 2 (Cert.all []), Cert.pick 2 1 (Cert.all [])]), Cert.pick 0 2 (Cert.all []), Cert.pick 0 2 (Cert.all []), Cert.pick 0 2 (Cert.all [])]), Cert.pick 1 0 (Cert.all []), Cert.pick 0 2 (Cert.all [Cert.pick 1 1 (Cert.all []), Cert.pick 1 0 (Cert.all []), Cert.pick 1 0 (Cert.all []), Cert.pick 1 0 (Cert.all [])]), Cert.pick 1 0 (Cert.all []), Cert.pick 0 2 (Cert.all [Cert.pick 1 1 (Cert.all []), Cert.pick 1 0 (Cert.all []), Cert.pick 1 0 (Cert.all []), Cert.pick 1 0 (Cert.all [])])]), Cert.pick 0 0 (Cert.all [Cert.pick 1 0 (Cert.all []), Cert.pick 1 1 (Cert.all [Cert.pick 1 2 (Cert.all [Cert.pick 2 2 (Cert.all []), Cert.pick 2 1 (Cert.all [])]), Cert.pick 2 2 (Cert.all []), Cert.pick 0 1 (Cert.all [Cert.pick 2 2 (Cert.all []), Cert.pick 1 2 (Cert.all [])]), Cert.pick 1 2 (Cert.all [Cert.pick 2 1 (Cert.all []), Cert.pick 0 1 (Cert.all [])])]), Cert.pick 0 1 (Cert.all [Cert.pick 1 2 (Cert.all [Cert.pick 2 2 (Cert.all []), Cert.pick 2 1 (Cert.all [])]), Cert.pick 1 0 (Cert.all []), Cert.pick 1 0 (Cert.all []), Cert.pick 1 0 (Cert.all [])]), Cert.pick 1 0 (Cert.all []), Cert.pick 0 1 (Cert.all [Cert.pick 1 1 (Cert.all [Cert.pick 2 2 (Cert.all []), Cert.pick 1 2 (Cert.all [])]), Cert.pick 1 0 (Cert.all []), Cert.pick 1 0 (Cert.all []), Cert.pick 1 0 (Cert.all [])]), Cert.pick 1 0 (Cert.all [])]), Cert.pick 0 0 (Cert.all [Cert.pick 1 1 (Cert.all [Cert.pick 1 2 (Cert.all [Cert.pick 2 2 (Cert.all []), Cert.pick 2 1 (Cert.all [])]), Cert.pick 0 2 (Cert.all []), Cert.pick 0 2 (Cert.all []), Cert.pick 0 2 (Cert.all [])]), Cert.pick 1 1 (Cert.all [Cert.pick 1 2 (Cert.all [Cert.pick 2 2 (Cert.all []), Cert.pick 2 1 (Cert.all [])]), Cert.pick 2 2 (Cert.all []), Cert.pick 0 1 (Cert.all [Cert.pick 2 2 (Cert.all []), Cert.pick 1 2 (Cert.all [])]), Cert.pick 1 2 (Cert.all [Cert.pick 2 1 (Cert.all []), Cert.pick 0 1 (Cert.all [])])]), Cert.pick 1 2 (Cert.all [Cert.pick 2 1 (Cert.all [Cert.pick 2 2 (Cert.all []), Cert.pick 0 2 (Cert.all [])]), Cert.pick 0 1 (Cert.all [Cert.pick 2 2 (Cert.all []), Cert.pick 2 1 (Cert.all [])]), Cert.pick 0 1 (Cert.all [Cert.pick 2 2 (Cert.all []), Cert.pick 0 2 (Cert.all [])]), Cert.pick 0 1 (Cert.all [Cert.pick 2 1 (Cert.all []), Cert.pick 0 2 (Cert.all [])])]), Cert.pick 1 1 (Cert.all [Cert.pick 0 2 (Cert.all []), Cert.pick 2 2 (Cert.all []), Cert.pick 0 1 (Cert.all [Cert.pick 2 2 (Cert.all []), Cert.pick 0 2 (Cert.all [])]), Cert.pick 0 2 (Cert.all [])]), Cert.pick 0 1 (Cert.all [Cert.pick 1 1 (Cert.all [Cert.pick 2 2 (Cert.all []), Cert.pick 1 2 (Cert.all [])]), Cert.pick 0 2 (Cert.all []), Cert.pick 0 2 (Cert.all []), Cert.pick 0 2 (Cert.all [])]), Cert.pick 0 1 (Cert.all [Cert.pick 1 2 (Cert.all [Cert.pick 2 1 (Cert.all []), Cert.pick 1 1 (Cert.all [])]), Cert.pick 0 2 (Cert.all []), Cert.pick 0 2 (Cert.all []), Cert.pick 0 2 (Cert.all [])])]), Cert.pick 0 0 (Cert.all [Cert.pick 1 0 (Cert.all []), Cert.pick 0 1 (Cert.all [Cert.pick 1 2 (Cert.all [Cert.pick 2 2 (Cert.all []), Cert.pick 2 1 (Cert.all [])]), Cert.pick 1 0 (Cert.all []), Cert.pick 1 0 (Cert.all []), Cert.pick 1 0 (Cert.all [])]), Cert.pick 1 2 (Cert.all [Cert.pick 2 1 (Cert.all [Cert.pick 2 2 (Cert.all []), Cert.pick 0 2 (Cert.all [])]), Cert.pick 0 1 (Cert.all [Cert.pick 2 2 (Cert.all []), Cert.pick 2 1 (Cert.all [])]), Cert.pick 0 1 (Cert.all [Cert.pick 2 2 (Cert.all []), Cert.pick 0 2 (Cert.all [])]), Cert.pick 0 1 (Cert.all [Cert.pick 2 1 (Cert.all []), Cert.pick 0 2 (Cert.all [])])]), Cert.pick 1 0 (Cert.all []), Cert.pick 0 1 (Cert.all [Cert.pick 1 0 (Cert.all []), Cert.pick 0 2 (Cert.all []), Cert.pick 0 2 (Cert.all []), Cert.pick 0 2 (Cert.all [])]), Cert.pick 0 1 (Cert.all [Cert.pick 1 0 (Cert.all []), Cert.pick 0 2 (Cert.all []), Cert.pick 0 2 (Cert.all []), Cert.pick 0 2 (Cert.all [])])]), Cert.pick 0 0 (Cert.all [Cert.pick 0 2 (Cert.all [Cert.pick 1 1 (Cert.all []), Cert.pick 1 0 (Cert.all []), Cert.pick 1 0 (Cert.all []), Cert.pick 1 0 (Cert.all [])]), Cert.pick 1 0 (Cert.all []), Cert.pick 1 1 (Cert.all [Cert.pick 0 2 (Cert.all []), Cert.pick 2 2 (Cert.all []), Cert.pick 0 1 (Cert.all [Cert.pick 2 2 (Cert.all []), Cert.pick 0 2 (Cert.all [])]), Cert.pick 0 2 (Cert.all [])]), Cert.pick 1 0 (Cert.all []), Cert.pick 0 1 (Cert.all [Cert.pick 1 0 (Cert.all []), Cert.pick 0 2 (Cert.all []), Cert.pick 0 2 (Cert.all []), Cert.pick 0 2 (Cert.all [])]), Cert.pick 0 2 (Cert.all [Cert.pick 1 0 (Cert.all []), Cert.pick 0 1 (Cert.all []), Cert.pick 0 1 (Cert.all []), Cert.pick 0 1 (Cert.all [])])]), Cert.pick 0 0 (Cert.all [Cert.pick 1 0 (Cert.all []), Cert.pick 0 1 (Cert.all [Cert.pick 1 1 (Cert.all [Cert.pick 2 2 (Cert.all []), Cert.pick 1 2 (Cert.all [])]), Cert.pick 1 0 (Cert.all []), Cert.pick 1 0 (Cert.all []), Cert.pick 1 0 (Cert.all [])]), Cert.pick 0 1 (Cert.all [Cert.pick 1 1 (Cert.all [Cert.pick 2 2 (Cert.all []), Cert.pick 1 2 (Cert.all [])]), Cert.pick 0 2 (Cert.all []), Cert.pick 0 2 (Cert.all []), Cert.pick 0 2 (Cert.all [])]), Cert.pick 0 1 (Cert.all [Cert.pick 1 0 (Cert.all []), Cert.pick 0 2 (Cert.all []), Cert.pick 0 2 (Cert.all []), Cert.pick 0 2 (Cert.all [])]), Cert.pick 0 1 (Cert.all [Cert.pick 1 0 (Cert.all []), Cert.pick 0 2 (Cert.all []), Cert.pick 0 2 (Cert.all []), Cert.pick 0 2 (Cert.all [])]), Cert.pick 0 1 (Cert.all [Cert.pick 1 0 (Cert.all []), Cert.pick 0 2 (Cert.all []), Cert.pick 0 2 (Cert.all []), Cert.pick 0 2 (Cert.all [])])]), Cert.pick 0 0 (Cert.all [Cert.pick 0 2 (Cert.all [Cert.pick 1 1 (Cert.all []), Cert.pick 1 0 (Cert.all []), Cert.pick 1 0 (Cert.all []), Cert.pick 1 0 (Cert.all [])]), Cert.pick 1 0 (Cert.all []), Cert.pick 0 1 (Cert.all [Cert.pick 1 2 (Cert.all [Cert.pick 2 1 (Cert.all []), Cert.pick 1 1 (Cert.all [])]), Cert.pick 0 2 (Cert.all []), Cert.pick 0 2 (Cert.all []), Cert.pick 0 2 (Cert.all [])]), Cert.pick 0 1 (Cert.all [Cert.pick 1 0 (Cert.all []), Cert.pick 0 2 (Cert.all []), Cert.pick 0 2 (Cert.all []), Cert.pick 0 2 (Cert.all [])]), Cert.pick 0 2 (Cert.all [Cert.pick 1 0 (Cert.all []), Cert.pick 0 1 (Cert.all []), Cert.pick 0 1 (Cert.all []), Cert.pick 0 1 (Cert.all [])]), Cert.pick 0 1 (Cert.all [Cert.pick 1 0 (Cert.all []), Cert.pick 0 2 (Cert.all []), Cert.pick 0 2 (Cert.all []), Cert.pick 0 2 (Cert.all [])])])]

/-- Upper-bound certificate (score at most 0) for the position with the agent's mark at (2,0), human to move. -/
def certU20 : Cert :=
  Cert.pick 1 1 (Cert.all [Cert.pick 1 0 (Cert.all [Cert.pick 0 2 (Cert.all [Cert.pick 2 1 (Cert.all [Cert.all []]), Cert.pick 1 2 (Cert.all []), Cert.pick 1 2 (Cert.all [])]), Cert.pick 0 1 (Cert.all [Cert.pick 2 1 (Cert.all []), Cert.pick 1 2 (Cert.all []), Cert.pick 1 2 (Cert.all [])]), Cert.pick 0 1 (Cert.all [Cert.pick 2 1 (Cert.all []), Cert.pick 2 2 (Cert.all [Cert.all []]), Cert.pick 2 1 (Cert.all [])]), Cert.pick 1 2 (Cert.all []), Cert.pick 1 2 (Cert.all [])]), Cert.pick 0 0 (Cert.all [Cert.pick 1 0 (Cert.all [Cert.pick 2 2 (Cert.all []), Cert.pick 1 2 (Cert.all []), Cert.pick 1 2 (Cert.all [])]), Cert.pick 0 2 (Cert.all [Cert.pick 2 1 (Cert.all [Cert.all []]), Cert.pick 2 2 (Cert.all []), Cert.pick 2 1 (Cert.all [Cert.all []])]), Cert.pick 0 2 (Cert.all [Cert.pick 2 1 (Cert.all [Cert.all []]), Cert.pick 2 2 (Cert.all []), Cert.pick 2 1 (Cert.all [Cert.all []])]), Cert.pick 2 2 (Cert.all []), Cert.pick 2 1 (Cert.all [Cert.pick 1 2 (Cert.all [Cert.all []]), Cert.pick 0 2 (Cert.all [Cert.all []]), Cert.pick 0 2 (Cert.all [Cert.all []])])]), Cert.pick 0 1 (Cert.all [Cert.pick 1 0 (Cert.all [Cert.pick 2 1 (Cert.all []), Cert.pick 1 2 (Cert.all []), Cert.pick 1 2 (Cert.all [])]), Cert.pick 0 0 (Cert.all [Cert.pick 2 1 (Cert.all []), Cert.pick 2 2 (Cert.all []), Cert.pick 2 1 (Cert.all [])]), Cert.pick 2 1 (Cert.all []), Cert.pick 2 2 (Cert.all [Cert.pick 1 0 (Cert.all [Cert.all []]), Cert.pick 0 0 (Cert.all []), Cert.pick 0 0 (Cert.all [])]), Cert.pick 2 1 (Cert.all [])]), Cert.pick 0 0 (Cert.all [Cert.pick 0 2 (Cert.all [Cert.pick 2 1 (Cert.all [Cert.all []]), Cert.pick 2 2 (Cert.all []), Cert.pick 2 1 (Cert.all [Cert.all []])]), Cert.pick 0 1 (Cert.all [Cert.pick 2 1 (Cert.all []), Cert.pick 2 2 (Cert.all []), Cert.pick 2 1 (Cert.all [])]), Cert.pick 0 1 (Cert.all [Cert.pick 2 1 (Cert.all []), Cert.pick 0 2 (Cert.all []), Cert.pick 0 2 (Cert.all [])]), Cert.pick 2 2 (Cert.all []), Cert.pick 2 1 (Cert.all [Cert.pick 0 2 (Cert.all [Cert.all []]), Cert.pick 0 1 (Cert.all []), Cert.pick 0 1 (Cert.all [])])]), Cert.pick 0 1 (Cert.all [Cert.pick 1 0 (Cert.all [Cert.pick 2 1 (Cert.all []), Cert.pick 2 2 (Cert.all [Cert.all []]), Cert.pick 2 1 (Cert.all [])]), Cert.pick 2 1 (Cert.all []), Cert.pick 0 0 (Cert.all [Cert.pick 2 1 (Cert.all []), Cert.pick 0 2 (Cert.all []), Cert.pick 0 2 (Cert.all [])]), Cert.pick 2 2 (Cert.all [Cert.pick 1 0 (Cert.all [Cert.all []]), Cert.pick 0 0 (Cert.all []), Cert.pick 0 0 (Cert.all [])]), Cert.pick 2 1 (Cert.all [])]), Cert.pick 2 2 (Cert.all [Cert.pick 1 0 (Cert.all [Cert.pick 0 2 (Cert.all [Cert.all []]), Cert.pick 0 1 (Cert.all [Cert.all []]), Cert.pick 0 1 (Cert.all [Cert.all []])]), Cert.pick 0 0 (Cert.all []), Cert.pick 0 0 (Cert.all []), Cert.pick 0 0 (Cert.all []), Cert.pick 0 0 (Cert.all [])]), Cert.pick 2 1 (Cert.all [Cert.pick 0 1 (Cert.all []), Cert.pick 0 0 (Cert.all [Cert.pick 1 2 (Cert.all [Cert.all []]), Cert.pick 0 2 (Cert.all [Cert.all []]), Cert.pick 0 2 (Cert.all [Cert.all []])]), Cert.pick 0 1 (Cert.all []), Cert.pick 0 0 (Cert.all [Cert.pick 0 2 (Cert.all [Cert.all []]), Cert.pick 0 1 (Cert.all []), Cert.pick 0 1 (Cert.all [])]), Cert.pick 0 1 (Cert.all [])])])

/-- Lower-bound certificate (score at least 0) for the position with the agent's mark at (2,1), human to move. -/
def certL21 : Cert :=
  Cert.all [Cert.pick 0 2 (Cert.all [Cert.pick 1 0 (Cert.all [Cert.pick 2 2 (Cert.all [Cert.pick 2 0 (Cert.all []), Cert.pick 1 2 (Cert.all [])]), Cert.pick 1 1 (Cert.all [Cert.pick 2 2 (Cert.all []), Cert.pick 2 0 (Cert.all [])]), Cert.pick 1 1 (Cert.all [Cert.pick 2 2 (Cert.all []), Cert.pick 1 2 (Cert.all [])]), Cert.pick 1 1 (Cert.all [Cert.pick 2 0 (Cert.all []), Cert.pick 1 2 (Cert.all [])])]), Cert.pick 2 0 (Cert.all [Cert.pick 1 1 (Cert.all []), Cert.pick 2 2 (Cert.all []), Cert.pick 1 1 (Cert.all []), Cert.pick 1 1 (Cert.all [])]), Cert.pick 2 2 (Cert.all [Cert.pick 1 0 (Cert.all [Cert.pick 2 0 (Cert.all []), Cert.pick 1 2 (Cert.all [])]), Cert.pick 1 2 (Cert.all []), Cert.pick 1 0 (Cert.all [Cert.pick 2 0 (Cert.all []), Cert.pick 0 1 (Cert.all [])]), Cert.pick 1 0 (Cert.all [Cert.pick 1 2 (Cert.all []), Cert.pick 0 1 (Cert.all [])])]), Cert.pick 1 0 (Cert.all [Cert.pick 1 1 (Cert.all [Cert.pick 2 2 (Cert.all []), Cert.pick 2 0 (Cert.all [])]), Cert.pick 2 2 (Cert.all [Cert.pick 2 0 (Cert.all []), Cert.pick 0 1 (Cert.all [])]), Cert.pick 0 1 (Cert.all [Cert.pick 2 2 (Cert.all []), Cert.pick 1 1 (Cert.all [])]), Cert.pick 1 1 (Cert.all [Cert.pick 2 0 (Cert.all []), Cert.pick 0 1 (Cert.all [])])]), Cert.pick 1 0 (Cert.all [Cert.pick 1 1 (Cert.all [Cert.pick 2 2 (Cert.all []), Cert.pick 1 2 (Cert.all [])]), Cert.pick 2 2 (Cert.all [Cert.pick 1 2 (Cert.all []), Cert.pick 0 1 (Cert.all [])]), Cert.pick 0 1 (Cert.all [Cert.pick 2 2 (Cert.all []), Cert.pick 1 1 (Cert.all [])]), Cert.pick 1 1 (Cert.all [Cert.pick 1 2 (Cert.all []), Cert.pick 0 1 (Cert.all [])])]), Cert.pick 1 1 (Cert.all [Cert.pick 1 0 (Cert.all [Cert.pick 2 0 (Cert.all []), Cert.pick 1 2 (Cert.all [])]), Cert.pick 0 1 (Cert.all []), Cert.pick 0 1 (Cert.all []), Cert.pick 0 1 (Cert.all [])])]), Cert.pick 0 0 (Cert.all [Cert.pick 1 0 (Cert.all [Cert.pick 2 0 (Cert.all []), Cert.pick 2 0 (Cert.all []), Cert.pick 1 1 (Cert.all [Cert.pick 2 2 (Cert.all []), Cert.pick 1 2 (Cert.all [])]), Cert.pick 1 2 (Cert.all [Cert.pick 2 0 (Cert.all []), Cert.pick 1 1 (Cert.all [])])]), Cert.pick 0 2 (Cert.all [Cert.pick 1 2 (Cert.all [Cert.pick 2 2 (Cert.all []), Cert.pick 2 0 (Cert.all [])]), Cert.pick 1 1 (Cert.all [Cert.pick 2 2 (Cert.all []), Cert.pick 2 0 (Cert.all [])]), Cert.pick 1 1 (Cert.all [Cert.pick 2 2 (Cert.all []), Cert.pick 1 2 (Cert.all [])]), Cert.pick 1 1 (Cert.all [Cert.pick 2 0 (Cert.all []), Cert.pick 1 2 (Cert.all [])])]), Cert.pick 0 2 (Cert.all [Cert.pick 1 2 (Cert.all [Cert.pick 2 2 (Cert.all []), Cert.pick 2 0 (Cert.all [])]), Cert.pick 1 0 (Cert.all [Cert.pick 2 2 (Cert.all []), Cert.pick 2 0 (Cert.all [])]), Cert.pick 1 0 (Cert.all [Cert.pick 2 2 (Cert.all []), Cert.pick 1 2 (Cert.all [])]), Cert.pick 1 0 (Cert.all [Cert.pick 2 0 (Cert.all []), Cert.pick 1 2 (Cert.all [])])]), Cert.pick 0 2 (Cert.all [Cert.pick 1 1 (Cert.all [Cert.pick 2 2 (Cert.all []), Cert.pick 2 0 (Cert.all [])]), Cert.pick 1 0 (Cert.all [Cert.pick 2 2 (Cert.all []), Cert.pick 2 0 (Cert.all [])]), Cert.pick 1 0 (Cert.all [Cert.pick 2 2 (Cert.all []), Cert.pick 1 1 (Cert.all [])]), Cert.pick 1 0 (Cert.all [Cert.pick 2 0 (Cert.all []), Cert.pick 1 1 (Cert.all [])])]), Cert.pick 0 2 (Cert.all [Cert.pick 1 1 (Cert.all [Cert.pick 2 2 (Cert.all []), Cert.pick 1 2 (Cert.all [])]), Cert.pick 1 0 (Cert.all [Cert.pick 2 2 (Cert.all []), Cert.pick 1 2 (Cert.all [])]), Cert.pick 1 0 (Cert.all [Cert.pick 2 2 (Cert.all []), Cert.pick 1 1 (Cert.all [])]), Cert.pick 1 0 (Cert.all [Cert.pick 1 2 (Cert.all []), Cert.pick 1 1 (Cert.all [])])]), Cert.pick 0 2 (Cert.all [Cert.pick 1 1 (Cert.all [Cert.pick 2 0 (Cert.all []), Cert.pick 1 2 (Cert.all [])]), Cert.pick 1 0 (Cert.all [Cert.pick 2 0 (Cert.all []), Cert.pick 1 2 (Cert.all [])]), Cert.pick 1 0 (Cert.all [Cert.pick 2 0 (Cert.all []), Cert.pick 1 1 (Cert.all [])]), Cert.pick 1 0 (Cert.all [Cert.pick 1 2 (Cert.all []), Cert.pick 1 1 (Cert.all [])])])]), Cert.pick 0 0 (Cert.all [Cert.pick 1 0 (Cert.all [Cert.pick 2 0 (Cert.all []), Cert.pick 2 0 (Cert.all []), Cert.pick 1 1 (Cert.all [Cert.pick 2 2 (Cert.all []), Cert.pick 1 2 (Cert.all [])]), Cert.pick 1 2 (Cert.all [Cert.pick 2 0 (Cert.all []), Cert.pick 1 1 (Cert.all [])])]), Cert.pick 1 1 (Cert.all [Cert.pick 1 2 (Cert.all [Cert.pick 2 2 (Cert.all []), Cert.pick 2 0 (Cert.all [])]), Cert.pick 0 1 (Cert.all []), Cert.pick 0 1 (Cert.all []), Cert.pick 0 1 (Cert.all [])]), Cert.pick 2 0 (Cert.all [Cert.pick 1 0 (Cert.all []), Cert.pick 1 2 (Cert.all [Cert.pick 2 2 (Cert.all []), Cert.pick 0 1 (Cert.all [])]), Cert.pick 1 0 (Cert.all []), Cert.pick 1 0 (Cert.all [])]), Cert.pick 2 2 (Cert.all [Cert.pick 1 0 (Cert.all [Cert.pick 2 0 (Cert.all []), Cert.pick 1 1 (Cert.all [])]), Cert.pick 1 1 (Cert.all []), Cert.pick 2 0 (Cert.all []), Cert.pick 1 1 (Cert.all [])]), Cert.pick 1 1 (Cert.all [Cert.pick 1 0 (Cert.all [Cert.pick 2 2 (Cert.all []), Cert.pick 1 2 (Cert.all [])]), Cert.pick 0 1 (Cert.all []), Cert.pick 0 1 (Cert.all []), Cert.pick 0 1 (Cert.all [])]), Cert.pick 1 2 (Cert.all [Cert.pick 1 0 (Cert.all [Cert.pick 2 0 (Cert.all []), Cert.pick 1 1 (Cert.all [])]), Cert.pick 0 1 (Cert.all [Cert.pick 2 0 (Cert.all []), Cert.pick 1 1 (Cert.all [])]), Cert.pick 2 0 (Cert.all [Cert.pick 1 0 (Cert.all []), Cert.pick 0 1 (Cert.all [])]), Cert.pick 1 1 (Cert.all [Cert.pick 1 0 (Cert.all []), Cert.pick 0 1 (Cert.all [])])])]), Cert.pick 0 0 (Cert.all [Cert.pick 0 2 (Cert.all [Cert.pick 1 2 (Cert.all [Cert.pick 2 2 (Cert.all []), Cert.pick 2 0 (Cert.all [])]), Cert.pick 1 1 (Cert.all [Cert.pick 2 2 (Cert.all []), Cert.pick 2 0 (Cert.all [])]), Cert.pick 1 1 (Cert.all [Cert.pick 2 2 (Cert.all []), Cert.pick 1 2 (Cert.all [])]), Cert.pick 1 1 (Cert.all [Cert.pick 2 0 (Cert.all []), Cert.pick 1 2 (Cert.all [])])]), Cert.pick 1 1 (Cert.all [Cert.pick 1 2 (Cert.all [Cert.pick 2 2 (Cert.all []), Cert.pick 2 0 (Cert.all [])]), Cert.pick 0 1 (Cert.all []), Cert.pick 0 1 (Cert.all []), Cert.pick 0 1 (Cert.all [])]), Cert.pick 1 2 (Cert.all [Cert.pick 0 2 (Cert.all [Cert.pick 2 2 (Cert.all []), Cert.pick 2 0 (Cert.all [])]), Cert.pick 2 0 (Cert.all [Cert.pick 2 2 (Cert.all []), Cert.pick 0 1 (Cert.all [])]), Cert.pick 0 2 (Cert.all [Cert.pick 2 2 (Cert.all []), Cert.pick 0 1 (Cert.all [])]), Cert.pick 0 1 (Cert.all [Cert.pick 2 0 (Cert.all []), Cert.pick 0 2 (Cert.all [])])]), Cert.pick 1 1 (Cert.all [Cert.pick 0 2 (Cert.all [Cert.pick 2 2 (Cert.all []), Cert.pick 2 0 (Cert.all [])]), Cert.pick 0 1 (Cert.all []), Cert.pick 0 1 (Cert.all []), Cert.pick 0 1 (Cert.all [])]), Cert.pick 0 1 (Cert.all [Cert.pick 1 1 (Cert.all []), Cert.pick 0 2 (Cert.all []), Cert.pick 0 2 (Cert.all []), Cert.pick 0 2 (Cert.all [])]), Cert.pick 0 1 (Cert.all [Cert.pick 1 1 (Cert.all []), Cert.pick 0 2 (Cert.all []), Cert.pick 0 2 (Cert.all []), Cert.pick 0 2 (Cert.all [])])]), Cert.pick 0 0 (Cert.all [Cert.pick 0 2 (Cert.all [Cert.pick 1 2 (Cert.all [Cert.pick 2 2 (Cert.all []), Cert.pick 2 0 (Cert.all [])]), Cert.pick 1 0 (Cert.all [Cert.pick 2 2 (Cert.all []), Cert.pick 2 0 (Cert.all [])]), Cert.pick 1 0 (Cert.all [Cert.pick 2 2 (Cert.all []), Cert.pick 1 2 (Cert.all [])]), Cert.pick 1 0 (Cert.all [Cert.pick 2 0 (Cert.all []), Cert.pick 1 2 (Cert.all [])])]), Cert.pick 2 0 (Cert.all [Cert.pick 1 0 (Cert.all []), Cert.pick 1 2 (Cert.all [Cert.pick 2 2 (Cert.all []), Cert.pick 0 1 (Cert.all [])]), Cert.pick 1 0 (Cert.all []), Cert.pick 1 0 (Cert.all [])]), Cert.pick 1 2 (Cert.all [Cert.pick 0 2 (Cert.all [Cert.pick 2 2 (Cert.all []), Cert.pick 2 0 (Cert.all [])]), Cert.pick 2 0 (Cert.all [Cert.pick 2 2 (Cert.all []), Cert.pick 0 1 (Cert.all [])]), Cert.pick 0 2 (Cert.all [Cert.pick 2 2 (Cert.all []), Cert.pick 0 1 (Cert.all [])]), Cert.pick 0 1 (Cert.all [Cert.pick 2 0 (Cert.all []), Cert.pick 0 2 (Cert.all [])])]), Cert.pick 1 0 (Cert.all [Cert.pick 0 2 (Cert.all [Cert.pick 2 2 (Cert.all []), Cert.pick 2 0 (Cert.all [])]), Cert.pick 2 0 (Cert.all []), Cert.pick 0 2 (Cert.all [Cert.pick 2 2 (Cert.all []), Cert.pick 0 1 (Cert.all [])]), Cert.pick 0 2 (Cert.all [Cert.pick 2 0 (Cert.all []), Cert.pick 0 1 (Cert.all [])])]), Cert.pick 0 2 (Cert.all [Cert.pick 1 0 (Cert.all [Cert.pick 2 2 (Cert.all []), Cert.pick 1 2 (Cert.all [])]), Cert.pick 0 1 (Cert.all []), Cert.pick 0 1 (Cert.all []), Cert.pick 0 1 (Cert.all [])]), Cert.pick 0 2 (Cert.all [Cert.pick 1 0 (Cert.all [Cert.pick 2 0 (Cert.all []), Cert.pick 1 2 (Cert.all [])]), Cert.pick 0 1 (Cert.all []), Cert.pick 0 1 (Cert.all []), Cert.pick 0 1 (Cert.all [])])]), Cert.pick 0 0 (Cert.all [Cert.pick 0 2 (Cert.all [Cert.pick 1 1 (Cert.all [Cert.pick 2 2 (Cert.all []), Cert.pick 2 0 (Cert.all [])]), Cert.pick 1 0 (Cert.all [Cert.pick 2 2 (Cert.all []), Cert.pick 2 0 (Cert.all [])]), Cert.pick 1 0 (Cert.all [Cert.pick 2 2 (Cert.all []), Cert.pick 1 1 (Cert.all [])]), Cert.pick 1 0 (Cert.all [Cert.pick 2 0 (Cert.all []), Cert.pick 1 1 (Cert.all [])])]), Cert.pick 2 2 (Cert.all [Cert.pick 1 0 (Cert.all [Cert.pick 2 0 (Cert.all []), Cert.pick 1 1 (Cert.all [])]), Cert.pick 1 1 (Cert.all []), Cert.pick 2 0 (Cert.all []), Cert.pick 1 1 (Cert.all [])]), Cert.pick 1 1 (Cert.all [Cert.pick 0 2 (Cert.all [Cert.pick 2 2 (Cert.all []), Cert.pick 2 0 (Cert.all [])]), Cert.pick 0 1 (Cert.all []), Cert.pick 0 1 (Cert.all []), Cert.pick 0 1 (Cert.all [])]), Cert.pick 1 0 (Cert.all [Cert.pick 0 2 (Cert.all [Cert.pick 2 2 (Cert.all []), Cert.pick 2 0 (Cert.all [])]), Cert.pick 2 0 (Cert.all []), Cert.pick 0 2 (Cert.all [Cert.pick 2 2 (Cert.all []), Cert.pick 0 1 (Cert.all [])]), Cert.pick 0 2 (Cert.all [Cert.pick 2 0 (Cert.all []), Cert.pick 0 1 (Cert.all [])])]), Cert.pick 0 1 (Cert.all [Cert.pick 1 1 (Cert.all []), Cert.pick 0 2 (Cert.all []), Cert.pick 0 2 (Cert.all []), Cert.pick 0 2 (Cert.all [])]), Cert.pick 0 2 (Cert.all [Cert.pick 1 0 (Cert.all [Cert.pick 2 0 (Cert.all []), Cert.pick 1 1 (Cert.all [])]), Cert.pick 0 1 (Cert.all []), Cert.pick 0 1 (Cert.all []), Cert.pick 0 1 (Cert.all [])])]), Cert.pick 0 0 (Cert.all [Cert.pick 0 2 (Cert.all [Cert.pick 1 1 (Cert.all [Cert.pick 2 2 (Cert.all []), Cert.pick 1 2 (Cert.all [])]), Cert.pick 1 0 (Cert.all [Cert.pick 2 2 (Cert.all []), Cert.pick 1 2 (Cert.all [])]), Cert.pick 1 0 (Cert.all [Cert.pick 2 2 (Cert.all []), Cert.pick 1 1 (Cert.all [])]), Cert.pick 1 0 (Cert.all [Cert.pick 1 2 (Cert.all []), Cert.pick 1 1 (Cert.all [])])]), Cert.pick 1 1 (Cert.all [Cert.pick 1 0 (Cert.all [Cert.pick 2 2 (Cert.all []), Cert.pick 1 2 (Cert.all [])]), Cert.pick 0 1 (Cert.all []), Cert.pick 0 1 (Cert.all []), Cert.pick 0 1 (Cert.all [])]), Cert.pick 0 1 (Cert.all [Cert.pick 1 1 (Cert.all []), Cert.pick 0 2 (Cert.all []), Cert.pick 0 2 (Cert.all []), Cert.pick 0 2 (Cert.all [])]), Cert.pick 0 2 (Cert.all [Cert.pick 1 0 (Cert.all [Cert.pick 2 2 (Cert.all []), Cert.pick 1 2 (Cert.all [])]), Cert.pick 0 1 (Cert.all []), Cert.pick 0 1 (Cert.all []), Cert.pick 0 1 (Cert.all [])]), Cert.pick 0 1 (Cert.all [Cert.pick 1 1 (Cert.all []), Cert.pick 0 2 (Cert.all []), Cert.pick 0 2 (Cert.all []), Cert.pick 0 2 (Cert.all [])]), Cert.pick 0 1 (Cert.all [Cert.pick 1 1 (Cert.all []), Cert.pick 0 2 (Cert.all []), Cert.pick 0 2 (Cert.all []), Cert.pick 0 2 (Cert.all [])])]), Cert.pick 0 0 (Cert.all [Cert.pick 0 2 (Cert.all [Cert.pick 1 1 (Cert.all [Cert.pick 2 0 (Cert.all []), Cert.pick 1 2 (Cert.all [])]), Cert.pick 1 0 (Cert.all [Cert.pick 2 0 (Cert.all []), Cert.pick 1 2 (Cert.all [])]), Cert.pick 1 0 (Cert.all [Cert.pick 2 0 (Cert.all []), Cert.pick 1 1 (Cert.all [])]), Cert.pick 1 0 (Cert.all [Cert.pick 1 2 (Cert.all []), Cert.pick 1 1 (Cert.all [])])]), Cert.pick 1 2 (Cert.all [Cert.pick 1 0 (Cert.all [Cert.pick 2 0 (Cert.all []), Cert.pick 1 1 (Cert.all [])]), Cert.pick 0 1 (Cert.all [Cert.pick 2 0 (Cert.all []), Cert.pick 1 1 (Cert.all [])]), Cert.pick 2 0 (Cert.all [Cert.pick 1 0 (Cert.all []), Cert.pick 0 1 (Cert.all [])]), Cert.pick 1 1 (Cert.all [Cert.pick 1 0 (Cert.all []), Cert.pick 0 1 (Cert.all [])])]), Cert.pick 0 1 (Cert.all [Cert.pick 1 1 (Cert.all []), Cert.pick 0 2 (Cert.all []), Cert.pick 0 2 (Cert.all []), Cert.pick 0 2 (Cert.all [])]), Cert.pick 0 2 (Cert.all [Cert.pick 1 0 (Cert.all [Cert.pick 2 0 (Cert.all []), Cert.pick 1 2 (Cert.all [])]), Cert.pick 0 1 (Cert.all []), Cert.pick 0 1 (Cert.all []), Cert.pick 0 1 (Cert.all [])]), Cert.pick 0 2 (Cert.all [Cert.pick 1 0 (Cert.all [Cert.pick 2 0 (Cert.all []), Cert.pick 1 1 (Cert.all [])]), Cert.pick 0 1 (Cert.all []), Cert.pick 0 1 (Cert.all []), Cert.pick 0 1 (Cert.all [])]), Cert.pick 0 1 (Cert.all [Cert.pick 1 1 (Cert.all []), Cert.pick 0 2 (Cert.all []), Cert.pick 0 2 (Cert.all []), Cert.pick 0 2 (Cert.all [])])])]

/-- Upper-bound certificate (score at most 0) for the position with the agent's mark at (2,1), human to move. -/
def certU21 : Cert :=
  Cert.pick 0 1 (Cert.all [Cert.pick 2 0 (Cert.all [Cert.pick 1 1 (Cert.all [Cert.pick 1 2 (Cert.all [Cert.all []]), Cert.pick 2 2 (Cert.all [Cert.all []]), Cert.pick 1 2 (Cert.all [Cert.all []])]), Cert.pick 1 1 (Cert.all [Cert.pick 1 2 (Cert.all [Cert.all []]), Cert.pick 0 2 (Cert.all []), Cert.pick 0 2 (Cert.all [])]), Cert.pick 2 2 (Cert.all [Cert.pick 1 0 (Cert.all [Cert.all []]), Cert.pick 1 2 (Cert.all [Cert.all []]), Cert.pick 1 0 (Cert.all [Cert.all []])]), Cert.pick 1 1 (Cert.all [Cert.pick 2 2 (Cert.all [Cert.all []]), Cert.pick 0 2 (Cert.all []), Cert.pick 0 2 (Cert.all [])]), Cert.pick 1 1 (Cert.all [Cert.pick 1 2 (Cert.all [Cert.all []]), Cert.pick 0 2 (Cert.all []), Cert.pick 0 2 (Cert.all [])])]), Cert.pick 2 0 (Cert.all [Cert.pick 1 1 (Cert.all [Cert.pick 1 2 (Cert.all [Cert.all []]), Cert.pick 2 2 (Cert.all [Cert.all []]), Cert.pick 1 2 (Cert.all [Cert.all []])]), Cert.pick 1 1 (Cert.all [Cert.pick 1 2 (Cert.all [Cert.all []]), Cert.pick 2 2 (Cert.all [Cert.all []]), Cert.pick 1 2 (Cert.all [Cert.all []])]), Cert.pick 0 0 (Cert.all [Cert.pick 1 2 (Cert.all [Cert.all []]), Cert.pick 1 0 (Cert.all []), Cert.pick 1 0 (Cert.all [])]), Cert.pick 2 2 (Cert.all [Cert.pick 1 0 (Cert.all [Cert.all []]), Cert.pick 1 1 (Cert.all [Cert.all []]), Cert.pick 1 0 (Cert.all [Cert.all []])]), Cert.pick 1 2 (Cert.all [Cert.pick 1 1 (Cert.all [Cert.all []]), Cert.pick 0 0 (Cert.all [Cert.all []]), Cert.pick 0 0 (Cert.all [Cert.all []])])]), Cert.pick 2 0 (Cert.all [Cert.pick 1 1 (Cert.all [Cert.pick 1 2 (Cert.all [Cert.all []]), Cert.pick 0 2 (Cert.all []), Cert.pick 0 2 (Cert.all [])]), Cert.pick 1 1 (Cert.all [Cert.pick 1 2 (Cert.all [Cert.all []]), Cert.pick 2 2 (Cert.all [Cert.all []]), Cert.pick 1 2 (Cert.all [Cert.all []])]), Cert.pick 1 2 (Cert.all [Cert.pick 2 2 (Cert.all [Cert.all []]), Cert.pick 0 0 (Cert.all [Cert.all []]), Cert.pick 0 0 (Cert.all [Cert.all []])]), Cert.pick 1 1 (Cert.all [Cert.pick 0 2 (Cert.all []), Cert.pick 2 2 (Cert.all [Cert.all []]), Cert.pick 0 2 (Cert.all [])]), Cert.pick 0 0 (Cert.all [Cert.pick 1 2 (Cert.all [Cert.all []]), Cert.pick 0 2 (Cert.all []), Cert.pick 0 2 (Cert.all [])])]), Cert.pick 0 0 (Cert.all [Cert.pick 2 0 (Cert.all [Cert.pick 1 2 (Cert.all [Cert.all []]), Cert.pick 1 0 (Cert.all []), Cert.pick 1 0 (Cert.all [])]), Cert.pick 0 2 (Cert.all []), Cert.pick 0 2 (Cert.all []), Cert.pick 0 2 (Cert.all []), Cert.pick 0 2 (Cert.all [])]), Cert.pick 2 0 (Cert.all [Cert.pick 1 1 (Cert.all [Cert.pick 2 2 (Cert.all [Cert.all []]), Cert.pick 0 2 (Cert.all []), Cert.pick 0 2 (Cert.all [])]), Cert.pick 2 2 (Cert.all [Cert.pick 1 0 (Cert.all [Cert.all []]), Cert.pick 1 1 (Cert.all [Cert.all []]), Cert.pick 1 0 (Cert.all [Cert.all []])]), Cert.pick 1 1 (Cert.all [Cert.pick 0 2 (Cert.all []), Cert.pick 2 2 (Cert.all [Cert.all []]), Cert.pick 0 2 (Cert.all [])]), Cert.pick 1 0 (Cert.all [Cert.pick 2 2 (Cert.all [Cert.all []]), Cert.pick 0 0 (Cert.all []), Cert.pick 0 0 (Cert.all [])]), Cert.pick 0 2 (Cert.all [Cert.pick 1 1 (Cert.all []), Cert.pick 0 0 (Cert.all []), Cert.pick 0 0 (Cert.all [])])]), Cert.pick 2 2 (Cert.all [Cert.pick 1 0 (Cert.all [Cert.pick 1 1 (Cert.all [Cert.all []]), Cert.pick 0 2 (Cert.all [Cert.all []]), Cert.pick 0 2 (Cert.all [Cert.all []])]), Cert.pick 1 1 (Cert.all [Cert.pick 1 0 (Cert.all [Cert.all []]), Cert.pick 0 0 (Cert.all []), Cert.pick 0 0 (Cert.all [])]), Cert.pick 0 0 (Cert.all [Cert.pick 1 1 (Cert.all []), Cert.pick 0 2 (Cert.all []), Cert.pick 0 2 (Cert.all [])]), Cert.pick 0 2 (Cert.all [Cert.pick 1 0 (Cert.all [Cert.all []]), Cert.pick 0 0 (Cert.all []), Cert.pick 0 0 (Cert.all [])]), Cert.pick 0 0 (Cert.all [Cert.pick 1 1 (Cert.all []), Cert.pick 0 2 (Cert.all []), Cert.pick 0 2 (Cert.all [])])]), Cert.pick 2 0 (Cert.all [Cert.pick 1 1 (Cert.all [Cert.pick 1 2 (Cert.all [Cert.all []]), Cert.pick 0 2 (Cert.all []), Cert.pick 0 2 (Cert.all [])]), Cert.pick 1 2 (Cert.all [Cert.pick 1 1 (Cert.all [Cert.all []]), Cert.pick 0 0 (Cert.all [Cert.all []]), Cert.pick 0 0 (Cert.all [Cert.all []])]), Cert.pick 0 0 (Cert.all [Cert.pick 1 2 (Cert.all [Cert.all []]), Cert.pick 0 2 (Cert.all []), Cert.pick 0 2 (Cert.all [])]), Cert.pick 0 0 (Cert.all [Cert.pick 1 0 (Cert.all []), Cert.pick 0 2 (Cert.all []), Cert.pick 0 2 (Cert.all [])]), Cert.pick 0 2 (Cert.all [Cert.pick 1 1 (Cert.all []), Cert.pick 0 0 (Cert.all []), Cert.pick 0 0 (Cert.all [])])])])

/-- Lower-bound certificate (score at least 0) for the position with the agent's mark at (2,2), human to move. -/
def certL22 : Cert :=
  Cert.all [Cert.pick 0 1 (Cert.all [Cert.pick 1 0 (Cert.all [Cert.pick 2 0 (Cert.all [Cert.pick 2 1 (Cert.all []), Cert.pick 1 2 (Cert.all [])]), Cert.pick 1 1 (Cert.all [Cert.pick 2 1 (Cert.all []), Cert.pick 2 0 (Cert.all [])]), Cert.pick 1 1 (Cert.all [Cert.pick 2 1 (Cert.all []), Cert.pick 1 2 (Cert.all [])]), Cert.pick 1 1 (Cert.all [Cert.pick 2 0 (Cert.all []), Cert.pick 1 2 (Cert.all [])])]), Cert.pick 2 0 (Cert.all [Cert.pick 1 1 (Cert.all [Cert.pick 2 1 (Cert.all []), Cert.pick 1 2 (Cert.all [])]), Cert.pick 1 2 (Cert.all [Cert.pick 2 1 (Cert.all []), Cert.pick 0 2 (Cert.all [])]), Cert.pick 1 1 (Cert.all [Cert.pick 2 1 (Cert.all []), Cert.pick 0 2 (Cert.all [])]), Cert.pick 0 2 (Cert.all [Cert.pick 1 2 (Cert.all []), Cert.pick 1 1 (Cert.all [])])]), Cert.pick 0 2 (Cert.all [Cert.pick 1 2 (Cert.all []), Cert.pick 1 0 (Cert.all [Cert.pick 2 1 (Cert.all []), Cert.pick 2 0 (Cert.all [])]), Cert.pick 1 0 (Cert.all [Cert.pick 2 1 (Cert.all []), Cert.pick 1 2 (Cert.all [])]), Cert.pick 1 0 (Cert.all [Cert.pick 2 0 (Cert.all []), Cert.pick 1 2 (Cert.all [])])]), Cert.pick 1 0 (Cert.all [Cert.pick 1 1 (Cert.all [Cert.pick 2 1 (Cert.all []), Cert.pick 2 0 (Cert.all [])]), Cert.pick 0 2 (Cert.all [Cert.pick 2 1 (Cert.all []), Cert.pick 2 0 (Cert.all [])]), Cert.pick 0 2 (Cert.all [Cert.pick 2 1 (Cert.all []), Cert.pick 1 1 (Cert.all [])]), Cert.pick 0 2 (Cert.all [Cert.pick 2 0 (Cert.all []), Cert.pick 1 1 (Cert.all [])])]), Cert.pick 1 0 (Cert.all [Cert.pick 1 1 (Cert.all [Cert.pick 2 1 (Cert.all []), Cert.pick 1 2 (Cert.all [])]), Cert.pick 0 2 (Cert.all [Cert.pick 2 1 (Cert.all []), Cert.pick 1 2 (Cert.all [])]), Cert.pick 0 2 (Cert.all [Cert.pick 2 1 (Cert.all []), Cert.pick 1 1 (Cert.all [])]), Cert.pick 0 2 (Cert.all [Cert.pick 1 2 (Cert.all []), Cert.pick 1 1 (Cert.all [])])]), Cert.pick 0 2 (Cert.all [Cert.pick 1 2 (Cert.all []), Cert.pick 1 0 (Cert.all [Cert.pick 2 0 (Cert.all []), Cert.pick 1 2 (Cert.all [])]), Cert.pick 1 0 (Cert.all [Cert.pick 2 0 (Cert.all []), Cert.pick 1 1 (Cert.all [])]), Cert.pick 1 0 (Cert.all [Cert.pick 1 2 (Cert.all []), Cert.pick 1 1 (Cert.all [])])])]), Cert.pick 0 0 (Cert.all [Cert.pick 1 0 (Cert.all [Cert.pick 2 0 (Cert.all []), Cert.pick 1 1 (Cert.all []), Cert.pick 1 1 (Cert.all []), Cert.pick 1 1 (Cert.all [])]), Cert.pick 0 2 (Cert.all [Cert.pick 1 2 (Cert.all []), Cert.pick 1 1 (Cert.all []), Cert.pick 1 1 (Cert.all []), Cert.pick 1 1 (Cert.all [])]), Cert.pick 2 1 (Cert.all [Cert.pick 2 0 (Cert.all []), Cert.pick 1 2 (Cert.all [Cert.pick 2 0 (Cert.all []), Cert.pick 0 2 (Cert.all [])]), Cert.pick 1 0 (Cert.all [Cert.pick 2 0 (Cert.all []), Cert.pick 0 2 (Cert.all [])]), Cert.pick 0 2 (Cert.all [Cert.pick 1 2 (Cert.all []), Cert.pick 1 0 (Cert.all [])])]), Cert.pick 1 0 (Cert.all [Cert.pick 1 1 (Cert.all []), Cert.pick 2 0 (Cert.all []), Cert.pick 0 2 (Cert.all [Cert.pick 2 1 (Cert.all []), Cert.pick 1 1 (Cert.all [])]), Cert.pick 1 1 (Cert.all [])]), Cert.pick 0 2 (Cert.all [Cert.pick 1 1 (Cert.all []), Cert.pick 1 2 (Cert.all []), Cert.pick 1 0 (Cert.all [Cert.pick 2 1 (Cert.all []), Cert.pick 1 1 (Cert.all [])]), Cert.pick 1 1 (Cert.all [])]), Cert.pick 1 1 (Cert.all [])]), Cert.pick 0 0 (Cert.all [Cert.pick 1 0 (Cert.all [Cert.pick 2 0 (Cert.all []), Cert.pick 1 1 (Cert.all []), Cert.pick 1 1 (Cert.all []), Cert.pick 1 1 (Cert.all [])]), Cert.pick 1 1 (Cert.all []), Cert.pick 2 0 (Cert.all [Cert.pick 1 0 (Cert.all []), Cert.pick 1 2 (Cert.all [Cert.pick 2 1 (Cert.all []), Cert.pick 0 1 (Cert.all [])]), Cert.pick 1 0 (Cert.all []), Cert.pick 0 1 (Cert.all [Cert.pick 1 2 (Cert.all []), Cert.pick 1 0 (Cert.all [])])]), Cert.pick 1 0 (Cert.all [Cert.pick 1 1 (Cert.all []), Cert.pick 2 0 (Cert.all []), Cert.pick 1 1 (Cert.all []), Cert.pick 0 1 (Cert.all [Cert.pick 2 0 (Cert.all []), Cert.pick 1 1 (Cert.all [])])]), Cert.pick 1 1 (Cert.all []), Cert.pick 0 1 (Cert.all [Cert.pick 1 1 (Cert.all []), Cert.pick 2 0 (Cert.all [Cert.pick 1 2 (Cert.all []), Cert.pick 1 0 (Cert.all [])]), Cert.pick 1 0 (Cert.all [Cert.pick 2 0 (Cert.all []), Cert.pick 1 1 (Cert.all [])]), Cert.pick 1 1 (Cert.all [])])]), Cert.pick 0 0 (Cert.all [Cert.pick 0 2 (Cert.all [Cert.pick 1 2 (Cert.all []), Cert.pick 1 1 (Cert.all []), Cert.pick 1 1 (Cert.all []), Cert.pick 1 1 (Cert.all [])]), Cert.pick 1 1 (Cert.all []), Cert.pick 1 2 (Cert.all [Cert.pick 0 2 (Cert.all []), Cert.pick 2 0 (Cert.all [Cert.pick 2 1 (Cert.all []), Cert.pick 0 1 (Cert.all [])]), Cert.pick 0 2 (Cert.all []), Cert.pick 0 1 (Cert.all [Cert.pick 2 0 (Cert.all []), Cert.pick 0 2 (Cert.all [])])]), Cert.pick 1 1 (Cert.all []), Cert.pick 0 1 (Cert.all [Cert.pick 1 1 (Cert.all []), Cert.pick 0 2 (Cert.all []), Cert.pick 0 2 (Cert.all []), Cert.pick 0 2 (Cert.all [])]), Cert.pick 0 1 (Cert.all [Cert.pick 1 1 (Cert.all []), Cert.pick 0 2 (Cert.all []), Cert.pick 0 2 (Cert.all []), Cert.pick 0 2 (Cert.all [])])]), Cert.pick 0 0 (Cert.all [Cert.pick 2 1 (Cert.all [Cert.pick 2 0 (Cert.all []), Cert.pick 1 2 (Cert.all [Cert.pick 2 0 (Cert.all []), Cert.pick 0 2 (Cert.all [])]), Cert.pick 1 0 (Cert.all [Cert.pick 2 0 (Cert.all []), Cert.pick 0 2 (Cert.all [])]), Cert.pick 0 2 (Cert.all [Cert.pick 1 2 (Cert.all []), Cert.pick 1 0 (Cert.all [])])]), Cert.pick 2 0 (Cert.all [Cert.pick 1 0 (Cert.all []), Cert.pick 1 2 (Cert.all [Cert.pick 2 1 (Cert.all []), Cert.pick 0 1 (Cert.all [])]), Cert.pick 1 0 (Cert.all []), Cert.pick 0 1 (Cert.all [Cert.pick 1 2 (Cert.all []), Cert.pick 1 0 (Cert.all [])])]), Cert.pick 1 2 (Cert.all [Cert.pick 0 2 (Cert.all []), Cert.pick 2 0 (Cert.all [Cert.pick 2 1 (Cert.all []), Cert.pick 0 1 (Cert.all [])]), Cert.pick 0 2 (Cert.all []), Cert.pick 0 1 (Cert.all [Cert.pick 2 0 (Cert.all []), Cert.pick 0 2 (Cert.all [])])]), Cert.pick 1 0 (Cert.all [Cert.pick 2 0 (Cert.all []), Cert.pick 2 0 (Cert.all []), Cert.pick 0 2 (Cert.all [Cert.pick 2 1 (Cert.all []), Cert.pick 0 1 (Cert.all [])]), Cert.pick 0 1 (Cert.all [Cert.pick 2 0 (Cert.all []), Cert.pick 0 2 (Cert.all [])])]), Cert.pick 0 2 (Cert.all [Cert.pick 1 2 (Cert.all []), Cert.pick 0 1 (Cert.all []), Cert.pick 0 1 (Cert.all []), Cert.pick 0 1 (Cert.all [])]), Cert.pick 0 1 (Cert.all [Cert.pick 2 0 (Cert.all [Cert.pick 1 2 (Cert.all []), Cert.pick 1 0 (Cert.all [])]), Cert.pick 0 2 (Cert.all []), Cert.pick 0 2 (Cert.all []), Cert.pick 0 2 (Cert.all [])])]), Cert.pick 0 0 (Cert.all [Cert.pick 1 0 (Cert.all [Cert.pick 1 1 (Cert.all []), Cert.pick 2 0 (Cert.all []), Cert.pick 0 2 (Cert.all [Cert.pick 2 1 (Cert.all []), Cert.pick 1 1 (Cert.all [])]), Cert.pick 1 1 (Cert.all [])]), Cert.pick 1 0 (Cert.all [Cert.pick 1 1 (Cert.all []), Cert.pick 2 0 (Cert.all []), Cert.pick 1 1 (Cert.all []), Cert.pick 0 1 (Cert.all [Cert.pick 2 0 (Cert.all []), Cert.pick 1 1 (Cert.all [])])]), Cert.pick 1 1 (Cert.all []), Cert.pick 1 0 (Cert.all [Cert.pick 2 0 (Cert.all []), Cert.pick 2 0 (Cert.all []), Cert.pick 0 2 (Cert.all [Cert.pick 2 1 (Cert.all []), Cert.pick 0 1 (Cert.all [])]), Cert.pick 0 1 (Cert.all [Cert.pick 2 0 (Cert.all []), Cert.pick 0 2 (Cert.all [])])]), Cert.pick 0 1 (Cert.all [Cert.pick 1 1 (Cert.all []), Cert.pick 0 2 (Cert.all []), Cert.pick 0 2 (Cert.all []), Cert.pick 0 2 (Cert.all [])]), Cert.pick 0 1 (Cert.all [Cert.pick 1 0 (Cert.all [Cert.pick 2 0 (Cert.all []), Cert.pick 1 1 (Cert.all [])]), Cert.pick 0 2 (Cert.all []), Cert.pick 0 2 (Cert.all []), Cert.pick 0 2 (Cert.all [])])]), Cert.pick 0 0 (Cert.all [Cert.pick 0 2 (Cert.all [Cert.pick 1 1 (Cert.all []), Cert.pick 1 2 (Cert.all []), Cert.pick 1 0 (Cert.all [Cert.pick 2 1 (Cert.all []), Cert.pick 1 1 (Cert.all [])]), Cert.pick 1 1 (Cert.all [])]), Cert.pick 1 1 (Cert.all []), Cert.pick 0 1 (Cert.all [Cert.pick 1 1 (Cert.all []), Cert.pick 0 2 (Cert.all []), Cert.pick 0 2 (Cert.all []), Cert.pick 0 2 (Cert.all [])]), Cert.pick 0 2 (Cert.all [Cert.pick 1 2 (Cert.all []), Cert.pick 0 1 (Cert.all []), Cert.pick 0 1 (Cert.all []), Cert.pick 0 1 (Cert.all [])]), Cert.pick 0 1 (Cert.all [Cert.pick 1 1 (Cert.all []), Cert.pick 0 2 (Cert.all []), Cert.pick 0 2 (Cert.all []), Cert.pick 0 2 (Cert.all [])]), Cert.pick 0 1 (Cert.all [Cert.pick 1 1 (Cert.all []), Cert.pick 0 2 (Cert.all []), Cert.pick 0 2 (Cert.all []), Cert.pick 0 2 (Cert.all [])])]), Cert.pick 0 0 (Cert.all [Cert.pick 1 1 (Cert.all []), Cert.pick 0 1 (Cert.all [Cert.pick 1 1 (Cert.all []), Cert.pick 2 0 (Cert.all [Cert.pick 1 2 (Cert.all []), Cert.pick 1 0 (Cert.all [])]), Cert.pick 1 0 (Cert.all [Cert.pick 2 0 (Cert.all []), Cert.pick 1 1 (Cert.all [])]), Cert.pick 1 1 (Cert.all [])]), Cert.pick 0 1 (Cert.all [Cert.pick 1 1 (Cert.all []), Cert.pick 0 2 (Cert.all []), Cert.pick 0 2 (Cert.all []), Cert.pick 0 2 (Cert.all [])]), Cert.pick 0 1 (Cert.all [Cert.pick 2 0 (Cert.all [Cert.pick 1 2 (Cert.all []), Cert.pick 1 0 (Cert.all [])]), Cert.pick 0 2 (Cert.all []), Cert.pick 0 2 (Cert.all []), Cert.pick 0 2 (Cert.all [])]), Cert.pick 0 1 (Cert.all [Cert.pick 1 0 (Cert.all [Cert.pick 2 0 (Cert.all []), Cert.pick 1 1 (Cert.all [])]), Cert.pick 0 2 (Cert.all []), Cert.pick 0 2 (Cert.all []), Cert.pick 0 2 (Cert.all [])]), Cert.pick 0 1 (Cert.all [Cert.pick 1 1 (Cert.all []), Cert.pick 0 2 (Cert.all []), Cert.pick 0 2 (Cert.all []), Cert.pick 0 2 (Cert.all [])])])]

/-- Upper-bound certificate (score at most 0) for the position with the agent's mark at (2,2), human to move. -/
def certU22 : Cert :=
  Cert.pick 1 1 (Cert.all [Cert.pick 0 1 (Cert.all [Cert.pick 1 2 (Cert.all [Cert.pick 2 0 (Cert.all [Cert.all []]), Cert.pick 1 0 (Cert.all []), Cert.pick 1 0 (Cert.all [])]), Cert.pick 2 0 (Cert.all [Cert.pick 1 2 (Cert.all [Cert.all []]), Cert.pick 0 2 (Cert.all []), Cert.pick 0 2 (Cert.all [])]), Cert.pick 0 2 (Cert.all [Cert.pick 2 0 (Cert.all []), Cert.pick 2 1 (Cert.all []), Cert.pick 2 0 (Cert.all [])]), Cert.pick 2 1 (Cert.all []), Cert.pick 2 0 (Cert.all [Cert.pick 1 2 (Cert.all [Cert.all []]), Cert.pick 0 2 (Cert.all []), Cert.pick 0 2 (Cert.all [])])]), Cert.pick 0 0 (Cert.all [Cert.pick 1 2 (Cert.all [Cert.pick 2 0 (Cert.all [Cert.all []]), Cert.pick 1 0 (Cert.all []), Cert.pick 1 0 (Cert.all [])]), Cert.pick 0 2 (Cert.all [Cert.pick 2 0 (Cert.all []), Cert.pick 2 1 (Cert.all [Cert.all []]), Cert.pick 2 0 (Cert.all [])]), Cert.pick 0 2 (Cert.all [Cert.pick 2 0 (Cert.all []), Cert.pick 2 1 (Cert.all [Cert.all []]), Cert.pick 2 0 (Cert.all [])]), Cert.pick 2 1 (Cert.all [Cert.pick 1 2 (Cert.all [Cert.all []]), Cert.pick 0 2 (Cert.all [Cert.all []]), Cert.pick 0 2 (Cert.all [Cert.all []])]), Cert.pick 2 0 (Cert.all [Cert.pick 1 0 (Cert.all []), Cert.pick 0 2 (Cert.all []), Cert.pick 0 2 (Cert.all [])])]), Cert.pick 1 2 (Cert.all [Cert.pick 0 1 (Cert.all [Cert.pick 2 0 (Cert.all [Cert.all []]), Cert.pick 1 0 (Cert.all []), Cert.pick 1 0 (Cert.all [])]), Cert.pick 0 0 (Cert.all [Cert.pick 2 0 (Cert.all [Cert.all []]), Cert.pick 1 0 (Cert.all []), Cert.pick 1 0 (Cert.all [])]), Cert.pick 0 0 (Cert.all [Cert.pick 2 0 (Cert.all [Cert.all []]), Cert.pick 2 1 (Cert.all [Cert.all []]), Cert.pick 2 0 (Cert.all [Cert.all []])]), Cert.pick 1 0 (Cert.all []), Cert.pick 1 0 (Cert.all [])]), Cert.pick 0 0 (Cert.all [Cert.pick 0 2 (Cert.all [Cert.pick 2 0 (Cert.all []), Cert.pick 2 1 (Cert.all [Cert.all []]), Cert.pick 2 0 (Cert.all [])]), Cert.pick 1 2 (Cert.all [Cert.pick 2 0 (Cert.all [Cert.all []]), Cert.pick 2 1 (Cert.all [Cert.all []]), Cert.pick 2 0 (Cert.all [Cert.all []])]), Cert.pick 0 2 (Cert.all [Cert.pick 2 0 (Cert.all []), Cert.pick 0 1 (Cert.all []), Cert.pick 0 1 (Cert.all [])]), Cert.pick 2 1 (Cert.all [Cert.pick 0 2 (Cert.all [Cert.all []]), Cert.pick 0 1 (Cert.all []), Cert.pick 0 1 (Cert.all [])]), Cert.pick 2 0 (Cert.all [Cert.pick 0 2 (Cert.all []), Cert.pick 1 2 (Cert.all [Cert.all []]), Cert.pick 0 2 (Cert.all [])])]), Cert.pick 0 2 (Cert.all [Cert.pick 0 1 (Cert.all [Cert.pick 2 0 (Cert.all []), Cert.pick 2 1 (Cert.all []), Cert.pick 2 0 (Cert.all [])]), Cert.pick 0 0 (Cert.all [Cert.pick 2 0 (Cert.all []), Cert.pick 2 1 (Cert.all [Cert.all []]), Cert.pick 2 0 (Cert.all [])]), Cert.pick 0 0 (Cert.all [Cert.pick 2 0 (Cert.all []), Cert.pick 0 1 (Cert.all []), Cert.pick 0 1 (Cert.all [])]), Cert.pick 2 1 (Cert.all [Cert.pick 0 1 (Cert.all []), Cert.pick 0 0 (Cert.all [Cert.all []]), Cert.pick 0 0 (Cert.all [Cert.all []])]), Cert.pick 2 0 (Cert.all [])]), Cert.pick 2 1 (Cert.all [Cert.pick 0 1 (Cert.all []), Cert.pick 0 0 (Cert.all [Cert.pick 1 2 (Cert.all [Cert.all []]), Cert.pick 0 2 (Cert.all [Cert.all []]), Cert.pick 0 2 (Cert.all [Cert.all []])]), Cert.pick 0 1 (Cert.all []), Cert.pick 0 0 (Cert.all [Cert.pick 0 2 (Cert.all [Cert.all []]), Cert.pick 0 1 (Cert.all []), Cert.pick 0 1 (Cert.all [])]), Cert.pick 0 1 (Cert.all [])]), Cert.pick 2 0 (Cert.all [Cert.pick 0 1 (Cert.all [Cert.pick 1 2 (Cert.all [Cert.all []]), Cert.pick 0 2 (Cert.all []), Cert.pick 0 2 (Cert.all [])]), Cert.pick 0 0 (Cert.all [Cert.pick 1 0 (Cert.all []), Cert.pick 0 2 (Cert.all []), Cert.pick 0 2 (Cert.all [])]), Cert.pick 1 2 (Cert.all [Cert.pick 0 1 (Cert.all [Cert.all []]), Cert.pick 0 0 (Cert.all [Cert.all []]), Cert.pick 0 0 (Cert.all [Cert.all []])]), Cert.pick 0 0 (Cert.all [Cert.pick 0 2 (Cert.all []), Cert.pick 1 2 (Cert.all [Cert.all []]), Cert.pick 0 2 (Cert.all [])]), Cert.pick 0 2 (Cert.all [])])])

/-! ### Basic lemmas about squares and cells -/

theorem Square.flip_flip (s : Square) : s.flip.flip = s := by
  cases s <;> rfl

theorem Square.flip_ne_empty {s : Square} (h : s ≠ Square.Empty) :
    s.flip ≠ Square.Empty := by
  cases s <;> simp [Square.flip] at h ⊢

theorem getCell_setCell_same (b : Board) (r c : Fin 3) (s : Square) :
    getCell (setCell b r c s) r c = s := by
  fin_cases r <;> fin_cases c <;> rfl

theorem getCell_setCell_ne (b : Board) (r c i j : Fin 3) (s : Square)
    (h : ¬(i = r ∧ j = c)) :
    getCell (setCell b r c s) i j = getCell b i j := by
  fin_cases r <;> fin_cases c <;> fin_cases i <;> fin_cases j <;>
    first
      | rfl
      | exact absurd ⟨rfl, rfl⟩ h

theorem setCell_setCell_cancel (b : Board) (r c : Fin 3) (s : Square)
    (h : getCell b r c = Square.Empty) :
    setCell (setCell b r c s) r c Square.Empty = b := by
  fin_cases r <;> fin_cases c <;>
    (cases b with
     | mk c00 c01 c02 c10 c11 c12 c20 c21 c22 =>
       simp only [getCell, setCell] at h ⊢
       simp [h.symm])

/-! ### The search restores the board (backtracking) -/

theorem maxLoop_state (rec : Game → Int × (Nat × Nat) × Game)
    (hrec : ∀ g', (rec g').2.2 = g') :
    ∀ (cells : List (Fin 3 × Fin 3)) (g : Game) (best : Int) (bm : Nat × Nat),
      (maxLoop rec g cells best bm).2.2 = g := by
  intro cells
  induction cells with
  | nil => intro g best bm; rfl
  | cons p rest ih =>
    intro g best bm
    obtain ⟨i, j⟩ := p
    simp only [maxLoop]
    split
    · rename_i h
      have hb : setCell (setCell g.board i j g.agent) i j Square.Empty = g.board :=
        setCell_setCell_cancel _ _ _ _ h
      rw [hrec, hb]
      split <;> exact ih _ _ _
    · exact ih _ _ _

theorem minLoop_state (rec : Game → Int × (Nat × Nat) × Game)
    (hrec : ∀ g', (rec g').2.2 = g') :
    ∀ (cells : List (Fin 3 × Fin 3)) (g : Game) (best : Int),
      (minLoop rec g cells best).2.2 = g := by
  intro cells
  induction cells with
  | nil => intro g best; rfl
  | cons p rest ih =>
    intro g best
    obtain ⟨i, j⟩ := p
    simp only [minLoop]
    split
    · rename_i h
      have hb : setCell (setCell g.board i j g.human) i j Square.Empty = g.board :=
        setCell_setCell_cancel _ _ _ _ h
      rw [hrec, hb]
      exact ih _ _
    · exact ih _ _

theorem minimaxF_state : ∀ (fuel : Nat) (g : Game) (d : Nat) (b : Bool),
    (minimaxF fuel g d b).2.2 = g := by
  intro fuel
  induction fuel with
  | zero => intro g d b; rfl
  | succ fuel ih =>
    intro g d b
    simp only [minimaxF]
    split
    · rfl
    split
    · rfl
    split
    · rfl
    split
    · exact maxLoop_state _ (fun g' => ih g' _ _) _ _ _ _
    · exact minLoop_state _ (fun g' => ih g' _ _) _ _ _

/-- C1: for every game state and every in-range `row`, `col`, `make_move`
on an `Empty` cell sets that cell to the current player's mark, flips
`player` to its opponent, and returns `true`; on an occupied cell it
returns `false` and leaves the whole state unchanged. -/
theorem claim_C1_make_move_spec (g : Game) (row col : Fin 3) :
    make_move g row col =
      if getCell g.board row col = Square.Empty then
        (true, { g with board := setCell g.board row col g.player
                        player := g.player.flip })
      else
        (false, g) := by
  rcases hx : getCell g.board row col <;> simp [make_move, hx]

/-- C3: `minimax` leaves the game state exactly as it found it: the board
is restored at every exit path and `player`, `human`, `agent` are
unchanged, for both values of `is_maximizing` (and any depth). -/
theorem claim_C3_minimax_restores (g : Game) (depth : Nat) (is_maximizing : Bool) :
    (minimax g depth is_maximizing).2.2 = g :=
  minimaxF_state 10 g depth is_maximizing

/-- C9: applying `make_move` on an empty cell and then setting that cell
back to `Empty` and flipping `player` back restores the prior `Game`
field-for-field. -/
theorem claim_C9_make_move_roundtrip (g : Game) (row col : Fin 3)
    (h : getCell g.board row col = Square.Empty) :
    (let g' := (make_move g row col).2
     { g' with board := setCell g'.board row col Square.Empty
               player := g'.player.flip }) = g := by
  simp only [make_move]
  rw [h]
  simp only
  rw [setCell_setCell_cancel _ _ _ _ h, Square.flip_flip]

/-- Witness for C9 at the fresh game and cell `(0,0)`. -/
theorem claim_C9_witness :
    (let g' := (make_move Game.new 0 0).2
     { g' with board := setCell g'.board 0 0 Square.Empty
               player := g'.player.flip }) = Game.new :=
  claim_C9_make_move_roundtrip Game.new 0 0 rfl

theorem minimaxF_terminal (fuel : Nat) (g : Game) (d : Nat) (b : Bool) :
    (is_winner g g.agent = true → minimaxF (fuel + 1) g d b = (1, (1, 1), g)) ∧
    (is_winner g g.agent = false → is_winner g g.human = true →
      minimaxF (fuel + 1) g d b = (-1, (1, 1), g)) ∧
    (is_winner g g.agent = false → is_winner g g.human = false → is_draw g = true →
      minimaxF (fuel + 1) g d b = (0, (1, 1), g)) := by
  refine ⟨fun h1 => ?_, fun h1 h2 => ?_, fun h1 h2 h3 => ?_⟩ <;>
    · rw [minimaxF]
      simp [*]

/-- C2: the terminal checks of `minimax` run before any recursion and in
this precedence order: an agent win returns score `+1`, else a human win
returns `-1`, else a full board returns `0`; the checks use the state's
fixed `agent`/`human` marks and are independent of `is_maximizing`. -/
theorem claim_C2_minimax_terminal (g : Game) (depth : Nat) (is_maximizing : Bool) :
    (is_winner g g.agent = true → minimax g depth is_maximizing = (1, (1, 1), g)) ∧
    (is_winner g g.agent = false → is_winner g g.human = true →
      minimax g depth is_maximizing = (-1, (1, 1), g)) ∧
    (is_winner g g.agent = false → is_winner g g.human = false → is_draw g = true →
      minimax g depth is_maximizing = (0, (1, 1), g)) :=
  minimaxF_terminal 9 g depth is_maximizing

/-- Witness for C2: the three terminal outcomes at concrete states, for
both values of the `is_maximizing` flag. -/
theorem claim_C2_witness :
    minimax gAgentWin 0 true = (1, (1, 1), gAgentWin) ∧
    minimax gHumanWin 0 false = (-1, (1, 1), gHumanWin) ∧
    minimax gDraw 2 true = (0, (1, 1), gDraw) :=
  ⟨(claim_C2_minimax_terminal gAgentWin 0 true).1 (by decide),
   (claim_C2_minimax_terminal gHumanWin 0 false).2.1 (by decide) (by decide),
   (claim_C2_minimax_terminal gDraw 2 true).2.2 (by decide) (by decide) (by decide)⟩

theorem minLoop_move (rec : Game → Int × (Nat × Nat) × Game) :
    ∀ (cells : List (Fin 3 × Fin 3)) (g : Game) (best : Int),
      (minLoop rec g cells best).2.1 = (1, 1) := by
  intro cells
  induction cells with
  | nil => intro g best; rfl
  | cons p rest ih =>
    intro g best
    obtain ⟨i, j⟩ := p
    simp only [minLoop]
    split
    · exact ih _ _
    · exact ih _ _

/-- C10: whenever `minimax` is called on a terminal state, or with
`is_maximizing = false`, the returned move is the sentinel `(1, 1)`:
`best_move` is only ever assigned in the maximizing branch. -/
theorem claim_C10_sentinel_move (g : Game) (depth : Nat) (is_maximizing : Bool)
    (h : is_winner g g.agent = true ∨ is_winner g g.human = true ∨
         is_draw g = true ∨ is_maximizing = false) :
    (minimax g depth is_maximizing).2.1 = (1, 1) := by
  show (minimaxF (9 + 1) g depth is_maximizing).2.1 = (1, 1)
  rw [minimaxF]
  split
  · rfl
  split
  · rfl
  split
  · rfl
  rename_i h1 h2 h3
  have hb : is_maximizing = false := by
    rcases h with h | h | h | h <;> simp_all
  subst hb
  simp only [Bool.false_eq_true, if_false]
  exact minLoop_move _ _ _ _

/-- Witness for C10: a minimizing call on the fresh game returns the
sentinel move `(1, 1)`. -/
theorem claim_C10_witness : (minimax Game.new 0 false).2.1 = (1, 1) :=
  claim_C10_sentinel_move Game.new 0 false (Or.inr (Or.inr (Or.inr rfl)))

/-! ### The unused `depth` parameter does not affect the result -/

theorem maxLoop_rec_congr (rec₁ rec₂ : Game → Int × (Nat × Nat) × Game)
    (h : ∀ g', rec₁ g' = rec₂ g') :
    ∀ (cells : List (Fin 3 × Fin 3)) (g : Game) (best : Int) (bm : Nat × Nat),
      maxLoop rec₁ g cells best bm = maxLoop rec₂ g cells best bm := by
  intro cells
  induction cells with
  | nil => intro g best bm; rfl
  | cons p rest ih =>
    intro g best bm
    obtain ⟨i, j⟩ := p
    simp only [maxLoop]
    rw [h]
    split
    · split <;> exact ih _ _ _
    · exact ih _ _ _

theorem minLoop_rec_congr (rec₁ rec₂ : Game → Int × (Nat × Nat) × Game)
    (h : ∀ g', rec₁ g' = rec₂ g') :
    ∀ (cells : List (Fin 3 × Fin 3)) (g : Game) (best : Int),
      minLoop rec₁ g cells best = minLoop rec₂ g cells best := by
  intro cells
  induction cells with
  | nil => intro g best; rfl
  | cons p rest ih =>
    intro g best
    obtain ⟨i, j⟩ := p
    simp only [minLoop]
    rw [h]
    split
    · exact ih _ _
    · exact ih _ _

theorem minimaxF_depth : ∀ (fuel : Nat) (g : Game) (d₁ d₂ : Nat) (b : Bool),
    minimaxF fuel g d₁ b = minimaxF fuel g d₂ b := by
  intro fuel
  induction fuel with
  | zero => intro g d₁ d₂ b; rfl
  | succ fuel ih =>
    intro g d₁ d₂ b
    simp only [minimaxF]
    split
    · rfl
    split
    · rfl
    split
    · rfl
    split
    · exact maxLoop_rec_congr _ _ (fun g' => ih g' (d₁ + 1) (d₂ + 1) false) _ _ _ _
    · exact minLoop_rec_congr _ _ (fun g' => ih g' (d₁ + 1) (d₂ + 1) true) _ _ _

/-- C7: `minimax` is deterministic — identical game state contents and the
same `is_maximizing` flag yield the identical `(score, move)` result (the
dead `depth` parameter does not influence it either). -/
theorem claim_C7_deterministic (g₁ g₂ : Game) (d₁ d₂ : Nat) (b₁ b₂ : Bool)
    (hg : g₁ = g₂) (hb : b₁ = b₂) :
    minimax g₁ d₁ b₁ = minimax g₂ d₂ b₂ := by
  subst hg
  subst hb
  exact minimaxF_depth 10 g₁ d₁ d₂ b₁

/-- Witness for C7: two calls on the fresh game (with different values of
the dead `depth` parameter) agree. -/
theorem claim_C7_witness : minimax Game.new 0 true = minimax Game.new 7 true :=
  claim_C7_deterministic Game.new Game.new 0 7 true true rfl rfl

/-! ### Score bounds: the sentinels never escape -/

theorem mem_allCells (p : Fin 3 × Fin 3) : p ∈ allCells := by
  obtain ⟨i, j⟩ := p
  fin_cases i <;> fin_cases j <;> decide

theorem exists_empty_of_not_draw (g : Game) (h : is_draw g = false) :
    ∃ p ∈ allCells, getCell g.board p.1 p.2 = Square.Empty := by
  by_contra hc
  push_neg at hc
  have hc' : ∀ i j : Fin 3, getCell g.board i j ≠ Square.Empty :=
    fun i j => hc (i, j) (mem_allCells (i, j))
  simp [is_draw, range3, hc'] at h

theorem maxLoop_le (rec : Game → Int × (Nat × Nat) × Game)
    (hle : ∀ g', (rec g').1 ≤ 1) :
    ∀ (cells : List (Fin 3 × Fin 3)) (g : Game) (best : Int) (bm : Nat × Nat),
      best ≤ 1 → (maxLoop rec g cells best bm).1 ≤ 1 := by
  intro cells
  induction cells with
  | nil => intro g best bm hb; exact hb
  | cons p rest ih =>
    intro g best bm hb
    obtain ⟨i, j⟩ := p
    simp only [maxLoop]
    split
    · split
      · exact ih _ _ _ (hle _)
      · exact ih _ _ _ hb
    · exact ih _ _ _ hb

theorem maxLoop_ge (rec : Game → Int × (Nat × Nat) × Game)
    (hrec : ∀ g', (rec g').2.2 = g') (hge : ∀ g', -1 ≤ (rec g').1) :
    ∀ (cells : List (Fin 3 × Fin 3)) (g : Game) (best : Int) (bm : Nat × Nat),
      ((∃ p ∈ cells, getCell g.board p.1 p.2 = Square.Empty) ∨ -1 ≤ best) →
      -1 ≤ (maxLoop rec g cells best bm).1 := by
  intro cells
  induction cells with
  | nil =>
    intro g best bm hb
    rcases hb with ⟨p, hp, _⟩ | hb
    · exact absurd hp (List.not_mem_nil p)
    · exact hb
  | cons p rest ih =>
    intro g best bm hb
    obtain ⟨i, j⟩ := p
    simp only [maxLoop]
    split
    · rename_i hcell
      have hbst : setCell (setCell g.board i j g.agent) i j Square.Empty = g.board :=
        setCell_setCell_cancel _ _ _ _ hcell
      rw [hrec, hbst]
      split
      · exact ih _ _ _ (Or.inr (hge _))
      · rename_i hnotgt
        rcases hb with ⟨q, hq, hqe⟩ | hbge
        · exact ih _ _ _ (Or.inr (le_trans (hge _) (not_lt.mp hnotgt)))
        · exact ih _ _ _ (Or.inr hbge)
    · rename_i hcell
      rcases hb with ⟨q, hq, hqe⟩ | hbge
      · rcases List.mem_cons.mp hq with rfl | hq'
        · exact absurd hqe hcell
        · exact ih _ _ _ (Or.inl ⟨q, hq', hqe⟩)
      · exact ih _ _ _ (Or.inr hbge)

theorem minLoop_ge (rec : Game → Int × (Nat × Nat) × Game)
    (hge : ∀ g', -1 ≤ (rec g').1) :
    ∀ (cells : List (Fin 3 × Fin 3)) (g : Game) (best : Int),
      -1 ≤ best → -1 ≤ (minLoop rec g cells best).1 := by
  intro cells
  induction cells with
  | nil => intro g best hb; exact hb
  | cons p rest ih =>
    intro g best hb
    obtain ⟨i, j⟩ := p
    simp only [minLoop]
    split
    · exact ih _ _ (le_min hb (hge _))
    · exact ih _ _ hb

theorem minLoop_le (rec : Game → Int × (Nat × Nat) × Game)
    (hrec : ∀ g', (rec g').2.2 = g') (hle : ∀ g', (rec g').1 ≤ 1) :
    ∀ (cells : List (Fin 3 × Fin 3)) (g : Game) (best : Int),
      ((∃ p ∈ cells, getCell g.board p.1 p.2 = Square.Empty) ∨ best ≤ 1) →
      (minLoop rec g cells best).1 ≤ 1 := by
  intro cells
  induction cells with
  | nil =>
    intro g best hb
    rcases hb with ⟨p, hp, _⟩ | hb
    · exact absurd hp (List.not_mem_nil p)
    · exact hb
  | cons p rest ih =>
    intro g best hb
    obtain ⟨i, j⟩ := p
    simp only [minLoop]
    split
    · rename_i hcell
      have hbst : setCell (setCell g.board i j g.human) i j Square.Empty = g.board :=
        setCell_setCell_cancel _ _ _ _ hcell
      rw [hrec, hbst]
      exact ih _ _ (Or.inr (le_trans (min_le_right _ _) (hle _)))
    · rename_i hcell
      rcases hb with ⟨q, hq, hqe⟩ | hble
      · rcases List.mem_cons.mp hq with rfl | hq'
        · exact absurd hqe hcell
        · exact ih _ _ (Or.inl ⟨q, hq', hqe⟩)
      · exact ih _ _ (Or.inr hble)

theorem minimaxF_score_bound : ∀ (fuel : Nat) (g : Game) (d : Nat) (b : Bool),
    -1 ≤ (minimaxF fuel g d b).1 ∧ (minimaxF fuel g d b).1 ≤ 1 := by
  intro fuel
  induction fuel with
  | zero => intro g d b; constructor <;> norm_num [minimaxF]
  | succ fuel ih =>
    intro g d b
    simp only [minimaxF]
    split
    · constructor <;> norm_num
    split
    · constructor <;> norm_num
    split
    · constructor <;> norm_num
    rename_i hdraw
    have hdraw' : is_draw g = false := by
      revert hdraw
      cases is_draw g <;> simp
    have hex := exists_empty_of_not_draw g hdraw'
    split
    · constructor
      · exact maxLoop_ge _ (fun g' => minimaxF_state fuel g' (d + 1) false)
          (fun g' => (ih g' (d + 1) false).1) allCells g (-1000) (1, 1) (Or.inl hex)
      · exact maxLoop_le _ (fun g' => (ih g' (d + 1) false).2) allCells g (-1000) (1, 1)
          (by norm_num)
    · constructor
      · exact minLoop_ge _ (fun g' => (ih g' (d + 1) true).1) allCells g 1000 (by norm_num)
      · exact minLoop_le _ (fun g' => minimaxF_state fuel g' (d + 1) true)
          (fun g' => (ih g' (d + 1) true).2) allCells g 1000 (Or.inl hex)

/-- C6: for every state, depth and `is_maximizing`, the score returned by
`minimax` lies in `{-1, 0, 1}`: the `±1000` sentinels never escape, since
a state passing the terminal checks still has an empty cell, so the loop
runs and replaces the sentinel. -/
theorem claim_C6_score_range (g : Game) (depth : Nat) (is_maximizing : Bool) :
    (minimax g depth is_maximizing).1 = -1 ∨ (minimax g depth is_maximizing).1 = 0 ∨
    (minimax g depth is_maximizing).1 = 1 := by
  have h := minimaxF_score_bound 10 g depth is_maximizing
  have h1 := h.1
  have h2 := h.2
  rw [show minimax g depth is_maximizing = minimaxF 10 g depth is_maximizing from rfl]
  omega

/-! ### At most one winner on reachable boards -/

theorem is_winner_congr (g₁ g₂ : Game) (m : Square)
    (h : ∀ i j, (getCell g₁.board i j == m) = (getCell g₂.board i j == m)) :
    is_winner g₁ m = is_winner g₂ m := by
  simp only [is_winner, h]

theorem make_move_success_cell {g : Game} {r c : Fin 3}
    (h : (make_move g r c).1 = true) : getCell g.board r c = Square.Empty := by
  rcases hx : getCell g.board r c
  · simp [make_move, hx] at h
  · simp [make_move, hx] at h
  · rfl

theorem make_move_success_eq {g : Game} {r c : Fin 3}
    (h : getCell g.board r c = Square.Empty) :
    (make_move g r c).2 =
      { g with board := setCell g.board r c g.player, player := g.player.flip } := by
  rw [make_move, h]

theorem reachable_player_ne {g : Game} (h : Reachable g) :
    g.player ≠ Square.Empty := by
  induction h with
  | init => decide
  | step r c hg hX hO hsucc ih =>
    rw [make_move_success_eq (make_move_success_cell hsucc)]
    exact Square.flip_ne_empty ih

/-- C5: on every board reachable from the fresh game by successful
`make_move` calls under legal (alternating, stop-at-win) play, `is_winner`
holds for at most one of the two players' marks: never both `X` and `O`
simultaneously. -/
theorem claim_C5_at_most_one_winner (g : Game) (h : Reachable g) :
    ¬(is_winner g Square.X = true ∧ is_winner g Square.O = true) := by
  induction h with
  | init => decide
  | @step g r c hg hX hO hsucc ih =>
    rintro ⟨wX, wO⟩
    have hp := reachable_player_ne hg
    have hcell := make_move_success_cell hsucc
    rw [make_move_success_eq hcell] at wX wO
    cases hpv : g.player with
    | Empty => exact hp hpv
    | X =>
      rw [hpv] at wO
      have hcells : ∀ i j,
          (getCell (setCell g.board r c Square.X) i j == Square.O) =
          (getCell g.board i j == Square.O) := by
        intro i j
        by_cases hij : i = r ∧ j = c
        · obtain ⟨rfl, rfl⟩ := hij
          rw [getCell_setCell_same, hcell]
          decide
        · rw [getCell_setCell_ne _ _ _ _ _ _ hij]
      have heq := is_winner_congr
        { g with board := setCell g.board r c Square.X, player := Square.X.flip } g
        Square.O hcells
      rw [heq] at wO
      rw [hO] at wO
      exact absurd wO (by decide)
    | O =>
      rw [hpv] at wX
      have hcells : ∀ i j,
          (getCell (setCell g.board r c Square.O) i j == Square.X) =
          (getCell g.board i j == Square.X) := by
        intro i j
        by_cases hij : i = r ∧ j = c
        · obtain ⟨rfl, rfl⟩ := hij
          rw [getCell_setCell_same, hcell]
          decide
        · rw [getCell_setCell_ne _ _ _ _ _ _ hij]
      have heq := is_winner_congr
        { g with board := setCell g.board r c Square.O, player := Square.O.flip } g
        Square.X hcells
      rw [heq] at wX
      rw [hX] at wX
      exact absurd wX (by decide)

/-- Witness for C5 at the initial reachable state. -/
theorem claim_C5_witness :
    ¬(is_winner Game.new Square.X = true ∧ is_winner Game.new Square.O = true) :=
  claim_C5_at_most_one_winner Game.new Reachable.init

/-! ### Termination: fuel beyond the number of empty cells is irrelevant -/

theorem emptyCount_setCell_lt (b : Board) (r c : Fin 3) (s : Square)
    (hcell : getCell b r c = Square.Empty) (hs : s ≠ Square.Empty) :
    emptyCount (setCell b r c s) < emptyCount b := by
  have hmem : (r, c) ∈ Finset.univ.filter
      (fun p : Fin 3 × Fin 3 => getCell b p.1 p.2 = Square.Empty) := by
    simp [Finset.mem_filter, hcell]
  have hset : Finset.univ.filter
        (fun p : Fin 3 × Fin 3 => getCell (setCell b r c s) p.1 p.2 = Square.Empty) =
      (Finset.univ.filter
        (fun p : Fin 3 × Fin 3 => getCell b p.1 p.2 = Square.Empty)).erase (r, c) := by
    ext p
    obtain ⟨i, j⟩ := p
    by_cases hij : i = r ∧ j = c
    · obtain ⟨rfl, rfl⟩ := hij
      simp [Finset.mem_filter, Finset.mem_erase, getCell_setCell_same, hs]
    · rw [Finset.mem_filter, Finset.mem_erase, Finset.mem_filter,
        getCell_setCell_ne _ _ _ _ _ _ hij]
      have hne : (i, j) ≠ (r, c) := by
        intro hpq
        exact hij ⟨congrArg Prod.fst hpq, congrArg Prod.snd hpq⟩
      simp [hne]
  rw [emptyCount, emptyCount, hset, Finset.card_erase_of_mem hmem]
  have hpos : 0 < (Finset.univ.filter
      (fun p : Fin 3 × Fin 3 => getCell b p.1 p.2 = Square.Empty)).card :=
    Finset.card_pos.mpr ⟨(r, c), hmem⟩
  omega

theorem emptyCount_le_nine (b : Board) : emptyCount b ≤ 9 := by
  have h := Finset.card_filter_le Finset.univ
    (fun p : Fin 3 × Fin 3 => getCell b p.1 p.2 = Square.Empty)
  simpa using h

theorem maxLoop_congr_lt (rec₁ rec₂ : Game → Int × (Nat × Nat) × Game) (g : Game)
    (hrec : ∀ g', (rec₁ g').2.2 = g')
    (heq : ∀ i j : Fin 3, getCell g.board i j = Square.Empty →
      rec₁ { g with board := setCell g.board i j g.agent } =
      rec₂ { g with board := setCell g.board i j g.agent }) :
    ∀ (cells : List (Fin 3 × Fin 3)) (best : Int) (bm : Nat × Nat),
      maxLoop rec₁ g cells best bm = maxLoop rec₂ g cells best bm := by
  intro cells
  induction cells with
  | nil => intro best bm; rfl
  | cons p rest ih =>
    intro best bm
    obtain ⟨i, j⟩ := p
    simp only [maxLoop]
    by_cases hcell : getCell g.board i j = Square.Empty
    · rw [if_pos hcell, if_pos hcell, ← heq i j hcell, hrec,
        setCell_setCell_cancel _ _ _ _ hcell]
      split <;> exact ih _ _
    · rw [if_neg hcell, if_neg hcell]
      exact ih _ _

theorem minLoop_congr_lt (rec₁ rec₂ : Game → Int × (Nat × Nat) × Game) (g : Game)
    (hrec : ∀ g', (rec₁ g').2.2 = g')
    (heq : ∀ i j : Fin 3, getCell g.board i j = Square.Empty →
      rec₁ { g with board := setCell g.board i j g.human } =
      rec₂ { g with board := setCell g.board i j g.human }) :
    ∀ (cells : List (Fin 3 × Fin 3)) (best : Int),
      minLoop rec₁ g cells best = minLoop rec₂ g cells best := by
  intro cells
  induction cells with
  | nil => intro best; rfl
  | cons p rest ih =>
    intro best
    obtain ⟨i, j⟩ := p
    simp only [minLoop]
    by_cases hcell : getCell g.board i j = Square.Empty
    · rw [if_pos hcell, if_pos hcell, ← heq i j hcell, hrec,
        setCell_setCell_cancel _ _ _ _ hcell]
      exact ih _
    · rw [if_neg hcell, if_neg hcell]
      exact ih _

theorem minimaxF_stable : ∀ (n : Nat) (g : Game) (d : Nat) (b : Bool) (f₁ f₂ : Nat),
    g.agent ≠ Square.Empty → g.human ≠ Square.Empty →
    emptyCount g.board = n → n < f₁ → n < f₂ →
    minimaxF f₁ g d b = minimaxF f₂ g d b := by
  intro n
  induction n using Nat.strong_induction_on with
  | _ n ih =>
    intro g d b f₁ f₂ ha hh hn h1 h2
    obtain ⟨m₁, rfl⟩ : ∃ m, f₁ = m + 1 := ⟨f₁ - 1, by omega⟩
    obtain ⟨m₂, rfl⟩ : ∃ m, f₂ = m + 1 := ⟨f₂ - 1, by omega⟩
    simp only [minimaxF]
    split
    · rfl
    split
    · rfl
    split
    · rfl
    split
    · refine maxLoop_congr_lt _ _ g (fun g' => minimaxF_state m₁ g' (d + 1) false)
        (fun i j hcell => ?_) allCells (-1000) (1, 1)
      have hlt : emptyCount (setCell g.board i j g.agent) < n := by
        rw [← hn]
        exact emptyCount_setCell_lt _ _ _ _ hcell ha
      exact ih _ hlt _ (d + 1) false m₁ m₂ ha hh rfl (by omega) (by omega)
    · refine minLoop_congr_lt _ _ g (fun g' => minimaxF_state m₁ g' (d + 1) true)
        (fun i j hcell => ?_) allCells 1000
      have hlt : emptyCount (setCell g.board i j g.human) < n := by
        rw [← hn]
        exact emptyCount_setCell_lt _ _ _ _ hcell hh
      exact ih _ hlt _ (d + 1) true m₁ m₂ ha hh rfl (by omega) (by omega)

/-- C8: `minimax` terminates on every game state (with the two players'
marks actually assigned, i.e. non-`Empty`): each recursive call strictly
decreases the number of empty cells, so any recursion-depth budget larger
than the number of empty cells yields the same, fully computed result —
the search runs to completion with no cutoff needed. -/
theorem claim_C8_terminates (g : Game) (depth : Nat) (is_maximizing : Bool) (fuel : Nat)
    (ha : g.agent ≠ Square.Empty) (hh : g.human ≠ Square.Empty)
    (hfuel : emptyCount g.board < fuel) :
    minimaxF fuel g depth is_maximizing = minimax g depth is_maximizing := by
  have h9 := emptyCount_le_nine g.board
  exact minimaxF_stable (emptyCount g.board) g depth is_maximizing fuel 10 ha hh rfl
    hfuel (by omega)

/-- Witness for C8: on a state with one empty cell, fuel 2 already gives
the fully computed result. -/
theorem claim_C8_witness :
    minimaxF 2 gOneEmpty 0 true = minimax gOneEmpty 0 true :=
  claim_C8_terminates gOneEmpty 0 true 2 (by decide) (by decide) (by decide)

/-! ### Pointwise loop bounds for the certificate checkers -/

theorem maxLoop_ge_best (rec : Game → Int × (Nat × Nat) × Game) :
    ∀ (cells : List (Fin 3 × Fin 3)) (g : Game) (best : Int) (bm : Nat × Nat),
      best ≤ (maxLoop rec g cells best bm).1 := by
  intro cells
  induction cells with
  | nil => intro g best bm; exact le_refl best
  | cons p rest ih =>
    intro g best bm
    obtain ⟨i, j⟩ := p
    simp only [maxLoop]
    split
    · split
      · rename_i hgt
        exact le_trans (le_of_lt hgt) (ih _ _ _)
      · exact ih _ _ _
    · exact ih _ _ _

theorem maxLoop_ge_at (rec : Game → Int × (Nat × Nat) × Game)
    (hrec : ∀ g', (rec g').2.2 = g') (g : Game) :
    ∀ (cells : List (Fin 3 × Fin 3)) (best : Int) (bm : Nat × Nat) (i j : Fin 3),
      (i, j) ∈ cells → getCell g.board i j = Square.Empty →
      (rec { g with board := setCell g.board i j g.agent }).1 ≤
        (maxLoop rec g cells best bm).1 := by
  intro cells
  induction cells with
  | nil => intro best bm i j hmem _; exact absurd hmem (List.not_mem_nil _)
  | cons p rest ih =>
    intro best bm i j hmem hcell
    obtain ⟨a, b⟩ := p
    simp only [maxLoop]
    rcases List.mem_cons.mp hmem with heq | hmem'
    · rw [Prod.mk.injEq] at heq
      obtain ⟨rfl, rfl⟩ := heq
      rw [if_pos hcell, hrec, setCell_setCell_cancel _ _ _ _ hcell]
      split
      · exact maxLoop_ge_best rec rest g _ _
      · rename_i hng
        exact le_trans (not_lt.mp hng) (maxLoop_ge_best rec rest g best bm)
    · by_cases hab : getCell g.board a b = Square.Empty
      · rw [if_pos hab, hrec, setCell_setCell_cancel _ _ _ _ hab]
        split
        · exact ih _ _ i j hmem' hcell
        · exact ih _ _ i j hmem' hcell
      · rw [if_neg hab]
        exact ih _ _ i j hmem' hcell

theorem minLoop_ge_v (rec : Game → Int × (Nat × Nat) × Game)
    (hrec : ∀ g', (rec g').2.2 = g') (g : Game) (v : Int) :
    ∀ (cells : List (Fin 3 × Fin 3)) (best : Int),
      (∀ i j : Fin 3, (i, j) ∈ cells → getCell g.board i j = Square.Empty →
        v ≤ (rec { g with board := setCell g.board i j g.human }).1) →
      v ≤ best → v ≤ (minLoop rec g cells best).1 := by
  intro cells
  induction cells with
  | nil => intro best _ hb; exact hb
  | cons p rest ih =>
    intro best hall hb
    obtain ⟨i, j⟩ := p
    simp only [minLoop]
    by_cases hcell : getCell g.board i j = Square.Empty
    · rw [if_pos hcell, hrec, setCell_setCell_cancel _ _ _ _ hcell]
      refine ih _ (fun a b hmem hab => hall a b (List.mem_cons_of_mem _ hmem) hab)
        (le_min hb (hall i j (List.mem_cons_self _ _) hcell))
    · rw [if_neg hcell]
      exact ih _ (fun a b hmem hab => hall a b (List.mem_cons_of_mem _ hmem) hab) hb

theorem maxLoop_le_v (rec : Game → Int × (Nat × Nat) × Game)
    (hrec : ∀ g', (rec g').2.2 = g') (g : Game) (v : Int) :
    ∀ (cells : List (Fin 3 × Fin 3)) (best : Int) (bm : Nat × Nat),
      (∀ i j : Fin 3, (i, j) ∈ cells → getCell g.board i j = Square.Empty →
        (rec { g with board := setCell g.board i j g.agent }).1 ≤ v) →
      best ≤ v → (maxLoop rec g cells best bm).1 ≤ v := by
  intro cells
  induction cells with
  | nil => intro best bm _ hb; exact hb
  | cons p rest ih =>
    intro best bm hall hb
    obtain ⟨i, j⟩ := p
    simp only [maxLoop]
    by_cases hcell : getCell g.board i j = Square.Empty
    · rw [if_pos hcell, hrec, setCell_setCell_cancel _ _ _ _ hcell]
      split
      · exact ih _ _ (fun a b hmem hab => hall a b (List.mem_cons_of_mem _ hmem) hab)
          (hall i j (List.mem_cons_self _ _) hcell)
      · exact ih _ _ (fun a b hmem hab => hall a b (List.mem_cons_of_mem _ hmem) hab) hb
    · rw [if_neg hcell]
      exact ih _ _ (fun a b hmem hab => hall a b (List.mem_cons_of_mem _ hmem) hab) hb

theorem minLoop_le_best (rec : Game → Int × (Nat × Nat) × Game) :
    ∀ (cells : List (Fin 3 × Fin 3)) (g : Game) (best : Int),
      (minLoop rec g cells best).1 ≤ best := by
  intro cells
  induction cells with
  | nil => intro g best; exact le_refl best
  | cons p rest ih =>
    intro g best
    obtain ⟨i, j⟩ := p
    simp only [minLoop]
    split
    · exact le_trans (ih _ _) (min_le_left _ _)
    · exact ih _ _

theorem minLoop_le_at (rec : Game → Int × (Nat × Nat) × Game)
    (hrec : ∀ g', (rec g').2.2 = g') (g : Game) :
    ∀ (cells : List (Fin 3 × Fin 3)) (best : Int) (i j : Fin 3),
      (i, j) ∈ cells → getCell g.board i j = Square.Empty →
      (minLoop rec g cells best).1 ≤
        (rec { g with board := setCell g.board i j g.human }).1 := by
  intro cells
  induction cells with
  | nil => intro best i j hmem _; exact absurd hmem (List.not_mem_nil _)
  | cons p rest ih =>
    intro best i j hmem hcell
    obtain ⟨a, b⟩ := p
    simp only [minLoop]
    rcases List.mem_cons.mp hmem with heq | hmem'
    · rw [Prod.mk.injEq] at heq
      obtain ⟨rfl, rfl⟩ := heq
      rw [if_pos hcell, hrec, setCell_setCell_cancel _ _ _ _ hcell]
      exact le_trans (minLoop_le_best rec rest g _) (min_le_right _ _)
    · by_cases hab : getCell g.board a b = Square.Empty
      · rw [if_pos hab, hrec, setCell_setCell_cancel _ _ _ _ hab]
        exact ih _ i j hmem' hcell
      · rw [if_neg hab]
        exact ih _ i j hmem' hcell

/-! ### Soundness of the certificate checkers -/

theorem certAll_forall (chk : Game → Cert → Bool) (place : Square) :
    ∀ (cells : List (Fin 3 × Fin 3)) (g : Game) (subs : List Cert),
      certAll chk place g cells subs = true →
      ∀ i j : Fin 3, (i, j) ∈ cells → getCell g.board i j = Square.Empty →
      ∃ s, chk { g with board := setCell g.board i j place } s = true := by
  intro cells
  induction cells with
  | nil => intro g subs _ i j hmem _; exact absurd hmem (List.not_mem_nil _)
  | cons p rest ih =>
    intro g subs h i j hmem hcell
    obtain ⟨a, b⟩ := p
    rcases List.mem_cons.mp hmem with heq | hmem'
    · rw [Prod.mk.injEq] at heq
      obtain ⟨rfl, rfl⟩ := heq
      cases subs with
      | nil =>
        rw [certAll, if_pos hcell] at h
        exact absurd h (by decide)
      | cons s srest =>
        rw [certAll, if_pos hcell, Bool.and_eq_true] at h
        exact ⟨s, h.1⟩
    · by_cases hab : getCell g.board a b = Square.Empty
      · cases subs with
        | nil =>
          rw [certAll, if_pos hab] at h
          exact absurd h (by decide)
        | cons s srest =>
          rw [certAll, if_pos hab, Bool.and_eq_true] at h
          exact ih g srest h.2 i j hmem' hcell
      · cases subs with
        | nil =>
          rw [certAll, if_neg hab] at h
          exact ih g [] h i j hmem' hcell
        | cons s srest =>
          rw [certAll, if_neg hab] at h
          exact ih g (s :: srest) h i j hmem' hcell

theorem lowerCheck_sound : ∀ (fuel : Nat) (g : Game) (d : Nat) (b : Bool)
    (cert : Cert) (v : Int), v ≤ 1000 → lowerCheck fuel g b cert v = true →
    v ≤ (minimaxF fuel g d b).1 := by
  intro fuel
  induction fuel with
  | zero =>
    intro g d b cert v _ h
    rw [lowerCheck] at h
    exact of_decide_eq_true h
  | succ fuel ih =>
    intro g d b cert v hv h
    rcases cert with ⟨i, j, sub⟩ | subs
    · rw [lowerCheck] at h
      rw [minimaxF]
      split at h
      · rename_i hA
        rw [if_pos hA]
        exact of_decide_eq_true h
      split at h
      · rename_i hH
        rename_i hA
        rw [if_neg hA, if_pos hH]
        exact of_decide_eq_true h
      split at h
      · rename_i hD
        rename_i hH hA
        rw [if_neg hA, if_neg hH, if_pos hD]
        exact of_decide_eq_true h
      rename_i hA hH hD
      split at h
      · rename_i hb
        rw [if_neg hA, if_neg hH, if_neg hD, if_pos hb]
        rw [Bool.and_eq_true] at h
        have hcell := of_decide_eq_true h.1
        refine le_trans (ih _ (d + 1) false sub v hv h.2) ?_
        exact maxLoop_ge_at _ (fun g' => minimaxF_state fuel g' (d + 1) false) g
          allCells (-1000) (1, 1) i j (mem_allCells (i, j)) hcell
      · exact absurd h (by decide)
    · rw [lowerCheck] at h
      rw [minimaxF]
      split at h
      · rename_i hA
        rw [if_pos hA]
        exact of_decide_eq_true h
      split at h
      · rename_i hH
        rename_i hA
        rw [if_neg hA, if_pos hH]
        exact of_decide_eq_true h
      split at h
      · rename_i hD
        rename_i hH hA
        rw [if_neg hA, if_neg hH, if_pos hD]
        exact of_decide_eq_true h
      rename_i hA hH hD
      split at h
      · exact absurd h (by decide)
      · rename_i hb
        rw [if_neg hA, if_neg hH, if_neg hD, if_neg hb]
        refine minLoop_ge_v _ (fun g' => minimaxF_state fuel g' (d + 1) true) g v
          allCells 1000 (fun i j hmem hcell => ?_) hv
        obtain ⟨s, hs⟩ := certAll_forall _ _ allCells g subs h i j hmem hcell
        exact ih _ (d + 1) true s v hv hs

theorem upperCheck_sound : ∀ (fuel : Nat) (g : Game) (d : Nat) (b : Bool)
    (cert : Cert) (v : Int), -1000 ≤ v → upperCheck fuel g b cert v = true →
    (minimaxF fuel g d b).1 ≤ v := by
  intro fuel
  induction fuel with
  | zero =>
    intro g d b cert v _ h
    rw [upperCheck] at h
    exact of_decide_eq_true h
  | succ fuel ih =>
    intro g d b cert v hv h
    rcases cert with ⟨i, j, sub⟩ | subs
    · rw [upperCheck] at h
      rw [minimaxF]
      split at h
      · rename_i hA
        rw [if_pos hA]
        exact of_decide_eq_true h
      split at h
      · rename_i hH
        rename_i hA
        rw [if_neg hA, if_pos hH]
        exact of_decide_eq_true h
      split at h
      · rename_i hD
        rename_i hH hA
        rw [if_neg hA, if_neg hH, if_pos hD]
        exact of_decide_eq_true h
      rename_i hA hH hD
      split at h
      · exact absurd h (by decide)
      · rename_i hb
        rw [if_neg hA, if_neg hH, if_neg hD, if_neg hb]
        rw [Bool.and_eq_true] at h
        have hcell := of_decide_eq_true h.1
        refine le_trans ?_ (ih _ (d + 1) true sub v hv h.2)
        exact minLoop_le_at _ (fun g' => minimaxF_state fuel g' (d + 1) true) g
          allCells 1000 i j (mem_allCells (i, j)) hcell
    · rw [upperCheck] at h
      rw [minimaxF]
      split at h
      · rename_i hA
        rw [if_pos hA]
        exact of_decide_eq_true h
      split at h
      · rename_i hH
        rename_i hA
        rw [if_neg hA, if_pos hH]
        exact of_decide_eq_true h
      split at h
      · rename_i hD
        rename_i hH hA
        rw [if_neg hA, if_neg hH, if_pos hD]
        exact of_decide_eq_true h
      rename_i hA hH hD
      split at h
      · rename_i hb
        rw [if_neg hA, if_neg hH, if_neg hD, if_pos hb]
        refine maxLoop_le_v _ (fun g' => minimaxF_state fuel g' (d + 1) false) g v
          allCells (-1000) (1, 1) (fun i j hmem hcell => ?_) hv
        obtain ⟨s, hs⟩ := certAll_forall _ _ allCells g subs h i j hmem hcell
        exact ih _ (d + 1) false s v hv hs
      · exact absurd h (by decide)

/-! ### The nine one-move positions all have score 0 -/

theorem child_00 (d : Nat) :
    (minimaxF 9 { Game.new with
      board := setCell Game.new.board 0 0 Game.new.agent } d false).1 = 0 :=
  le_antisymm
    (upperCheck_sound 9 _ d false certU00 0 (by norm_num) (by decide))
    (lowerCheck_sound 9 _ d false certL00 0 (by norm_num) (by decide))

theorem child_01 (d : Nat) :
    (minimaxF 9 { Game.new with
      board := setCell Game.new.board 0 1 Game.new.agent } d false).1 = 0 :=
  le_antisymm
    (upperCheck_sound 9 _ d false certU01 0 (by norm_num) (by decide))
    (lowerCheck_sound 9 _ d false certL01 0 (by norm_num) (by decide))

theorem child_02 (d : Nat) :
    (minimaxF 9 { Game.new with
      board := setCell Game.new.board 0 2 Game.new.agent } d false).1 = 0 :=
  le_antisymm
    (upperCheck_sound 9 _ d false certU02 0 (by norm_num) (by decide))
    (lowerCheck_sound 9 _ d false certL02 0 (by norm_num) (by decide))

theorem child_10 (d : Nat) :
    (minimaxF 9 { Game.new with
      board := setCell Game.new.board 1 0 Game.new.agent } d false).1 = 0 :=
  le_antisymm
    (upperCheck_sound 9 _ d false certU10 0 (by norm_num) (by decide))
    (lowerCheck_sound 9 _ d false certL10 0 (by norm_num) (by decide))

theorem child_11 (d : Nat) :
    (minimaxF 9 { Game.new with
      board := setCell Game.new.board 1 1 Game.new.agent } d false).1 = 0 :=
  le_antisymm
    (upperCheck_sound 9 _ d false certU11 0 (by norm_num) (by decide))
    (lowerCheck_sound 9 _ d false certL11 0 (by norm_num) (by decide))

theorem child_12 (d : Nat) :
    (minimaxF 9 { Game.new with
      board := setCell Game.new.board 1 2 Game.new.agent } d false).1 = 0 :=
  le_antisymm
    (upperCheck_sound 9 _ d false certU12 0 (by norm_num) (by decide))
    (lowerCheck_sound 9 _ d false certL12 0 (by norm_num) (by decide))

theorem child_20 (d : Nat) :
    (minimaxF 9 { Game.new with
      board := setCell Game.new.board 2 0 Game.new.agent } d false).1 = 0 :=
  le_antisymm
    (upperCheck_sound 9 _ d false certU20 0 (by norm_num) (by decide))
    (lowerCheck_sound 9 _ d false certL20 0 (by norm_num) (by decide))

theorem child_21 (d : Nat) :
    (minimaxF 9 { Game.new with
      board := setCell Game.new.board 2 1 Game.new.agent } d false).1 = 0 :=
  le_antisymm
    (upperCheck_sound 9 _ d false certU21 0 (by norm_num) (by decide))
    (lowerCheck_sound 9 _ d false certL21 0 (by norm_num) (by decide))

theorem child_22 (d : Nat) :
    (minimaxF 9 { Game.new with
      board := setCell Game.new.board 2 2 Game.new.agent } d false).1 = 0 :=
  le_antisymm
    (upperCheck_sound 9 _ d false certU22 0 (by norm_num) (by decide))
    (lowerCheck_sound 9 _ d false certL22 0 (by norm_num) (by decide))

theorem child_any (i j : Fin 3) (d : Nat) :
    (minimaxF 9 { Game.new with
      board := setCell Game.new.board i j Game.new.agent } d false).1 = 0 := by
  fin_cases i <;> fin_cases j
  · exact child_00 d
  · exact child_01 d
  · exact child_02 d
  · exact child_10 d
  · exact child_11 d
  · exact child_12 d
  · exact child_20 d
  · exact child_21 d
  · exact child_22 d

/-! ### Evaluating the top-level maximizing loop -/

theorem maxLoop_minimax_cons_empty (fuel d : Nat) (g : Game) (i j : Fin 3)
    (rest : List (Fin 3 × Fin 3)) (best : Int) (bm : Nat × Nat)
    (hcell : getCell g.board i j = Square.Empty) :
    maxLoop (fun g' => minimaxF fuel g' d false) g ((i, j) :: rest) best bm =
      if (minimaxF fuel { g with board := setCell g.board i j g.agent } d false).1 > best then
        maxLoop (fun g' => minimaxF fuel g' d false) g rest
          (minimaxF fuel { g with board := setCell g.board i j g.agent } d false).1
          (i.val, j.val)
      else
        maxLoop (fun g' => minimaxF fuel g' d false) g rest best bm := by
  simp only [maxLoop]
  rw [if_pos hcell, minimaxF_state, setCell_setCell_cancel _ _ _ _ hcell]

theorem maxLoop_minimax_no_improve (fuel d : Nat) (g : Game) :
    ∀ (cells : List (Fin 3 × Fin 3)) (best : Int) (bm : Nat × Nat),
      (∀ i j : Fin 3, (i, j) ∈ cells → getCell g.board i j = Square.Empty →
        ¬((minimaxF fuel { g with board := setCell g.board i j g.agent } d false).1 > best)) →
      maxLoop (fun g' => minimaxF fuel g' d false) g cells best bm = (best, bm, g) := by
  intro cells
  induction cells with
  | nil => intro best bm _; rfl
  | cons p rest ih =>
    intro best bm hno
    obtain ⟨a, b⟩ := p
    simp only [maxLoop]
    by_cases hcell : getCell g.board a b = Square.Empty
    · rw [if_pos hcell, minimaxF_state, setCell_setCell_cancel _ _ _ _ hcell,
        if_neg (hno a b (List.mem_cons_self _ _) hcell)]
      exact ih _ _ (fun i j hmem h => hno i j (List.mem_cons_of_mem _ hmem) h)
    · rw [if_neg hcell]
      exact ih _ _ (fun i j hmem h => hno i j (List.mem_cons_of_mem _ hmem) h)

/-- C4: from the freshly created game (all nine cells empty, complementary
human/agent marks), maximizing search returns score 0 and move `(0, 0)`:
all nine first-ply subtrees score 0, and the strict-improvement tie-break
in row-major order keeps the earliest cell. -/
theorem claim_C4_empty_board : minimax Game.new 0 true = (0, (0, 0), Game.new) := by
  show minimaxF (9 + 1) Game.new 0 true = (0, (0, 0), Game.new)
  rw [minimaxF]
  rw [if_neg (by decide : ¬is_winner Game.new Game.new.agent = true),
    if_neg (by decide : ¬is_winner Game.new Game.new.human = true),
    if_neg (by decide : ¬is_draw Game.new = true), if_pos rfl]
  rw [allCells]
  rw [maxLoop_minimax_cons_empty 9 (0 + 1) Game.new 0 0 _ (-1000) (1, 1) rfl]
  rw [child_00]
  rw [if_pos (by norm_num : (0 : Int) > -1000)]
  rw [maxLoop_minimax_no_improve 9 (0 + 1) Game.new _ 0 _ ?hno]
  · rfl
  case hno =>
    intro i j hmem hcell
    rw [child_any i j]
    norm_num
